import Mathlib

/-!
# Checkout consistency of the storefront

A shallow embedding of `cartController.checkout`
(`src/server/controllers/cartController.js`, lines 675-854) together with the
tables it reads and writes, and of the controllers around it:
`promotionController.validatePromotion`, `orderController.createOrder`,
`orderController.cancelOrder`, the cart controllers `addToCart`, `syncCart`,
`updateCartItem`, `removeFromCart`, `clearCart`, `getCart` and `getCartData`,
and the routes `POST /api/cart` and `PUT /api/orders/:orderId/cancel`.

Modelling conventions.

* A table is a list of rows; a `SELECT` is a filter (a join is a nested
  filter), an `UPDATE` is a map, an `INSERT` appends, a `DELETE` filters.
  The row order of a result set is the list order.
* JavaScript numbers and `DECIMAL` columns are exact rationals, integer
  columns are integers; `Math.floor` is the integer floor.  Rounding of
  doubles and of `DECIMAL(18,2)` parameters is not modelled.
* A transaction works on a private copy of the store.  `rollback` keeps the
  store of `begin`, `commit` publishes the copy.  Every awaited database call
  is one numbered statement; the parameter `fault` names the statement (if
  any) at which the driver throws, which sends control to the `catch` block.
* A controller that opens a transaction makes one `sql.Request` and declares
  the parameters of all its statements on it with `.input(name, ...)`.  The
  driver throws when a name is declared a second time on the same request;
  the transaction carries the names declared so far.
* `GETDATE()` is the parameter `now`; the identity value that the database
  gives the inserted order row is the parameter `fresh`.
* A stored code equals a bound parameter when they are the same string;
  collations are not modelled.  A request body is a list of bindings whose
  first binding of a key is the value of the field.
-/

namespace Shop

/-! ## JavaScript values of a request body -/

/-- A JSON value of a request body; `obj` stands for any array or object. -/
inductive JsValue where
  | null
  | bool (b : Bool)
  | num (q : ℚ)
  | str (s : String)
  | obj (tag : Nat)
  deriving DecidableEq, Repr

/-- JavaScript truthiness of a value. -/
def JsValue.truthy : JsValue → Bool
  | .null => false
  | .bool b => b
  | .num q => q != 0
  | .str s => s != ""
  | .obj _ => true

/-- Truthiness of a destructured field; a missing field is `undefined`. -/
def truthy : Option JsValue → Bool
  | none => false
  | some v => v.truthy

/-- The parsed request body `req.body`: a JSON object as a list of bindings. -/
abbrev Body := List (String × JsValue)

/-- Property access `req.body.k`; `none` is `undefined`. -/
def Body.field (b : Body) (k : String) : Option JsValue :=
  b.lookup k

/-! ## Tables -/

/-- A row of `products` (the columns the checkout reads or writes). -/
structure Product where
  product_id : Nat
  name : String
  price : ℚ
  stock : Int
  discount_percent : Option ℚ
  deriving DecidableEq, Repr

/-- A row of `cart`. -/
structure CartLine where
  cart_id : Nat
  user_id : Nat
  product_id : Nat
  quantity : Int
  color : Option String
  size : Option String
  deriving DecidableEq, Repr

/-- A row of `promotions`. -/
structure Promotion where
  code : String
  discount_type : String
  discount_value : ℚ
  min_order_amount : ℚ
  usage_limit : Option Int
  used_count : Int
  start_date : Option Int
  end_date : Option Int
  is_active : Bool
  deriving DecidableEq, Repr

/-- A row of `orders`. -/
structure Order where
  order_id : Nat
  user_id : Nat
  total_amount : ℚ
  status : String
  shipping_address : Option JsValue
  phone : Option JsValue
  notes : Option JsValue
  payment_method : Option JsValue
  created_at : Int
  deriving DecidableEq, Repr

/-- A row of `order_details`. -/
structure OrderDetail where
  order_id : Nat
  product_id : Nat
  quantity : Int
  price : ℚ
  color : Option String
  size : Option String
  created_at : Int
  deriving DecidableEq, Repr

/-- The database. -/
structure Store where
  products : List Product
  cart : List CartLine
  promotions : List Promotion
  orders : List Order
  order_details : List OrderDetail
  deriving DecidableEq, Repr

/-- Modelled from the spec: the table definitions are not part of the
sources, so the default of `orders.status`, which the `INSERT` of the
checkout leaves to the database, is taken from the spec ("insert the Order
row (status `pending`)"). -/
def defaultOrderStatus : String := "pending"

/-! ## Transactions -/

/-- A running `sql.Transaction` with its one `sql.Request`: the store at
`begin`, the private working copy, the number of statements issued so far, and
the parameter names declared on the request so far. -/
structure Tx where
  base : Store
  work : Store
  issued : Nat
  declared : List String := []
  deriving Repr

/-- One awaited database call.  It throws (`none`) when it is the statement
named by `fault`; otherwise it applies its effect to the working copy. -/
def Tx.exec (fault : Option Nat) (t : Tx) (effect : Store → Store) : Option Tx :=
  if fault = some t.issued then none
  else some { t with work := effect t.work, issued := t.issued + 1 }

/-- One call `request.input(name, ...)`: the driver throws (`none`) when the
request already has a parameter of this name. -/
def Tx.input (t : Tx) (name : String) : Option Tx :=
  if name ∈ t.declared then none else some { t with declared := name :: t.declared }

/-- A chain of calls `.input(...)`, in the order of the source. -/
def Tx.inputs (t : Tx) : List String → Option Tx
  | [] => some t
  | name :: rest => (t.input name).bind fun t1 => t1.inputs rest

/-- One statement `await request.input(...). ... .query(...)`: the parameters
are declared, then the query is issued. -/
def Tx.query (fault : Option Nat) (t : Tx) (names : List String) (effect : Store → Store) :
    Option Tx :=
  (t.inputs names).bind fun t1 => t1.exec fault effect

/-- Effect of `transaction.rollback()`: the store is the one of `begin`. -/
def Tx.rollback (t : Tx) : Store := t.base

/-- Effect of a successful `transaction.commit()`: the working copy. -/
def Tx.commit (t : Tx) : Store := t.work

/-! ## The statements of `checkout` -/

/-- A row of the join `cart c JOIN products p ON c.product_id = p.product_id`. -/
structure CartRow where
  cart_id : Nat
  product_id : Nat
  quantity : Int
  color : Option String
  size : Option String
  name : String
  price : ℚ
  stock : Int
  discount_percent : Option ℚ
  deriving DecidableEq, Repr

/-- The joined row of a cart line and a product. -/
def joinRow (c : CartLine) (p : Product) : CartRow :=
  { cart_id := c.cart_id, product_id := c.product_id, quantity := c.quantity,
    color := c.color, size := c.size, name := p.name, price := p.price,
    stock := p.stock, discount_percent := p.discount_percent }

/-- Lines 701-710: the cart of `userId` joined with `products`. -/
def selectCart (s : Store) (userId : Nat) : List CartRow :=
  (s.cart.filter fun c => c.user_id = userId).flatMap fun c =>
    (s.products.filter fun p => c.product_id = p.product_id).map fun p => joinRow c p

/-- Lines 731 and 809: `item.price * (1 - (item.discount_percent || 0) / 100)`. -/
def finalPrice (item : CartRow) : ℚ :=
  item.price * (1 - (item.discount_percent.getD 0) / 100)

/-- Line 727: the entry pushed on `unavailableItems`. -/
def unavailableMessage (item : CartRow) : String :=
  item.name ++ " - Không đủ hàng (còn " ++ toString item.stock ++ ")"

/-- Lines 725-733: one round of the stock loop on `(total_amount, unavailableItems)`. -/
def stockStep (acc : ℚ × List String) (item : CartRow) : ℚ × List String :=
  if item.stock < item.quantity then (acc.1, acc.2 ++ [unavailableMessage item])
  else (acc.1 + finalPrice item * item.quantity, acc.2)

/-- Lines 721-733: the stock loop over the cart rows. -/
def stockLoop (cartItems : List CartRow) : ℚ × List String :=
  cartItems.foldl stockStep (0, [])

/-- Comparison `code = @code` of a stored code with the bound parameter.
Only a string parameter can equal a stored code. -/
def codeMatches (code : String) (param : JsValue) : Bool :=
  match param with
  | .str c => code = c
  | _ => false

/-- Lines 749-755: the promotions with this code that are active and within
their date window. -/
def selectPromotion (s : Store) (now : Int) (code : JsValue) : List Promotion :=
  s.promotions.filter fun p =>
    codeMatches p.code code && p.is_active
      && (match p.start_date with | none => true | some d => decide (d ≤ now))
      && (match p.end_date with | none => true | some d => decide (d ≥ now))

/-- Line 760: `promotion.usage_limit && promotion.used_count >= promotion.usage_limit`. -/
def usageExhausted (p : Promotion) : Bool :=
  match p.usage_limit with
  | none => false
  | some l => l != 0 && decide (p.used_count ≥ l)

/-- Lines 769-773: the discount of a promotion on a total. -/
def promotionDiscount (p : Promotion) (total_amount : ℚ) : ℚ :=
  if p.discount_type = "percent" then ((⌊total_amount * p.discount_value / 100⌋ : Int) : ℚ)
  else p.discount_value

/-- Line 780: `UPDATE promotions SET used_count = used_count + 1 WHERE code = @code2`. -/
def redeemPromotion (code : JsValue) (s : Store) : Store :=
  { s with promotions := s.promotions.map fun p =>
      if codeMatches p.code code then { p with used_count := p.used_count + 1 } else p }

/-- Lines 793-803: the order row that is inserted. -/
def orderOf (now : Int) (fresh userId : Nat) (total_amount : ℚ)
    (shipping_address phone notes payment_method : Option JsValue) : Order :=
  { order_id := fresh, user_id := userId, total_amount := total_amount,
    status := defaultOrderStatus, shipping_address := shipping_address,
    phone := phone, notes := notes, payment_method := payment_method, created_at := now }

/-- Lines 799-803: the `INSERT INTO orders`. -/
def insertOrder (now : Int) (fresh userId : Nat) (total_amount : ℚ)
    (shipping_address phone notes payment_method : Option JsValue) (s : Store) : Store :=
  { s with orders := s.orders ++
      [orderOf now fresh userId total_amount shipping_address phone notes payment_method] }

/-- Lines 813-818: the values bound for the order line of one cart row. -/
def orderDetailOf (now : Int) (order_id : Nat) (item : CartRow) : OrderDetail :=
  { order_id := order_id, product_id := item.product_id, quantity := item.quantity,
    price := finalPrice item, color := item.color, size := item.size, created_at := now }

/-- Lines 812-822: the `INSERT INTO order_details` for one cart row. -/
def insertOrderDetail (now : Int) (order_id : Nat) (item : CartRow) (s : Store) : Store :=
  { s with order_details := s.order_details ++ [orderDetailOf now order_id item] }

/-- Line 828: `UPDATE products SET stock = stock - @quantity2 WHERE product_id = @productId2`. -/
def decrementStock (item : CartRow) (s : Store) : Store :=
  { s with products := s.products.map fun p =>
      if p.product_id = item.product_id then { p with stock := p.stock - item.quantity } else p }

/-- Line 834: `DELETE FROM cart WHERE user_id = @userId3`. -/
def deleteCart (userId : Nat) (s : Store) : Store :=
  { s with cart := s.cart.filter fun c => ¬ (c.user_id = userId) }

/-! ## The controller -/

/-- The JSON answers of `checkout`. -/
inductive CheckoutResponse where
  | missingRequiredFields
  | emptyCart
  | unavailableItems (unavailable_items : List String)
  | promotionExhausted
  | invalidPromotion
  | created (order_id : Nat) (total_amount promotion_discount : ℚ) (items_count : Nat)
  | checkoutError
  deriving DecidableEq, Repr

/-- The HTTP status of an answer. -/
def CheckoutResponse.status : CheckoutResponse → Nat
  | .created _ _ _ _ => 201
  | .checkoutError => 500
  | _ => 400

/-- The `code` field of an answer (absent on success). -/
def CheckoutResponse.code : CheckoutResponse → Option String
  | .missingRequiredFields => some "MISSING_REQUIRED_FIELDS"
  | .emptyCart => some "EMPTY_CART"
  | .unavailableItems _ => some "UNAVAILABLE_ITEMS"
  | .promotionExhausted => some "PROMOTION_EXHAUSTED"
  | .invalidPromotion => some "INVALID_PROMOTION"
  | .created _ _ _ _ => none
  | .checkoutError => some "CHECKOUT_ERROR"

/-- Result of the promotion block: an early answer, or the priced total. -/
inductive Pricing where
  | abort (r : CheckoutResponse)
  | priced (total_amount promotion_discount : ℚ) (t : Tx)

/-- Lines 744-789: the promotion block. -/
def applyPromotion (fault : Option Nat) (now : Int) (promotion_code : Option JsValue)
    (total_amount : ℚ) (t : Tx) : Option Pricing :=
  match promotion_code with
  | none => some (.priced total_amount 0 t)
  | some code =>
    if code.truthy then
      (t.query fault ["code"] id).bind fun t1 =>
        match selectPromotion t1.work now code with
        | promotion :: _ =>
          if usageExhausted promotion then some (.abort .promotionExhausted)
          else if total_amount ≥ promotion.min_order_amount then
            (t1.query fault ["code2"] (redeemPromotion code)).bind fun t2 =>
              some (.priced (total_amount - promotionDiscount promotion total_amount)
                (promotionDiscount promotion total_amount) t2)
          else some (.priced total_amount 0 t1)
        | [] => some (.abort .invalidPromotion)
    else some (.priced total_amount 0 t)

/-- Lines 808-829: the loop that inserts the order lines and decrements stock.
Every round declares `orderId`, `productId`, `quantity`, `price`, `color`,
`size`, `productId2` and `quantity2` on the request of line 681. -/
def persistLines (fault : Option Nat) (now : Int) (order_id : Nat) :
    List CartRow → Tx → Option Tx
  | [], t => some t
  | item :: rest, t =>
    (t.query fault ["orderId", "productId", "quantity", "price", "color", "size"]
        (insertOrderDetail now order_id item)).bind fun t1 =>
      (t1.query fault ["productId2", "quantity2"] (decrementStock item)).bind fun t2 =>
        persistLines fault now order_id rest t2

/-- Lines 679-844: the `try` block on the destructured fields.  `none` is a
thrown exception; otherwise the answer and the store left behind. -/
def checkoutTry (fault : Option Nat) (now : Int) (fresh userId : Nat)
    (shipping_address phone notes promotion_code payment_method : Option JsValue)
    (s : Store) : Option (CheckoutResponse × Store) :=
  (Tx.exec fault { base := s, work := s, issued := 0 } id).bind fun t0 =>
    if !truthy shipping_address || !truthy phone then
      some (.missingRequiredFields, t0.rollback)
    else
      (t0.query fault ["userId"] id).bind fun t1 =>
        let cartItems := selectCart t1.work userId
        if cartItems.length = 0 then some (.emptyCart, t1.rollback)
        else
          if (stockLoop cartItems).2.length > 0 then
            some (.unavailableItems (stockLoop cartItems).2, t1.rollback)
          else
            (applyPromotion fault now promotion_code (stockLoop cartItems).1 t1).bind fun
              | .abort r => some (r, t1.rollback)
              | .priced total_amount promotion_discount t2 =>
                (t2.query fault
                    ["userId2", "total_amount", "shipping_address", "phone", "notes",
                      "payment_method"]
                    (insertOrder now fresh userId total_amount
                      shipping_address phone notes payment_method)).bind fun t3 =>
                  (persistLines fault now fresh cartItems t3).bind fun t4 =>
                    (t4.query fault ["userId3"] (deleteCart userId)).bind fun t5 =>
                      (t5.exec fault id).bind fun t6 =>
                        some (.created fresh total_amount promotion_discount cartItems.length,
                          t6.commit)

/-- Lines 683-689: the default of the destructuring `payment_method = 'COD'`. -/
def paymentMethodOf (body : Body) : Option JsValue :=
  match body.field "payment_method" with
  | none => some (.str "COD")
  | some v => some v

/-- The controller `cartController.checkout` (lines 675-854): the answer and
the store after the call.  `userId` is `req.user.user_id`. -/
def checkout (fault : Option Nat) (now : Int) (fresh userId : Nat) (body : Body)
    (s : Store) : CheckoutResponse × Store :=
  match checkoutTry fault now fresh userId (body.field "shipping_address")
      (body.field "phone") (body.field "notes") (body.field "promotion_code")
      (paymentMethodOf body) s with
  | some r => r
  | none => (.checkoutError, s)

/-! ## Quantities used in the statements -/

/-- Total quantity of the rows `items` that refer to product `pid`. -/
def purchased (items : List CartRow) (pid : Nat) : Int :=
  ((items.filter fun i => i.product_id = pid).map fun i => i.quantity).sum

/-- Sum over the rows of `quantity x price x (1 - discount_percent/100)`. -/
def subtotal (items : List CartRow) : ℚ :=
  (items.map fun i => (i.quantity : ℚ) * i.price * (1 - (i.discount_percent.getD 0) / 100)).sum

/-- The promotion that the promotion block applies to `total_amount`, if any:
the first selected row, provided the code is truthy, the row is not exhausted
and the total reaches its minimum. -/
def appliedPromotion (s : Store) (now : Int) (promotion_code : Option JsValue)
    (total_amount : ℚ) : Option Promotion :=
  match promotion_code with
  | none => none
  | some code =>
    if code.truthy then
      match selectPromotion s now code with
      | p :: _ => if !usageExhausted p && decide (total_amount ≥ p.min_order_amount) then some p
                  else none
      | [] => none
    else none

/-- The promotion lookup does not reject: no truthy code, or a selected and
not exhausted first row. -/
def promotionAccepted (s : Store) (now : Int) (promotion_code : Option JsValue) : Prop :=
  truthy promotion_code = false ∨
    ∃ code p rest, promotion_code = some code ∧ selectPromotion s now code = p :: rest ∧
      usageExhausted p = false

/-- The cart lines of a user. -/
def cartLines (s : Store) (userId : Nat) : List CartLine :=
  s.cart.filter fun c => c.user_id = userId

/-- The product with a given id (unique when `product_id` is a key). -/
def productOf (s : Store) (pid : Nat) : Option Product :=
  s.products.find? fun p => pid = p.product_id

/-- The amount of one cart line: `quantity x price x (1 - discount_percent/100)`
with the price and discount of its product. -/
def lineAmount (s : Store) (c : CartLine) : ℚ :=
  match productOf s c.product_id with
  | some p => (c.quantity : ℚ) * p.price * (1 - (p.discount_percent.getD 0) / 100)
  | none => 0

/-- Sum of the amounts of the cart lines of a user. -/
def cartTotal (s : Store) (userId : Nat) : ℚ :=
  ((cartLines s userId).map (lineAmount s)).sum

/-- Total quantity that the cart lines of a user hold of product `pid`. -/
def cartQuantity (s : Store) (userId pid : Nat) : Int :=
  (((cartLines s userId).filter fun c => c.product_id = pid).map fun c => c.quantity).sum

/-- The `promotion_discount` that the promotion block computes on `total_amount`. -/
def discountGiven (s : Store) (now : Int) (promotion_code : Option JsValue)
    (total_amount : ℚ) : ℚ :=
  match appliedPromotion s now promotion_code total_amount with
  | some p => promotionDiscount p total_amount
  | none => 0

/-- The table `promotions` after the promotion block on `total_amount`. -/
def promotionsAfter (s : Store) (now : Int) (promotion_code : Option JsValue)
    (total_amount : ℚ) : List Promotion :=
  match appliedPromotion s now promotion_code total_amount, promotion_code with
  | some _, some code => (redeemPromotion code s).promotions
  | _, _ => s.promotions

/-- Effect of the loop of lines 808-829 on a store when no statement throws. -/
def persistAll (now : Int) (order_id : Nat) (items : List CartRow) (w : Store) : Store :=
  items.foldl (fun w i => decrementStock i (insertOrderDetail now order_id i w)) w

/-- The store that a successful checkout commits. -/
def successStore (s : Store) (now : Int) (fresh userId : Nat)
    (shipping_address phone notes promotion_code payment_method : Option JsValue) : Store :=
  { products := s.products.map fun p =>
      { p with stock := p.stock - purchased (selectCart s userId) p.product_id }
    cart := s.cart.filter fun c => ¬ (c.user_id = userId)
    promotions := promotionsAfter s now promotion_code (subtotal (selectCart s userId))
    orders := s.orders ++
      [orderOf now fresh userId
        (subtotal (selectCart s userId)
          - discountGiven s now promotion_code (subtotal (selectCart s userId)))
        shipping_address phone notes payment_method]
    order_details := s.order_details ++ (selectCart s userId).map (orderDetailOf now fresh) }

/-! ## Example data -/

/-- Product A of the worked example: price 100000, discount 10 percent. -/
def productA (stock : Int) : Product :=
  { product_id := 1, name := "A", price := 100000, stock := stock, discount_percent := some 10 }

/-- One cart line of user 7: two units of product 1. -/
def lineA : CartLine :=
  { cart_id := 1, user_id := 7, product_id := 1, quantity := 2, color := none, size := none }

/-- Promotion SALE10: 10 percent off, no minimum, always active. -/
def sale10 (limit : Option Int) (used : Int) : Promotion :=
  { code := "SALE10", discount_type := "percent", discount_value := 10, min_order_amount := 0,
    usage_limit := limit, used_count := used, start_date := none, end_date := none,
    is_active := true }

/-- The store of the worked example. -/
def exampleStore (stock : Int) (limit : Option Int) (used : Int) : Store :=
  { products := [productA stock], cart := [lineA], promotions := [sale10 limit used],
    orders := [], order_details := [] }

/-- A well-formed checkout request with a promotion code. -/
def exampleBody (code : String) : Body :=
  [("shipping_address", .str "12 Nguyen Trai, Ha Noi"), ("phone", .str "0912345678"),
   ("promotion_code", .str code)]

/-- A well-formed checkout request without a promotion code. -/
def plainBody : Body :=
  [("shipping_address", .str "12 Nguyen Trai, Ha Noi"), ("phone", .str "0912345678")]

/-- The request that the browser sends: the same fields plus its own items and totals. -/
def browserBody : Body :=
  [("items", .obj 0), ("subtotal", .num 1), ("total", .num 1),
   ("shipping_address", .str "12 Nguyen Trai, Ha Noi"), ("phone", .str "0912345678")]

/-- A store in which user 7 holds two variants (red, blue) of product 1, two
units each, while the stock is 3. -/
def twoVariantStore : Store :=
  { products := [{ product_id := 1, name := "A", price := 100000, stock := 3,
                   discount_percent := none }],
    cart := [{ cart_id := 1, user_id := 7, product_id := 1, quantity := 2,
               color := some "red", size := none },
             { cart_id := 2, user_id := 7, product_id := 1, quantity := 2,
               color := some "blue", size := none }],
    promotions := [], orders := [], order_details := [] }

/-- A store with a cart worth 30000 and a fixed promotion FIXED50 of 50000
without minimum. -/
def fixedPromoStore : Store :=
  { products := [{ product_id := 1, name := "A", price := 30000, stock := 5,
                   discount_percent := none }],
    cart := [{ cart_id := 1, user_id := 7, product_id := 1, quantity := 1,
               color := none, size := none }],
    promotions := [{ code := "FIXED50", discount_type := "fixed", discount_value := 50000,
                     min_order_amount := 0, usage_limit := none, used_count := 0,
                     start_date := none, end_date := none, is_active := true }],
    orders := [], order_details := [] }

/-- A store with a cart worth 180000 and an active promotion BIG500 that asks
for an order of at least 500000. -/
def minimumPromoStore : Store :=
  { products := [productA 5], cart := [lineA],
    promotions := [{ code := "BIG500", discount_type := "percent", discount_value := 10,
                     min_order_amount := 500000, usage_limit := none, used_count := 0,
                     start_date := none, end_date := none, is_active := true }],
    orders := [], order_details := [] }

/-- A store whose promotion SALE10 has used its single redemption. -/
def exhaustedStore : Store := exampleStore 5 (some 1) 1

/-! ## Conversions of the JavaScript runtime -/

/-- The conversions of the JavaScript runtime on request values whose result
depends on the text of a string or on the shape of an object.  The controllers
call them but the sources do not define them, so they are parameters of the
embedding: `toNumber` is `Number(v)` and `parseInt` is `parseInt(v)` (`none`
is `NaN`), `toString` is `v.toString()`, `trim` is `String.prototype.trim`. -/
structure JsRuntime where
  toNumber : JsValue → Option ℚ
  parseInt : JsValue → Option Int
  toString : JsValue → String
  trim : String → String

/-- Truncation of a rational towards zero. -/
def truncate (q : ℚ) : Int :=
  if 0 ≤ q then ⌊q⌋ else ⌈q⌉

/-- Numeric value `Number(v)` of a request value; `none` is `NaN`.  Exact on
`null`, booleans and numbers; strings and objects go through the runtime. -/
def jsNumber (rt : JsRuntime) : JsValue → Option ℚ
  | .null => some 0
  | .bool b => some (if b then 1 else 0)
  | .num q => some q
  | v => rt.toNumber v

/-- The call `parseInt(v)`; `none` is `NaN`.  The argument is first printed.
`null` and booleans print as words and give `NaN`.  A number that is 0 or
whose absolute value is at least 1e-6 and below 1e21 prints in decimal
notation, and `parseInt` reads the digits before the point: the integer part.
Any other number prints with an exponent (`5e-7`, `1e+21`); `parseInt` then
reads the digits before the exponent, which is left to the runtime, as are
strings and objects. -/
def jsParseInt (rt : JsRuntime) : JsValue → Option Int
  | .null => none
  | .bool _ => none
  | .num q =>
    if q = 0 ∨ ((1 / 1000000 ≤ q ∨ q ≤ -(1 / 1000000)) ∧
        -1000000000000000000000 < q ∧ q < 1000000000000000000000) then
      some (truncate q)
    else rt.parseInt (.num q)
  | v => rt.parseInt v

/-- The call `v.toString()` on a truthy value: a string is itself, every other
value goes through the runtime. -/
def jsToString (rt : JsRuntime) : JsValue → String
  | .str s => s
  | v => rt.toString v

/-- The comparison `a < b` of a JavaScript number with a stored amount; a
comparison with `NaN` is false. -/
def jsLess (a : Option ℚ) (b : ℚ) : Bool :=
  match a with
  | some x => decide (x < b)
  | none => false

/-! ## `promotionController.validatePromotion` -/

/-- The JSON answers of `validatePromotion`
(`src/server/controllers/promotionController.js`, lines 31-99). -/
inductive ValidateResponse where
  | missingInput
  | notFoundOrExpired
  | exhausted
  | belowMinimum (min_order_amount : ℚ)
  | valid (discount_amount : Option ℚ) (discount_type : String) (discount_value : ℚ)
  | serverError
  deriving DecidableEq, Repr

/-- The HTTP status of an answer: `res.json` without a status is 200. -/
def ValidateResponse.status : ValidateResponse → Nat
  | .missingInput => 400
  | .serverError => 500
  | _ => 200

/-- The field `valid` of an answer; the 400 and 500 answers have none. -/
def ValidateResponse.validFlag : ValidateResponse → Option Bool
  | .missingInput => none
  | .serverError => none
  | .valid _ _ _ => some true
  | _ => some false

/-- Lines 80-85: the discount of the validator on a JavaScript number. -/
def validatorDiscount (p : Promotion) (order_amount : Option ℚ) : Option ℚ :=
  if p.discount_type = "percent" then
    order_amount.map fun a => ((⌊a * p.discount_value / 100⌋ : Int) : ℚ)
  else some p.discount_value

/-- The controller `promotionController.validatePromotion` (lines 31-99): the
answer and the store after the call.  Its only database call, statement 0, is
the `SELECT` of lines 42-52; `code.trim()` throws when `code` is not a string. -/
def validatePromotion (rt : JsRuntime) (fault : Option Nat) (now : Int) (body : Body)
    (s : Store) : ValidateResponse × Store :=
  if !truthy (body.field "code") || !truthy (body.field "order_amount") then
    (.missingInput, s)
  else
    match body.field "code", body.field "order_amount" with
    | some (.str code), some order_amount =>
      if fault = some 0 then (.serverError, s)
      else
        match selectPromotion s now (.str (rt.trim code)) with
        | [] => (.notFoundOrExpired, s)
        | promotion :: _ =>
          if usageExhausted promotion then (.exhausted, s)
          else if jsLess (jsNumber rt order_amount) promotion.min_order_amount then
            (.belowMinimum promotion.min_order_amount, s)
          else
            (.valid (validatorDiscount promotion (jsNumber rt order_amount))
              promotion.discount_type promotion.discount_value, s)
    | _, _ => (.serverError, s)

/-- A promotion is active and the time `now` is within its date window. -/
def promotionLive (p : Promotion) (now : Int) : Prop :=
  p.is_active = true ∧ (∀ d, p.start_date = some d → d ≤ now) ∧
    (∀ d, p.end_date = some d → now ≤ d)

/-- A runtime for the examples: only its `trim` is used there. -/
def exampleRuntime : JsRuntime :=
  { toNumber := fun _ => none, parseInt := fun _ => none, toString := fun _ => "",
    trim := String.trim }

/-- Promotion EXPIRED5: active, 5 percent, its window ended at time 10. -/
def expired5 : Promotion :=
  { code := "EXPIRED5", discount_type := "percent", discount_value := 5, min_order_amount := 0,
    usage_limit := none, used_count := 0, start_date := none, end_date := some 10,
    is_active := true }

/-- A store with the promotions EXPIRED5, SALE10, FIXED50 and BIG500. -/
def promotionStore : Store :=
  { products := [], cart := [],
    promotions := [expired5, sale10 (some 3) 1] ++ fixedPromoStore.promotions
      ++ minimumPromoStore.promotions,
    orders := [], order_details := [] }

/-- The body of a validation request. -/
def validateBody (code : String) (order_amount : ℚ) : Body :=
  [("code", .str code), ("order_amount", .num order_amount)]

/-! ## `orderController.cancelOrder` -/

/-- The route parameters `req.params`.  A parameter is a path segment; the
embedding keeps the segments that are decimal numbers, as their values. -/
abbrev Params := List (String × Nat)

/-- Property access `req.params.k`; `none` is `undefined`, which the driver
binds as `NULL`. -/
def Params.field (p : Params) (k : String) : Option Nat :=
  p.lookup k

/-- The JSON answers of `cancelOrder`
(`src/server/controllers/orderController.js`, lines 257-311). -/
inductive CancelResponse where
  | notFound
  | notCancellable
  | cancelled
  | serverError
  deriving DecidableEq, Repr

/-- The HTTP status of an answer. -/
def CancelResponse.status : CancelResponse → Nat
  | .notFound => 404
  | .notCancellable => 400
  | .cancelled => 200
  | .serverError => 500

/-- Lines 268-274: `SELECT status FROM orders WHERE order_id = @orderId AND
user_id = @userId`; a `NULL` parameter equals no id. -/
def selectOrder (s : Store) (id : Option Nat) (userId : Nat) : List Order :=
  s.orders.filter fun o => decide (some o.order_id = id) && decide (o.user_id = userId)

/-- Lines 288-290: `SELECT product_id, quantity FROM order_details WHERE
order_id = @orderId2`. -/
def selectOrderItems (s : Store) (id : Option Nat) : List OrderDetail :=
  s.order_details.filter fun d => decide (some d.order_id = id)

/-- Lines 293-296: `UPDATE products SET stock = stock + @quantity WHERE
product_id = @productId`. -/
def restoreStock (item : OrderDetail) (s : Store) : Store :=
  { s with products := s.products.map fun p =>
      if p.product_id = item.product_id then { p with stock := p.stock + item.quantity } else p }

/-- Lines 300-302: `UPDATE orders SET status = 'cancelled', updated_at =
GETDATE() WHERE order_id = @orderId3` (the column `updated_at` is not part of
the embedding). -/
def markCancelled (id : Option Nat) (s : Store) : Store :=
  { s with orders := s.orders.map fun o =>
      if some o.order_id = id then { o with status := "cancelled" } else o }

/-- Lines 292-297: the loop that returns the quantities to the stock.  Every
round declares `productId` and `quantity` on the request of line 263. -/
def restoreLines (fault : Option Nat) : List OrderDetail → Tx → Option Tx
  | [], t => some t
  | item :: rest, t =>
    (t.query fault ["productId", "quantity"] (restoreStock item)).bind fun t1 =>
      restoreLines fault rest t1

/-- Lines 261-304: the `try` block of `cancelOrder`.  `none` is a thrown
exception; otherwise the answer and the store left behind. -/
def cancelOrderTry (fault : Option Nat) (userId : Nat) (params : Params) (s : Store) :
    Option (CancelResponse × Store) :=
  (Tx.exec fault { base := s, work := s, issued := 0 } id).bind fun t0 =>
    (t0.query fault ["orderId", "userId"] id).bind fun t1 =>
      match selectOrder t1.work (params.field "id") userId with
      | [] => some (.notFound, t1.rollback)
      | order :: _ =>
        if order.status ≠ "pending" then some (.notCancellable, t1.rollback)
        else
          (t1.query fault ["orderId2"] id).bind fun t2 =>
            (restoreLines fault (selectOrderItems t2.work (params.field "id")) t2).bind fun t3 =>
              (t3.query fault ["orderId3"] (markCancelled (params.field "id"))).bind fun t4 =>
                (t4.exec fault id).bind fun t5 =>
                  some (.cancelled, t5.commit)

/-- The controller `orderController.cancelOrder` (lines 257-311): the answer
and the store after the call.  `userId` is `req.user.user_id`; the order id is
read from `req.params.id`. -/
def cancelOrder (fault : Option Nat) (userId : Nat) (params : Params) (s : Store) :
    CancelResponse × Store :=
  match cancelOrderTry fault userId params s with
  | some r => r
  | none => (.serverError, s)

/-- Total quantity of the order lines `items` that refer to product `pid`. -/
def restored (items : List OrderDetail) (pid : Nat) : Int :=
  ((items.filter fun i => i.product_id = pid).map fun i => i.quantity).sum

/-- Effect of the loop of lines 292-297 on a store when no statement throws. -/
def restoreAll (items : List OrderDetail) (w : Store) : Store :=
  items.foldl (fun w i => restoreStock i w) w

/-- The store that a successful cancellation of order `id` commits. -/
def cancelStore (s : Store) (id : Option Nat) : Store :=
  { s with
    products := s.products.map fun p =>
      { p with stock := p.stock + restored (selectOrderItems s id) p.product_id }
    orders := s.orders.map fun o =>
      if some o.order_id = id then { o with status := "cancelled" } else o }

/-- The store after the checkout of the worked example: order 1 of user 7 is
pending and holds two units of product 1, whose stock is 3. -/
def orderedStore : Store :=
  (checkout none 3 1 7 (exampleBody "SALE10") (exampleStore 5 none 0)).2

/-! ## `orderController.createOrder` -/

/-- An element of `req.body.items`: an object with a numeric `product_id` and
`quantity` and optional variant strings. -/
structure OrderItem where
  product_id : Nat
  quantity : Int
  color : Option String
  size : Option String
  deriving DecidableEq, Repr

/-- The fields that `createOrder` destructures from `req.body` (line 14);
`items` is `none` when the field is missing. -/
structure CreateOrderBody where
  items : Option (List OrderItem)
  shipping_address : Option JsValue
  phone : Option JsValue
  notes : Option JsValue
  promotion_code : Option JsValue
  deriving DecidableEq, Repr

/-- The JSON answers of `createOrder`
(`src/server/controllers/orderController.js`, lines 7-163). -/
inductive CreateOrderResponse where
  | emptyItems
  | promotionExhausted
  | productNotFound (product_id : Nat)
  | insufficientStock (name : String) (stock : Int)
  | created (order_id : Nat) (total_amount promotion_discount : ℚ)
  | serverError
  deriving DecidableEq, Repr

/-- The HTTP status of an answer. -/
def CreateOrderResponse.status : CreateOrderResponse → Nat
  | .created _ _ _ => 201
  | .serverError => 500
  | _ => 400

/-- Lines 25-45: the first promotion lookup.  The inner `none` is the early
answer "exhausted". -/
def checkPromotionLimit (fault : Option Nat) (now : Int) (promotion_code : Option JsValue)
    (t : Tx) : Option (Option Tx) :=
  match promotion_code with
  | none => some (some t)
  | some code =>
    if code.truthy then
      (t.query fault ["code"] id).bind fun t1 =>
        match selectPromotion t1.work now code with
        | promotion :: _ => if usageExhausted promotion then some none else some (some t1)
        | [] => some (some t1)
    else some (some t)

/-- Lines 49-51 and 119-121: `SELECT ... FROM products WHERE product_id = @productId`. -/
def selectProduct (s : Store) (pid : Nat) : List Product :=
  s.products.filter fun p => p.product_id = pid

/-- Result of the first loop over the items: an early answer, or the total. -/
inductive Checked where
  | abort (r : CreateOrderResponse)
  | total (total_amount : ℚ) (t : Tx)

/-- Lines 48-67: the loop that checks the stock and adds up `price x quantity`.
Every round declares `productId` on the request of line 12. -/
def checkItems (fault : Option Nat) : List OrderItem → ℚ → Tx → Option Checked
  | [], total_amount, t => some (.total total_amount t)
  | item :: rest, total_amount, t =>
    (t.query fault ["productId"] id).bind fun t1 =>
      match selectProduct t1.work item.product_id with
      | [] => some (.abort (.productNotFound item.product_id))
      | product :: _ =>
        if product.stock < item.quantity then
          some (.abort (.insufficientStock product.name product.stock))
        else checkItems fault rest (total_amount + product.price * item.quantity) t1

/-- Lines 70-99: the second promotion lookup and the redemption; the result is
`(total_amount, promotion_discount)` and the transaction. -/
def applyOrderPromotion (fault : Option Nat) (now : Int) (promotion_code : Option JsValue)
    (total_amount : ℚ) (t : Tx) : Option (ℚ × ℚ × Tx) :=
  match promotion_code with
  | none => some (total_amount, 0, t)
  | some code =>
    if code.truthy then
      (t.query fault ["code2"] id).bind fun t1 =>
        match selectPromotion t1.work now code with
        | promotion :: _ =>
          if total_amount ≥ promotion.min_order_amount then
            (t1.query fault ["code3"] (redeemPromotion code)).bind fun t2 =>
              some (total_amount - promotionDiscount promotion total_amount,
                promotionDiscount promotion total_amount, t2)
          else some (total_amount, 0, t1)
        | [] => some (total_amount, 0, t1)
    else some (total_amount, 0, t)

/-- Lines 102-112: the `INSERT INTO orders`.  The statement names neither
`payment_method` nor `created_at`; the embedding stores no payment method and
the current time. -/
def insertCreatedOrder (now : Int) (fresh userId : Nat) (total_amount : ℚ)
    (shipping_address phone notes : Option JsValue) (s : Store) : Store :=
  { s with orders := s.orders ++
      [orderOf now fresh userId total_amount shipping_address phone notes none] }

/-- The operand `v || null` of lines 131-132 on an optional string. -/
def orNull (v : Option String) : Option String :=
  match v with
  | some c => if c = "" then none else some c
  | none => none

/-- Lines 126-135: the `INSERT INTO order_details` for one item, at the plain
price of the product. -/
def insertItemDetail (now : Int) (order_id : Nat) (item : OrderItem) (price : ℚ)
    (s : Store) : Store :=
  { s with order_details := s.order_details ++
      [{ order_id := order_id, product_id := item.product_id, quantity := item.quantity,
         price := price, color := orNull item.color, size := orNull item.size,
         created_at := now }] }

/-- Lines 138-141: `UPDATE products SET stock = stock - @quantity2 WHERE
product_id = @productId4`. -/
def decrementItemStock (item : OrderItem) (s : Store) : Store :=
  { s with products := s.products.map fun p =>
      if p.product_id = item.product_id then { p with stock := p.stock - item.quantity } else p }

/-- Lines 144-147: `DELETE FROM cart WHERE user_id = @userId2 AND product_id =
@productId5`. -/
def deleteCartProduct (userId pid : Nat) (s : Store) : Store :=
  { s with cart := s.cart.filter fun c => ¬ (c.user_id = userId ∧ c.product_id = pid) }

/-- Lines 117-148: the loop that inserts the order lines, decrements the stock
and removes the products from the cart.  Reading the price of a product that
is not found throws.  Every round declares `productId2`, `orderId`,
`productId3`, `quantity`, `price`, `color`, `size`, `productId4`, `quantity2`,
`userId2` and `productId5` on the request of line 12. -/
def createOrderLines (fault : Option Nat) (now : Int) (order_id userId : Nat) :
    List OrderItem → Tx → Option Tx
  | [], t => some t
  | item :: rest, t =>
    (t.query fault ["productId2"] id).bind fun t1 =>
      match selectProduct t1.work item.product_id with
      | [] => none
      | product :: _ =>
        (t1.query fault ["orderId", "productId3", "quantity", "price", "color", "size"]
            (insertItemDetail now order_id item product.price)).bind fun t2 =>
          (t2.query fault ["productId4", "quantity2"] (decrementItemStock item)).bind fun t3 =>
            (t3.query fault ["userId2", "productId5"]
                (deleteCartProduct userId item.product_id)).bind fun t4 =>
              createOrderLines fault now order_id userId rest t4

/-- Lines 10-157: the `try` block of `createOrder`.  `none` is a thrown
exception; otherwise the answer and the store left behind. -/
def createOrderTry (fault : Option Nat) (now : Int) (fresh userId : Nat)
    (body : CreateOrderBody) (s : Store) : Option (CreateOrderResponse × Store) :=
  (Tx.exec fault { base := s, work := s, issued := 0 } id).bind fun t0 =>
    match body.items with
    | none => some (.emptyItems, t0.rollback)
    | some items =>
      if items.length = 0 then some (.emptyItems, t0.rollback)
      else
        (checkPromotionLimit fault now body.promotion_code t0).bind fun
          | none => some (.promotionExhausted, t0.rollback)
          | some t1 =>
            (checkItems fault items 0 t1).bind fun
              | .abort r => some (r, t0.rollback)
              | .total total_amount t2 =>
                (applyOrderPromotion fault now body.promotion_code total_amount t2).bind fun
                  | (total_amount, promotion_discount, t3) =>
                    (t3.query fault
                        ["userId", "total_amount", "shipping_address", "phone", "notes"]
                        (insertCreatedOrder now fresh userId total_amount
                          body.shipping_address body.phone body.notes)).bind fun t4 =>
                      (createOrderLines fault now fresh userId items t4).bind fun t5 =>
                        (t5.exec fault id).bind fun t6 =>
                          some (.created fresh total_amount promotion_discount, t6.commit)

/-- The controller `orderController.createOrder` (lines 7-163): the answer and
the store after the call.  `userId` is `req.user.user_id`. -/
def createOrder (fault : Option Nat) (now : Int) (fresh userId : Nat) (body : CreateOrderBody)
    (s : Store) : CreateOrderResponse × Store :=
  match createOrderTry fault now fresh userId body s with
  | some r => r
  | none => (.serverError, s)

/-- The invariant of the usage limit: a promotion with a limit that is set
(not `NULL` and, as line 760 reads it, not 0) has been used at most that
often. -/
def usageInvariant (s : Store) : Prop :=
  ∀ p ∈ s.promotions, ∀ l, p.usage_limit = some l → l ≠ 0 → p.used_count ≤ l

/-- A request of `createOrder` for two units of product 1 with a promotion code. -/
def exampleOrderBody (code : String) : CreateOrderBody :=
  { items := some [{ product_id := 1, quantity := 2, color := none, size := none }],
    shipping_address := some (.str "12 Nguyen Trai, Ha Noi"), phone := some (.str "0912345678"),
    notes := none, promotion_code := some (.str code) }

/-! ## `cartController.addToCart` -/

/-- The operand `n || 1` on the result of `parseInt`: `NaN` and 0 give 1. -/
def orOne (n : Option Int) : Int :=
  match n with
  | some k => if k = 0 then 1 else k
  | none => 1

/-- The call `parseInt(v)` on a field that may be `undefined`. -/
def parseIntField (rt : JsRuntime) (v : Option JsValue) : Option Int :=
  match v with
  | some x => jsParseInt rt x
  | none => none

/-- Line 96: `Math.min(Math.max(parseInt(quantity) || 1, 1), 99)`, where the
destructuring of line 86 gives a missing `quantity` the value 1. -/
def normalizedQuantity (rt : JsRuntime) (body : Body) : Int :=
  min (max (orOne (parseIntField rt (some ((body.field "quantity").getD (.num 1))))) 1) 99

/-- Lines 99-100: `v && v.toString().trim() !== '' && v !== 'null' ?
v.toString().trim() : null`. -/
def normalizeVariant (rt : JsRuntime) (v : Option JsValue) : Option String :=
  match v with
  | none => none
  | some x =>
    if x.truthy && rt.trim (jsToString rt x) != "" && x != .str "null" then
      some (rt.trim (jsToString rt x))
    else none

/-- Lines 105-111: `SELECT ... FROM products WHERE product_id = @productId`
for the result of `parseInt`; `NaN` is bound as `NULL` and equals no id. -/
def selectProductInt (s : Store) (productId : Option Int) : List Product :=
  s.products.filter fun p => decide (some (p.product_id : Int) = productId)

/-- Lines 132-150 and 555-570: the cart lines of the user with this product and
this variant; a `NULL` column equals only a `NULL` parameter. -/
def selectExisting (s : Store) (userId : Nat) (productId : Option Int)
    (color size : Option String) : List CartLine :=
  s.cart.filter fun c =>
    decide (c.user_id = userId) && decide (some (c.product_id : Int) = productId)
      && decide (c.color = color) && decide (c.size = size)

/-- Lines 163-171 and 577-580: `UPDATE cart SET quantity = @newQuantity,
updated_at = GETDATE() WHERE cart_id = @cartId` (the column `updated_at` is
not part of the embedding). -/
def updateQuantity (cartId : Nat) (newQuantity : Int) (s : Store) : Store :=
  { s with cart := s.cart.map fun c =>
      if c.cart_id = cartId then { c with quantity := newQuantity } else c }

/-- The cart line of lines 176-186 and 583-592; `fresh` is the identity value
of the new row. -/
def newCartLine (fresh userId : Nat) (productId : Option Int) (quantity : Int)
    (color size : Option String) : CartLine :=
  { cart_id := fresh, user_id := userId, product_id := (productId.getD 0).toNat,
    quantity := quantity, color := color, size := size }

/-- Lines 176-186 and 583-592: the `INSERT INTO cart`. -/
def insertCartLine (line : CartLine) (s : Store) : Store :=
  { s with cart := s.cart ++ [line] }

/-- The JSON answers of `addToCart`
(`src/server/controllers/cartController.js`, lines 62-218). -/
inductive AddResponse where
  | unauthenticated
  | invalidProductId
  | productNotFound
  | insufficientStock (stock : Int)
  | insufficientStockMerged (stock : Int)
  | added
  | serverError
  deriving DecidableEq, Repr

/-- The HTTP status of an answer. -/
def AddResponse.status : AddResponse → Nat
  | .unauthenticated => 401
  | .productNotFound => 404
  | .added => 201
  | .serverError => 500
  | _ => 400

/-- The controller `cartController.addToCart` (lines 62-218): the answer and
the store after the call.  `user` is `req.user?.user_id`.  The three database
calls (product, existing line, update or insert) are the statements 0, 1 and
2; they run on the pool, without a transaction. -/
def addToCart (rt : JsRuntime) (fault : Option Nat) (fresh : Nat) (user : Option Nat)
    (body : Body) (s : Store) : AddResponse × Store :=
  match user with
  | none => (.unauthenticated, s)
  | some userId =>
    if userId = 0 then (.unauthenticated, s)
    else
      match body.field "product_id" with
      | none => (.invalidProductId, s)
      | some product_id =>
        if !product_id.truthy || (jsNumber rt product_id).isNone then (.invalidProductId, s)
        else
          if fault = some 0 then (.serverError, s)
          else
            match selectProductInt s (jsParseInt rt product_id) with
            | [] => (.productNotFound, s)
            | product :: _ =>
              if normalizedQuantity rt body > product.stock then
                (.insufficientStock product.stock, s)
              else
                if fault = some 1 then (.serverError, s)
                else
                  match selectExisting s userId (jsParseInt rt product_id)
                      (normalizeVariant rt (body.field "color"))
                      (normalizeVariant rt (body.field "size")) with
                  | existingItem :: _ =>
                    if existingItem.quantity + normalizedQuantity rt body > product.stock then
                      (.insufficientStockMerged product.stock, s)
                    else
                      if fault = some 2 then (.serverError, s)
                      else
                        (.added, updateQuantity existingItem.cart_id
                          (existingItem.quantity + normalizedQuantity rt body) s)
                  | [] =>
                    if fault = some 2 then (.serverError, s)
                    else
                      (.added, insertCartLine
                        (newCartLine fresh userId (jsParseInt rt product_id)
                          (normalizedQuantity rt body)
                          (normalizeVariant rt (body.field "color"))
                          (normalizeVariant rt (body.field "size"))) s)

/-! ## `cartController.syncCart` -/

/-- The operand `v && v.trim() !== '' && v !== 'null' ? v.trim() : null` of
lines 549-550.  The outer `none` is the exception thrown by `v.trim()` when
`v` is truthy and not a string. -/
def syncVariant (rt : JsRuntime) (v : Option JsValue) : Option (Option String) :=
  match v with
  | none => some none
  | some (.str c) =>
    if c != "" && rt.trim c != "" && c != "null" then some (some (rt.trim c)) else some none
  | some x => if x.truthy then none else some none

/-- The loop state of `syncCart`: the transaction, the next identity value of
`cart`, and the counters `syncedCount` and `errorCount`. -/
structure SyncState where
  tx : Tx
  nextId : Nat
  synced : Nat
  errors : Nat

/-- A statement that threw was issued all the same. -/
def Tx.skip (t : Tx) : Tx :=
  { t with issued := t.issued + 1 }

/-- The request after a chain of `.input` calls inside a `try` of its own:
the names before the first refused one stay declared. -/
def Tx.declareUntilThrow (t : Tx) : List String → Tx
  | [] => t
  | name :: rest =>
    match t.input name with
    | none => t
    | some t1 => t1.declareUntilThrow rest

/-- Lines 519-600: one round of the loop over `items`.  An exception inside
the round is caught by the inner `catch`, which counts an error and goes on
with the next item.  The round declares `productId`, then `userId`,
`productId2`, `color`, `size`, then `cartId`, `newQuantity` or `userId2`,
`productId3`, `quantity`, `color2`, `size2` on the request of line 503. -/
def syncItem (rt : JsRuntime) (fault : Option Nat) (userId : Nat) (st : SyncState)
    (item : Body) : SyncState :=
  if !truthy (item.field "product_id") && !truthy (item.field "productId") then
    { st with errors := st.errors + 1 }
  else
    match st.tx.inputs ["productId"] with
    | none => { st with tx := st.tx.declareUntilThrow ["productId"], errors := st.errors + 1 }
    | some ta =>
    match ta.exec fault id with
    | none => { st with tx := ta.skip, errors := st.errors + 1 }
    | some t1 =>
      match selectProductInt t1.work (parseIntField rt
          (if truthy (item.field "product_id") then item.field "product_id"
           else item.field "productId")) with
      | [] => { st with tx := t1, errors := st.errors + 1 }
      | product :: _ =>
        if min (max 1 (orOne (parseIntField rt (item.field "quantity")))) product.stock > 0 then
          match syncVariant rt (item.field "color"), syncVariant rt (item.field "size") with
          | some color, some size =>
            match t1.inputs ["userId", "productId2", "color", "size"] with
            | none =>
              { st with tx := t1.declareUntilThrow ["userId", "productId2", "color", "size"],
                        errors := st.errors + 1 }
            | some tb =>
            match tb.exec fault id with
            | none => { st with tx := tb.skip, errors := st.errors + 1 }
            | some t2 =>
              match selectExisting t2.work userId (parseIntField rt
                  (if truthy (item.field "product_id") then item.field "product_id"
                   else item.field "productId")) color size with
              | existingItem :: _ =>
                match t2.inputs ["cartId", "newQuantity"] with
                | none =>
                  { st with tx := t2.declareUntilThrow ["cartId", "newQuantity"],
                            errors := st.errors + 1 }
                | some tc =>
                match tc.exec fault (updateQuantity existingItem.cart_id
                    (min (existingItem.quantity
                      + min (max 1 (orOne (parseIntField rt (item.field "quantity"))))
                          product.stock) product.stock)) with
                | none => { st with tx := tc.skip, errors := st.errors + 1 }
                | some t3 => { st with tx := t3, synced := st.synced + 1 }
              | [] =>
                match t2.inputs ["userId2", "productId3", "quantity", "color2", "size2"] with
                | none =>
                  { st with tx := t2.declareUntilThrow
                              ["userId2", "productId3", "quantity", "color2", "size2"],
                            errors := st.errors + 1 }
                | some tc =>
                match tc.exec fault (insertCartLine (newCartLine st.nextId userId
                    (parseIntField rt
                      (if truthy (item.field "product_id") then item.field "product_id"
                       else item.field "productId"))
                    (min (max 1 (orOne (parseIntField rt (item.field "quantity"))))
                      product.stock) color size)) with
                | none => { st with tx := tc.skip, errors := st.errors + 1 }
                | some t3 => { tx := t3, nextId := st.nextId + 1, synced := st.synced + 1,
                               errors := st.errors }
          | _, _ => { st with tx := t1, errors := st.errors + 1 }
        else { st with tx := t1, errors := st.errors + 1 }

/-- The answers of `syncCart` as far as the embedding follows them.
`committed` is the state after `transaction.commit()`; the answer built after
it (lines 606-615, through `this.getCartData`) is not part of the embedding. -/
inductive SyncResponse where
  | invalidCartData
  | committed (synced_items error_items : Nat)
  | syncCartError
  deriving DecidableEq, Repr

/-- Lines 501-604: the `try` block of `syncCart` up to the commit.  `items` is
`req.body.items` when it is an array of objects, `none` otherwise. -/
def syncCartTry (rt : JsRuntime) (fault : Option Nat) (fresh userId : Nat)
    (items : Option (List Body)) (s : Store) : Option (SyncResponse × Store) :=
  (Tx.exec fault { base := s, work := s, issued := 0 } id).bind fun t0 =>
    match items with
    | none => some (.invalidCartData, t0.rollback)
    | some items =>
      (((items.foldl (syncItem rt fault userId)
          { tx := t0, nextId := fresh, synced := 0, errors := 0 }).tx).exec fault id).bind
        fun t1 =>
          some (.committed
            (items.foldl (syncItem rt fault userId)
              { tx := t0, nextId := fresh, synced := 0, errors := 0 }).synced
            (items.foldl (syncItem rt fault userId)
              { tx := t0, nextId := fresh, synced := 0, errors := 0 }).errors,
            t1.commit)

/-- The controller `cartController.syncCart` (lines 497-625) up to the commit:
the state of the answer and the store after the call. -/
def syncCart (rt : JsRuntime) (fault : Option Nat) (fresh userId : Nat)
    (items : Option (List Body)) (s : Store) : SyncResponse × Store :=
  match syncCartTry rt fault fresh userId items s with
  | some r => r
  | none => (.syncCartError, s)

/-- The key of a cart line within the cart of its user. -/
def cartKey (c : CartLine) : Nat × Option String × Option String :=
  (c.product_id, c.color, c.size)

/-- The lines of user `v` in a cart have pairwise different keys. -/
def cartKeysUnique (cart : List CartLine) (v : Nat) : Prop :=
  ((cart.filter fun c => c.user_id = v).map cartKey).Nodup

/-- The cart after one write is the cart before, the cart with one quantity
replaced, or the cart with one more line of the user under a new key. -/
def cartStep (u : Nat) (c c1 : List CartLine) : Prop :=
  c1 = c ∨
    (∃ cartId q, c1 = c.map fun x => if x.cart_id = cartId then { x with quantity := q } else x) ∨
    (∃ line, line.user_id = u ∧ (∀ x ∈ c, x.user_id = u → cartKey x ≠ cartKey line) ∧
      c1 = c ++ [line])

/-- The body of an add-to-cart request for product 1. -/
def addBody (quantity : ℚ) (color : String) : Body :=
  [("product_id", .num 1), ("quantity", .num quantity), ("color", .str color)]

/-! ## `cartController.removeFromCart`, `updateCartItem` and `clearCart` -/

/-- Lines 242-250 and 304-312 of `cartController.js`: `SELECT ... FROM cart c
JOIN products p ON c.product_id = p.product_id WHERE c.cart_id = @cartId AND
c.user_id = @userId`. -/
def selectCartItem (s : Store) (cartId userId : Nat) : List CartRow :=
  (s.cart.filter fun c => decide (c.cart_id = cartId) && decide (c.user_id = userId)).flatMap
    fun c => (s.products.filter fun p => c.product_id = p.product_id).map fun p => joinRow c p

/-- Lines 324-327: `DELETE FROM cart WHERE cart_id = @cartId AND user_id =
@userId`. -/
def deleteCartItem (cartId userId : Nat) (s : Store) : Store :=
  { s with cart := s.cart.filter fun c => ¬ (c.cart_id = cartId ∧ c.user_id = userId) }

/-- The value `rowsAffected[0]` of the `DELETE` of lines 324-327. -/
def deleteCartItemCount (cartId userId : Nat) (s : Store) : Nat :=
  (s.cart.filter fun c => decide (c.cart_id = cartId ∧ c.user_id = userId)).length

/-- The JSON answers of `removeFromCart` (lines 291-348). -/
inductive RemoveResponse where
  | invalidId
  | cartItemNotFound
  | deleteFailed
  | removed (product_name : String)
  | removeError
  deriving DecidableEq, Repr

/-- The HTTP status of an answer. -/
def RemoveResponse.status : RemoveResponse → Nat
  | .invalidId => 400
  | .cartItemNotFound => 404
  | .deleteFailed => 404
  | .removed _ => 200
  | .removeError => 500

/-- The controller `cartController.removeFromCart` (lines 291-348).  The path
parameter `id` is a decimal segment, so `!id || isNaN(id)` holds exactly when
it is missing.  The `SELECT` and the `DELETE` are the statements 0 and 1; they
run on the pool, without a transaction. -/
def removeFromCart (fault : Option Nat) (userId : Nat) (params : Params) (s : Store) :
    RemoveResponse × Store :=
  match params.field "id" with
  | none => (.invalidId, s)
  | some cartId =>
    if fault = some 0 then (.removeError, s)
    else
      match selectCartItem s cartId userId with
      | [] => (.cartItemNotFound, s)
      | row :: _ =>
        if fault = some 1 then (.removeError, s)
        else
          if deleteCartItemCount cartId userId s = 0 then
            (.deleteFailed, deleteCartItem cartId userId s)
          else (.removed row.name, deleteCartItem cartId userId s)

/-- The comparison `a <= b` of a JavaScript number with an integer; every
comparison with `NaN` is false. -/
def jsLessEq (a : Option ℚ) (b : Int) : Bool :=
  match a with
  | some x => decide (x ≤ (b : ℚ))
  | none => false

/-- The comparison `a > b` of a JavaScript number with an integer; every
comparison with `NaN` is false. -/
def jsGreater (a : Option ℚ) (b : Int) : Bool :=
  match a with
  | some x => decide ((b : ℚ) < x)
  | none => false

/-- The JSON answers of `updateCartItem` (lines 222-289). -/
inductive UpdateResponse where
  | invalidCartId
  | cartItemNotFound
  | insufficientStock (available_stock : Int)
  | updated (product_name : String) (new_quantity : Int)
  | updateError
  deriving DecidableEq, Repr

/-- The HTTP status of an answer. -/
def UpdateResponse.status : UpdateResponse → Nat
  | .invalidCartId => 400
  | .cartItemNotFound => 404
  | .insufficientStock _ => 400
  | .updated _ _ => 200
  | .updateError => 500

/-- The controller `cartController.updateCartItem` (lines 222-289).

Line 234 compares `quantity <= 0` and line 236 then calls
`this.removeFromCart(req, res)`.  The controller is an arrow function in an
object literal at the top level of the module, so `this` is the initial
`exports` object of the module, which has no property `removeFromCart`: the
call throws a `TypeError`, and the `catch` of line 282 answers 500
`UPDATE_CART_ERROR`.

The `SELECT` and the `UPDATE` are the statements 0 and 1, on the pool.  A
`quantity` whose `parseInt` is `NaN` reaches the `UPDATE` as `NULL`; the column
holds integers in the embedding and the statement is taken to throw. -/
def updateCartItem (rt : JsRuntime) (fault : Option Nat) (userId : Nat) (params : Params)
    (body : Body) (s : Store) : UpdateResponse × Store :=
  match params.field "id" with
  | none => (.invalidCartId, s)
  | some cartId =>
    if jsLessEq ((body.field "quantity").bind (jsNumber rt)) 0 then (.updateError, s)
    else
      if fault = some 0 then (.updateError, s)
      else
        match selectCartItem s cartId userId with
        | [] => (.cartItemNotFound, s)
        | cartItem :: _ =>
          if jsGreater ((body.field "quantity").bind (jsNumber rt)) cartItem.stock then
            (.insufficientStock cartItem.stock, s)
          else
            if fault = some 1 then (.updateError, s)
            else
              match parseIntField rt (body.field "quantity") with
              | none => (.updateError, s)
              | some quantity =>
                (.updated cartItem.name quantity, updateQuantity cartId quantity s)

/-- The JSON answers of `clearCart` (lines 438-473). -/
inductive ClearResponse where
  | alreadyEmpty (items_removed : Nat)
  | cleared (items_removed : Nat)
  | clearError
  deriving DecidableEq, Repr

/-- The HTTP status of an answer. -/
def ClearResponse.status : ClearResponse → Nat
  | .clearError => 500
  | _ => 200

/-- The field `items_removed` of an answer, if it has one. -/
def ClearResponse.itemsRemoved : ClearResponse → Option Nat
  | .alreadyEmpty n => some n
  | .cleared n => some n
  | .clearError => none

/-- Lines 443-445: `SELECT COUNT(*) as item_count FROM cart WHERE user_id =
@userId`. -/
def countCart (s : Store) (userId : Nat) : Nat :=
  (s.cart.filter fun c => c.user_id = userId).length

/-- The controller `cartController.clearCart` (lines 438-473).  The count and
the `DELETE FROM cart WHERE user_id = @userId` are the statements 0 and 1, on
the pool; `items_removed` is `rowsAffected[0] || 0`. -/
def clearCart (fault : Option Nat) (userId : Nat) (s : Store) : ClearResponse × Store :=
  if fault = some 0 then (.clearError, s)
  else
    if countCart s userId = 0 then (.alreadyEmpty 0, s)
    else
      if fault = some 1 then (.clearError, s)
      else (.cleared (countCart s userId), deleteCart userId s)

/-! ## `cartController.getCart` and `getCartData` -/

/-- The object that `getCart` and `getCartData` return: the items, the
`subtotal` and `total_items`. -/
structure CartData where
  items : List CartRow
  subtotal : ℚ
  total_items : Int
  deriving DecidableEq, Repr

/-- Lines 24-37 and 644-656: the item built from a row, with
`discount_percent: item.discount_percent || 0` (the columns `image_url`,
`brand` and `category_name` are not part of the embedding). -/
def cartItemOf (item : CartRow) : CartRow :=
  { item with discount_percent := some (item.discount_percent.getD 0) }

/-- The JSON answers of `getCart` (lines 7-59). -/
inductive GetCartResponse where
  | ok (data : CartData)
  | getCartError
  deriving DecidableEq, Repr

/-- The controller `cartController.getCart` (lines 7-59).  Its query is the
join of `selectCart`; the `LEFT JOIN categories` adds one column to each row.
The rows stay in the order of the table: the column `created_at`, by which the
query sorts, is not part of the embedding. -/
def getCart (fault : Option Nat) (userId : Nat) (s : Store) : GetCartResponse :=
  if fault = some 0 then .getCartError
  else
    .ok
      { items := (selectCart s userId).map cartItemOf
        subtotal := ((selectCart s userId).map cartItemOf).foldl
          (fun subtotal item => subtotal + finalPrice item * item.quantity) 0
        total_items := ((selectCart s userId).map cartItemOf).foldl
          (fun total item => total + item.quantity) 0 }

/-- The helper `cartController.getCartData` (lines 628-672); `none` is the
error that it throws again. -/
def getCartData (fault : Option Nat) (userId : Nat) (s : Store) : Option CartData :=
  if fault = some 0 then none
  else
    let items := (selectCart s userId).map fun item =>
      { item with discount_percent := some (item.discount_percent.getD 0) }
    some
      { items := items
        subtotal := items.foldl
          (fun subtotal item =>
            subtotal + item.price * (1 - (item.discount_percent.getD 0) / 100) * item.quantity) 0
        total_items := items.foldl (fun total item => total + item.quantity) 0 }

/-! ## The order router -/

/-- Line 45 of `src/server/routes/orderRouters.js`: `router.put(
'/:orderId/cancel', authenticateToken, requireUser,
orderController.cancelOrder)`: the `req.params` that the route binds for the
path `/<segment>/cancel`. -/
def cancelRouteParams (segment : Nat) : Params :=
  [("orderId", segment)]

/-- The request `PUT /api/orders/<segment>/cancel` of the authenticated user
`userId`, dispatched by the router to `cancelOrder`. -/
def putOrderCancel (fault : Option Nat) (userId segment : Nat) (s : Store) :
    CancelResponse × Store :=
  cancelOrder fault userId (cancelRouteParams segment) s

/-! ## The route `POST /api/cart` -/

/-- The checks of express-validator, a library that is not part of the
sources, on the values that the embedding does not decide itself: `isInt` on
strings and objects, with the bounds `min` and `max`, and `isLength` with the
bound `max`. -/
structure Validator where
  isInt : JsValue → Int → Option Int → Bool
  isLength : JsValue → Nat → Bool

/-- The check `isInt({ min, max })` of a validation chain on a field.  The
library prints the value and tests the print: `undefined` and `null` print as
the empty string and booleans as words, which fail; a number passes when its
print is a sequence of digits, that is when it is an integer below 1e21 in
absolute value, within the bounds. -/
def isIntBetween (vd : Validator) (min : Int) (max : Option Int) : Option JsValue → Bool
  | none => false
  | some .null => false
  | some (.bool _) => false
  | some (.num q) =>
    decide (q.den = 1) && decide (-1000000000000000000000 < q)
      && decide (q < 1000000000000000000000) && decide ((min : ℚ) ≤ q)
      && (match max with
          | some m => decide (q ≤ (m : ℚ))
          | none => true)
  | some v => vd.isInt v min max

/-- The messages of the checks of `addToCartValidation` that fail
(`src/server/routes/cartRoutes.js`, lines 10-26), in the order of the chains:
`product_id` is an integer of at least 1; `quantity`, unless `undefined`, is an
integer from 1 to 99; `color` and `size`, unless `undefined` or `null`, have at
most 50 and 20 characters. -/
def addToCartErrors (vd : Validator) (body : Body) : List String :=
  (if isIntBetween vd 1 none (body.field "product_id") then []
    else ["ID sản phẩm không hợp lệ"]) ++
  (match body.field "quantity" with
    | none => []
    | some v =>
      if isIntBetween vd 1 (some 99) (some v) then [] else ["Số lượng phải từ 1-99"]) ++
  (match body.field "color" with
    | none => []
    | some .null => []
    | some v => if vd.isLength v 50 then [] else ["Màu sắc không được quá 50 ký tự"]) ++
  (match body.field "size" with
    | none => []
    | some .null => []
    | some v => if vd.isLength v 20 then [] else ["Kích thước không được quá 20 ký tự"])

/-- The answers of the route `POST /api/cart` to an authenticated user: the
answer 400 of `handleValidationErrors` (lines 62-73) with the messages of the
failed checks, or the answer of the controller. -/
inductive PostCartResponse where
  | validationFailed (errors : List String)
  | handled (answer : AddResponse)
  deriving DecidableEq, Repr

/-- The HTTP status of an answer. -/
def PostCartResponse.status : PostCartResponse → Nat
  | .validationFailed _ => 400
  | .handled answer => answer.status

/-- Lines 106-110 of `cartRoutes.js`: `router.post('/', addToCartValidation,
handleValidationErrors, cartController.addToCart)` for a request that has
passed `enhancedAuth` as the user `userId`. -/
def postCart (vd : Validator) (rt : JsRuntime) (fault : Option Nat) (fresh userId : Nat)
    (body : Body) (s : Store) : PostCartResponse × Store :=
  if addToCartErrors vd body = [] then
    (.handled (addToCart rt fault fresh (some userId) body s).1,
      (addToCart rt fault fresh (some userId) body s).2)
  else (.validationFailed (addToCartErrors vd body), s)

/-- A validator for the examples: it refuses every string and object. -/
def exampleValidator : Validator :=
  { isInt := fun _ _ _ => false, isLength := fun _ _ => false }

/-! ## Example data of the cart operations -/

/-- A store in which user 7 holds 60 units of product 1, whose stock is 200. -/
def bulkStore : Store :=
  { products := [productA 200],
    cart := [{ cart_id := 1, user_id := 7, product_id := 1, quantity := 60, color := none,
               size := none }],
    promotions := [], orders := [], order_details := [] }

/-- A request body of `addToCart` for product 1 without a variant. -/
def quantityBody (quantity : JsValue) : Body :=
  [("product_id", .num 1), ("quantity", quantity)]

/-- A request body of `updateCartItem`. -/
def updateBody (quantity : ℚ) : Body :=
  [("quantity", .num quantity)]

/-- The path parameters of the cart routes `/:id`. -/
def idParams (id : Nat) : Params :=
  [("id", id)]

/-- A store with the pending order 1 of user 7: two units of product 1, whose
stock is 3. -/
def pendingOrderStore : Store :=
  { products := [productA 3], cart := [], promotions := [],
    orders := [{ order_id := 1, user_id := 7, total_amount := 180000, status := "pending",
                 shipping_address := some (.str "12 Nguyen Trai, Ha Noi"),
                 phone := some (.str "0912345678"), notes := none,
                 payment_method := some (.str "COD"), created_at := 3 }],
    order_details := [{ order_id := 1, product_id := 1, quantity := 2, price := 90000,
                        color := none, size := none, created_at := 3 }] }

/-- A second product: id 2, price 50000, no discount. -/
def productB (stock : Int) : Product :=
  { product_id := 2, name := "B", price := 50000, stock := stock, discount_percent := none }

/-- A store in which user 7 holds two units of product 1 and one unit of
product 2, both with 5 units in stock. -/
def twoProductStore : Store :=
  { products := [productA 5, productB 5],
    cart := [lineA,
             { cart_id := 2, user_id := 7, product_id := 2, quantity := 1, color := none,
               size := none }],
    promotions := [], orders := [], order_details := [] }

/-- A store with the pending order 1 of user 7 that has two lines: two units
of product 1 and one unit of product 2. -/
def twoLineOrderStore : Store :=
  { products := [productA 3, productB 4], cart := [], promotions := [],
    orders := [{ order_id := 1, user_id := 7, total_amount := 230000, status := "pending",
                 shipping_address := some (.str "12 Nguyen Trai, Ha Noi"),
                 phone := some (.str "0912345678"), notes := none,
                 payment_method := some (.str "COD"), created_at := 3 }],
    order_details := [{ order_id := 1, product_id := 1, quantity := 2, price := 90000,
                        color := none, size := none, created_at := 3 },
                      { order_id := 1, product_id := 2, quantity := 1, price := 50000,
                        color := none, size := none, created_at := 3 }] }

/-! ## Lemmas on the statements -/

theorem exec_none (t : Tx) (effect : Store → Store) :
    t.exec none effect = some { t with work := effect t.work, issued := t.issued + 1 } := by
  simp [Tx.exec]

theorem exec_base {fault : Option Nat} {t t1 : Tx} {effect : Store → Store}
    (h : t.exec fault effect = some t1) : t1.base = t.base := by
  unfold Tx.exec at h
  split at h
  · cases h
  · cases h; rfl

theorem input_frame {t t1 : Tx} {name : String} (h : t.input name = some t1) :
    t1.base = t.base ∧ t1.work = t.work ∧ t1.issued = t.issued ∧
      t1.declared = name :: t.declared := by
  unfold Tx.input at h
  split at h
  · cases h
  · cases h; exact ⟨rfl, rfl, rfl, rfl⟩

theorem inputs_frame {names : List String} {t t1 : Tx} (h : t.inputs names = some t1) :
    t1.base = t.base ∧ t1.work = t.work ∧ t1.issued = t.issued ∧
      t1.declared = names.reverse ++ t.declared := by
  induction names generalizing t with
  | nil => cases h; simp
  | cons n rest ih =>
    unfold Tx.inputs at h
    cases hi : t.input n with
    | none => simp [hi] at h
    | some ta =>
      simp only [hi, Option.some_bind] at h
      obtain ⟨b, w, i, d⟩ := input_frame hi
      obtain ⟨b1, w1, i1, d1⟩ := ih h
      exact ⟨b1.trans b, w1.trans w, i1.trans i, by simp [d1, d]⟩

theorem inputs_declared_none {t : Tx} {name : String} (rest : List String)
    (h : name ∈ t.declared) : t.inputs (name :: rest) = none := by
  simp [Tx.inputs, Tx.input, h]

theorem inputs_fresh (names : List String) (t : Tx) (hfresh : ∀ n ∈ names, n ∉ t.declared)
    (hnd : names.Nodup) :
    t.inputs names = some { t with declared := names.reverse ++ t.declared } := by
  induction names generalizing t with
  | nil => simp [Tx.inputs]
  | cons n rest ih =>
    rw [List.nodup_cons] at hnd
    have hn : n ∉ t.declared := hfresh n (List.mem_cons_self _ _)
    have hrest : ∀ m ∈ rest, m ∉ ({ t with declared := n :: t.declared } : Tx).declared := by
      intro m hm hmem
      rcases List.mem_cons.mp hmem with e | e
      · exact hnd.1 (e ▸ hm)
      · exact hfresh m (List.mem_cons_of_mem _ hm) e
    simp only [Tx.inputs, Tx.input, hn, if_false, Option.some_bind]
    rw [ih _ hrest hnd.2]
    simp

theorem exec_frame {fault : Option Nat} {t t1 : Tx} {effect : Store → Store}
    (h : t.exec fault effect = some t1) :
    t1.base = t.base ∧ t1.work = effect t.work ∧ t1.issued = t.issued + 1 ∧
      t1.declared = t.declared := by
  unfold Tx.exec at h
  split at h
  · cases h
  · cases h; exact ⟨rfl, rfl, rfl, rfl⟩

theorem query_frame {fault : Option Nat} {t t1 : Tx} {names : List String}
    {effect : Store → Store} (h : t.query fault names effect = some t1) :
    t1.base = t.base ∧ t1.work = effect t.work ∧ t1.issued = t.issued + 1 ∧
      t1.declared = names.reverse ++ t.declared := by
  unfold Tx.query at h
  cases hi : t.inputs names with
  | none => simp [hi] at h
  | some ta =>
    simp only [hi, Option.some_bind] at h
    obtain ⟨b, w, i, d⟩ := inputs_frame hi
    obtain ⟨b1, w1, i1, d1⟩ := exec_frame h
    exact ⟨b1.trans b, by rw [w1, w], by rw [i1, i], d1.trans d⟩

theorem query_base {fault : Option Nat} {t t1 : Tx} {names : List String}
    {effect : Store → Store} (h : t.query fault names effect = some t1) : t1.base = t.base :=
  (query_frame h).1

theorem query_work {fault : Option Nat} {t t1 : Tx} {names : List String}
    {effect : Store → Store} (h : t.query fault names effect = some t1) :
    t1.work = effect t.work :=
  (query_frame h).2.1

theorem query_declared_none (fault : Option Nat) {t : Tx} {name : String} (rest : List String)
    (effect : Store → Store) (h : name ∈ t.declared) :
    t.query fault (name :: rest) effect = none := by
  simp [Tx.query, inputs_declared_none rest h]

theorem query_none {names : List String} {t : Tx} (effect : Store → Store)
    (hfresh : ∀ n ∈ names, n ∉ t.declared) (hnd : names.Nodup) :
    t.query none names effect =
      some { base := t.base, work := effect t.work, issued := t.issued + 1,
             declared := names.reverse ++ t.declared } := by
  simp [Tx.query, inputs_fresh names t hfresh hnd, Tx.exec]

theorem query_head_declared {fault : Option Nat} {t t1 : Tx} {name : String}
    {rest : List String} {effect : Store → Store}
    (h : t.query fault (name :: rest) effect = some t1) : name ∈ t1.declared := by
  rw [(query_frame h).2.2.2]
  simp

theorem query_declared_mono {fault : Option Nat} {t t1 : Tx} {names : List String}
    {effect : Store → Store} (h : t.query fault names effect = some t1) {n : String}
    (hn : n ∈ t.declared) : n ∈ t1.declared := by
  rw [(query_frame h).2.2.2]
  exact List.mem_append_right _ hn

theorem query_within {names K : List String} {t : Tx} (effect : Store → Store)
    (hK : ∀ n ∈ t.declared, n ∈ K) (hdisj : ∀ n ∈ names, n ∉ K) (hnd : names.Nodup) :
    ∃ t1, t.query none names effect = some t1 ∧ t1.base = t.base ∧
      t1.work = effect t.work ∧ ∀ n ∈ t1.declared, n ∈ names ++ K := by
  refine ⟨_, query_none effect (fun n hn hmem => hdisj n hn (hK n hmem)) hnd, rfl, rfl, ?_⟩
  intro n hn
  rcases List.mem_append.mp hn with e | e
  · exact List.mem_append_left _ (List.mem_reverse.mp e)
  · exact List.mem_append_right _ (hK n e)

theorem foldl_stockStep_snd (items : List CartRow) (acc : ℚ × List String) :
    (items.foldl stockStep acc).2 =
      acc.2 ++ (items.filter fun i => i.stock < i.quantity).map unavailableMessage := by
  induction items generalizing acc with
  | nil => simp
  | cons i rest ih =>
    rw [List.foldl_cons, ih]
    by_cases h : i.stock < i.quantity <;> simp [stockStep, h]

theorem foldl_stockStep_fst (items : List CartRow) (acc : ℚ × List String)
    (h : ∀ i ∈ items, ¬ i.stock < i.quantity) :
    (items.foldl stockStep acc).1 = acc.1 + subtotal items := by
  induction items generalizing acc with
  | nil => simp [subtotal]
  | cons i rest ih =>
    have hi : ¬ i.stock < i.quantity := h i (List.mem_cons_self _ _)
    rw [List.foldl_cons, ih _ (fun j hj => h j (List.mem_cons_of_mem _ hj))]
    simp only [stockStep, hi, if_false, subtotal, List.map_cons, List.sum_cons, finalPrice]
    ring

theorem stockLoop_snd (items : List CartRow) :
    (stockLoop items).2 = (items.filter fun i => i.stock < i.quantity).map unavailableMessage := by
  simp [stockLoop, foldl_stockStep_snd]

theorem stockLoop_fst (items : List CartRow) (h : ∀ i ∈ items, ¬ i.stock < i.quantity) :
    (stockLoop items).1 = subtotal items := by
  simp [stockLoop, foldl_stockStep_fst _ _ h]

theorem purchased_cons (i : CartRow) (rest : List CartRow) (pid : Nat) :
    purchased (i :: rest) pid = (if i.product_id = pid then i.quantity else 0) + purchased rest pid := by
  by_cases h : i.product_id = pid <;> simp [purchased, List.filter_cons, h]

theorem persistAll_eq (now : Int) (order_id : Nat) (items : List CartRow) (w : Store) :
    persistAll now order_id items w =
      { w with
        products := w.products.map fun p => { p with stock := p.stock - purchased items p.product_id }
        order_details := w.order_details ++ items.map (orderDetailOf now order_id) } := by
  induction items generalizing w with
  | nil => simp [persistAll, purchased]
  | cons i rest ih =>
    have hstep : persistAll now order_id (i :: rest) w
        = persistAll now order_id rest (decrementStock i (insertOrderDetail now order_id i w)) := rfl
    rw [hstep, ih]
    simp only [decrementStock, insertOrderDetail, List.map_map, List.map_cons, List.append_assoc,
      List.singleton_append]
    congr 1
    apply List.map_congr_left
    intro p _
    simp only [Function.comp, purchased_cons]
    by_cases h : p.product_id = i.product_id
    · simp [h]; ring
    · have h2 : ¬ i.product_id = p.product_id := fun e => h e.symm
      simp [h, h2]

theorem persistLines_two (fault : Option Nat) (now : Int) (order_id : Nat) (i j : CartRow)
    (rest : List CartRow) (t : Tx) :
    persistLines fault now order_id (i :: j :: rest) t = none := by
  rw [persistLines]
  cases h1 : t.query fault ["orderId", "productId", "quantity", "price", "color", "size"]
      (insertOrderDetail now order_id i) with
  | none => rfl
  | some t1 =>
    simp only [Option.some_bind]
    cases h2 : t1.query fault ["productId2", "quantity2"] (decrementStock i) with
    | none => rfl
    | some t2 =>
      simp only [Option.some_bind]
      have hd : "orderId" ∈ t2.declared := query_declared_mono h2 (query_head_declared h1)
      rw [persistLines, query_declared_none fault _ _ hd]
      rfl

theorem persistLines_length {fault : Option Nat} {now : Int} {order_id : Nat}
    {items : List CartRow} {t t1 : Tx} (h : persistLines fault now order_id items t = some t1) :
    items.length ≤ 1 := by
  match items, h with
  | [], _ => simp
  | [_], _ => simp
  | i :: j :: rest, h => rw [persistLines_two] at h; cases h

theorem persistLines_single (now : Int) (order_id : Nat) (item : CartRow) (t : Tx)
    {K : List String} (hK : ∀ n ∈ t.declared, n ∈ K)
    (hdisj : ∀ n ∈ ["orderId", "productId", "quantity", "price", "color", "size",
      "productId2", "quantity2"], n ∉ K) :
    ∃ t2, persistLines none now order_id [item] t = some t2 ∧ t2.base = t.base ∧
      t2.work = persistAll now order_id [item] t.work ∧
      ∀ n ∈ t2.declared, n ∈ ["productId2", "quantity2"] ++
        (["orderId", "productId", "quantity", "price", "color", "size"] ++ K) := by
  obtain ⟨t1, h1, b1, w1, d1⟩ :=
    @query_within ["orderId", "productId", "quantity", "price", "color", "size"] K t
      (insertOrderDetail now order_id item) hK
      (fun n hn => hdisj n (by simp at hn ⊢; tauto)) (by decide)
  obtain ⟨t2, h2, b2, w2, d2⟩ :=
    @query_within ["productId2", "quantity2"] _ t1 (decrementStock item) d1
      (by
        intro n hn hmem
        rcases List.mem_append.mp hmem with e | e
        · clear hmem; revert n; decide
        · exact hdisj n (by simp at hn ⊢; tauto) e)
      (by decide)
  refine ⟨t2, by rw [persistLines, h1, Option.some_bind, h2, Option.some_bind, persistLines],
    b2.trans b1, ?_, d2⟩
  rw [w2, w1]
  rfl

theorem applyPromotion_accepted (now : Int) (promotion_code : Option JsValue)
    (total_amount : ℚ) (t : Tx) (h : promotionAccepted t.work now promotion_code)
    {K : List String} (hK : ∀ n ∈ t.declared, n ∈ K)
    (hdisj : ∀ n ∈ ["code", "code2"], n ∉ K) :
    ∃ t2, applyPromotion none now promotion_code total_amount t =
        some (.priced (total_amount - discountGiven t.work now promotion_code total_amount)
          (discountGiven t.work now promotion_code total_amount) t2) ∧
      t2.base = t.base ∧
      t2.work = { t.work with
        promotions := promotionsAfter t.work now promotion_code total_amount } ∧
      (∀ n ∈ t2.declared, n ∈ ["code2"] ++ (["code"] ++ K)) := by
  have hsame : ∀ n ∈ t.declared, n ∈ ["code2"] ++ (["code"] ++ K) := fun n hn =>
    List.mem_append_right _ (List.mem_append_right _ (hK n hn))
  cases promotion_code with
  | none =>
    exact ⟨t, by simp [applyPromotion, discountGiven, appliedPromotion, promotionsAfter],
      rfl, by simp [promotionsAfter, appliedPromotion], hsame⟩
  | some code =>
    by_cases hc : code.truthy = true
    · rcases h with h | ⟨code1, p, rest, hcode, hsel, hex⟩
      · simp [truthy, hc] at h
      · cases hcode
        obtain ⟨t1, h1, b1, w1, d1⟩ := @query_within ["code"] K t id hK
          (fun n hn => hdisj n (by simp at hn ⊢; tauto)) (by decide)
        have hsel1 : selectPromotion t1.work now code = p :: rest := by rw [w1]; exact hsel
        by_cases hmin : total_amount ≥ p.min_order_amount
        · obtain ⟨t2, h2, b2, w2, d2⟩ := @query_within ["code2"] _ t1 (redeemPromotion code) d1
            (by
              intro n hn hmem
              rcases List.mem_append.mp hmem with e | e
              · clear hmem; revert n; decide
              · exact hdisj n (by simp at hn ⊢; tauto) e)
            (by decide)
          refine ⟨t2, ?_, b2.trans b1, ?_, d2⟩
          · simp [applyPromotion, hc, h1, hsel1, hex, hmin, h2, discountGiven, appliedPromotion,
              hsel]
          · rw [w2, w1]
            simp [promotionsAfter, appliedPromotion, hc, hsel, hex, hmin, redeemPromotion]
        · refine ⟨t1, ?_, b1, ?_, fun n hn => List.mem_append_right _ (d1 n hn)⟩
          · simp [applyPromotion, hc, h1, hsel1, hex, hmin, discountGiven, appliedPromotion,
              hsel]
          · rw [w1]
            simp [promotionsAfter, appliedPromotion, hc, hsel, hex, hmin]
    · exact ⟨t, by simp [applyPromotion, hc, discountGiven, appliedPromotion, promotionsAfter],
        rfl, by simp [promotionsAfter, appliedPromotion, hc], hsame⟩

theorem checkoutTry_success (now : Int) (fresh userId : Nat)
    (shipping_address phone notes promotion_code payment_method : Option JsValue) (s : Store)
    (haddr : truthy shipping_address = true) (hphone : truthy phone = true)
    (hrows : (selectCart s userId).length = 1)
    (havail : ∀ i ∈ selectCart s userId, ¬ i.stock < i.quantity)
    (hpromo : promotionAccepted s now promotion_code) :
    checkoutTry none now fresh userId shipping_address phone notes promotion_code
        payment_method s =
      some (.created fresh
          (subtotal (selectCart s userId)
            - discountGiven s now promotion_code (subtotal (selectCart s userId)))
          (discountGiven s now promotion_code (subtotal (selectCart s userId)))
          (selectCart s userId).length,
        successStore s now fresh userId shipping_address phone notes promotion_code
          payment_method) := by
  obtain ⟨row, hrow⟩ := List.length_eq_one.mp hrows
  have hlen : (selectCart s userId).length ≠ 0 := by omega
  have hun : (stockLoop (selectCart s userId)).2 = [] := by
    rw [stockLoop_snd, List.map_eq_nil_iff, List.filter_eq_nil_iff]
    intro i hi
    simpa using havail i hi
  obtain ⟨t1, h1, b1, w1, d1⟩ := @query_within ["userId"] []
    { base := s, work := s, issued := 0 + 1 } id (by simp) (by decide) (by decide)
  have w1s : t1.work = s := w1
  obtain ⟨t2, happ, b2, w2, d2⟩ := applyPromotion_accepted now promotion_code
    (subtotal (selectCart s userId)) t1 (by rw [w1s]; exact hpromo) d1 (by decide)
  rw [w1s] at happ w2
  obtain ⟨t3, h3, b3, w3, d3⟩ := @query_within
    ["userId2", "total_amount", "shipping_address", "phone", "notes", "payment_method"] _ t2
    (insertOrder now fresh userId
      (subtotal (selectCart s userId)
        - discountGiven s now promotion_code (subtotal (selectCart s userId)))
      shipping_address phone notes payment_method) d2 (by decide) (by decide)
  obtain ⟨t4, h4, b4, w4, d4⟩ := persistLines_single now fresh row t3 d3 (by decide)
  obtain ⟨t5, h5, b5, w5, d5⟩ := @query_within ["userId3"] _ t4 (deleteCart userId) d4
    (by decide) (by decide)
  simp only [checkoutTry, exec_none, Option.some_bind, haddr, hphone, id, Bool.not_true,
    Bool.or_self, Bool.false_eq_true, if_false, h1, w1s, hlen, hun, List.length_nil, gt_iff_lt,
    lt_self_iff_false, stockLoop_fst _ havail, happ, h3]
  rw [hrow, h4]
  simp only [Option.some_bind, h5, exec_none, Tx.commit, w5, w4, w3, w2, persistAll_eq,
    successStore, deleteCart, insertOrder, hrow]

theorem checkoutTry_inv {fault : Option Nat} {now : Int} {fresh userId : Nat}
    {shipping_address phone notes promotion_code payment_method : Option JsValue} {s : Store}
    {r : CheckoutResponse} {s1 : Store}
    (h : checkoutTry fault now fresh userId shipping_address phone notes promotion_code
      payment_method s = some (r, s1)) :
    (r.status ≠ 201 → s1 = s) ∧ (r.status = 201 → (selectCart s userId).length ≤ 1) := by
  unfold checkoutTry at h
  cases h0 : Tx.exec fault { base := s, work := s, issued := 0 } id with
  | none => simp [h0] at h
  | some t0 =>
    have b0 : t0.base = s := exec_base h0
    have w0 : t0.work = s := (exec_frame h0).2.1
    simp only [h0, Option.some_bind] at h
    split at h
    · cases h
      exact ⟨fun _ => by simpa [Tx.rollback] using b0, fun hr => by
        simp [CheckoutResponse.status] at hr⟩
    · cases h1 : t0.query fault ["userId"] id with
      | none => simp [h1] at h
      | some t1 =>
        have b1 : t1.base = s := (query_base h1).trans b0
        have w1 : t1.work = s := (query_work h1).trans w0
        simp only [h1, Option.some_bind] at h
        split at h
        · cases h
          exact ⟨fun _ => by simpa [Tx.rollback] using b1, fun hr => by
            simp [CheckoutResponse.status] at hr⟩
        · split at h
          · cases h
            exact ⟨fun _ => by simpa [Tx.rollback] using b1, fun hr => by
              simp [CheckoutResponse.status] at hr⟩
          · cases hp : applyPromotion fault now promotion_code
                (stockLoop (selectCart t1.work userId)).1 t1 with
            | none => simp [hp] at h
            | some pr =>
              cases pr with
              | abort r1 =>
                simp only [hp, Option.some_bind] at h
                cases h
                refine ⟨fun _ => by simpa [Tx.rollback] using b1, fun hr => ?_⟩
                exfalso
                unfold applyPromotion at hp
                split at hp
                · cases hp
                · split at hp
                  · cases hq : t1.query fault ["code"] id with
                    | none => simp [hq] at hp
                    | some ta =>
                      simp only [hq, Option.some_bind] at hp
                      split at hp
                      · split at hp
                        · cases hp; simp [CheckoutResponse.status] at hr
                        · split at hp
                          · simp only [Option.bind_eq_some] at hp
                            obtain ⟨_, _, hp⟩ := hp
                            cases hp
                          · cases hp
                      · cases hp; simp [CheckoutResponse.status] at hr
                  · cases hp
              | priced total disc t2 =>
                simp only [hp, Option.some_bind] at h
                cases h3 : t2.query fault
                    ["userId2", "total_amount", "shipping_address", "phone", "notes",
                      "payment_method"]
                    (insertOrder now fresh userId total shipping_address
                      phone notes payment_method) with
                | none => simp [h3] at h
                | some t3 =>
                  simp only [h3, Option.some_bind] at h
                  cases h4 : persistLines fault now fresh (selectCart t1.work userId) t3 with
                  | none => simp [h4] at h
                  | some t4 =>
                    simp only [h4, Option.some_bind] at h
                    cases h5 : t4.query fault ["userId3"] (deleteCart userId) with
                    | none => simp [h5] at h
                    | some t5 =>
                      simp only [h5, Option.some_bind] at h
                      cases h6 : t5.exec fault id with
                      | none => simp [h6] at h
                      | some t6 =>
                        simp only [h6, Option.some_bind] at h
                        cases h
                        refine ⟨fun hr => by simp [CheckoutResponse.status] at hr, fun _ => ?_⟩
                        rw [← w1]
                        exact persistLines_length h4

theorem checkoutTry_rollback {fault : Option Nat} {now : Int} {fresh userId : Nat}
    {shipping_address phone notes promotion_code payment_method : Option JsValue} {s : Store}
    {r : CheckoutResponse} {s1 : Store}
    (h : checkoutTry fault now fresh userId shipping_address phone notes promotion_code
      payment_method s = some (r, s1))
    (hr : r.status ≠ 201) : s1 = s :=
  (checkoutTry_inv h).1 hr

/-! ## Cart lines and joined rows -/

theorem mem_selectCart {s : Store} {userId : Nat} {r : CartRow} :
    r ∈ selectCart s userId ↔
      ∃ c ∈ s.cart, c.user_id = userId ∧
        ∃ p ∈ s.products, c.product_id = p.product_id ∧ r = joinRow c p := by
  simp only [selectCart, List.mem_flatMap, List.mem_filter, List.mem_map, decide_eq_true_eq]
  constructor
  · rintro ⟨c, ⟨hc, hu⟩, p, ⟨hp, hpid⟩, rfl⟩
    exact ⟨c, hc, hu, p, hp, hpid, rfl⟩
  · rintro ⟨c, hc, hu, p, hp, hpid, rfl⟩
    exact ⟨c, ⟨hc, hu⟩, p, ⟨hp, hpid⟩, rfl⟩

theorem filter_key_eq (l : List Product) (h : (l.map fun p => p.product_id).Nodup) (pid : Nat) :
    (l.filter fun p => pid = p.product_id) = (l.find? fun p => pid = p.product_id).toList := by
  induction l with
  | nil => rfl
  | cons a l ih =>
    rw [List.map_cons, List.nodup_cons] at h
    by_cases ha : pid = a.product_id
    · subst ha
      have hnil : (l.filter fun p => decide (a.product_id = p.product_id)) = [] := by
        rw [List.filter_eq_nil_iff]
        intro p hp
        simp only [decide_eq_true_eq]
        intro e
        apply h.1
        rw [e]
        exact List.mem_map_of_mem _ hp
      simp [List.filter_cons, List.find?_cons, hnil]
    · simp [List.filter_cons, List.find?_cons, ha, ih h.2]

theorem selectCart_eq_filterMap (s : Store) (userId : Nat)
    (hpk : (s.products.map fun p => p.product_id).Nodup) :
    selectCart s userId =
      (cartLines s userId).filterMap fun c => (productOf s c.product_id).map (joinRow c) := by
  unfold selectCart cartLines productOf
  generalize (s.cart.filter fun c => c.user_id = userId) = L
  induction L with
  | nil => rfl
  | cons c L ih =>
    rw [List.flatMap_cons, ih, filter_key_eq _ hpk, List.filterMap_cons]
    cases s.products.find? fun p => c.product_id = p.product_id <;> simp

theorem purchased_filterMap (s : Store) (L : List CartLine) (pid : Nat)
    (hfk : ∀ c ∈ L, (productOf s c.product_id).isSome) :
    purchased (L.filterMap fun c => (productOf s c.product_id).map (joinRow c)) pid =
      ((L.filter fun c => c.product_id = pid).map fun c => c.quantity).sum := by
  induction L with
  | nil => rfl
  | cons c L ih =>
    obtain ⟨p, hp⟩ := Option.isSome_iff_exists.mp (hfk c (List.mem_cons_self _ _))
    have ih1 := ih fun d hd => hfk d (List.mem_cons_of_mem _ hd)
    rw [List.filterMap_cons, hp]
    simp only [Option.map_some']
    rw [purchased_cons, ih1]
    by_cases h : c.product_id = pid <;> simp [joinRow, List.filter_cons, h]

theorem subtotal_filterMap (s : Store) (L : List CartLine) :
    subtotal (L.filterMap fun c => (productOf s c.product_id).map (joinRow c)) =
      (L.map (lineAmount s)).sum := by
  induction L with
  | nil => rfl
  | cons c L ih =>
    rw [List.filterMap_cons]
    cases hp : productOf s c.product_id with
    | none => simp [ih, lineAmount, hp]
    | some p =>
      simp only [Option.map_some', List.map_cons, List.sum_cons, subtotal] at ih ⊢
      rw [ih]
      simp [lineAmount, hp, joinRow]

theorem productOf_isSome {s : Store} {pid : Nat}
    (h : ∃ p ∈ s.products, p.product_id = pid) : (productOf s pid).isSome := by
  obtain ⟨p, hp, rfl⟩ := h
  rw [productOf, List.find?_isSome]
  exact ⟨p, hp, by simp⟩

theorem productOf_eq_some {s : Store} {p : Product}
    (hpk : (s.products.map fun p => p.product_id).Nodup) (hp : p ∈ s.products) :
    productOf s p.product_id = some p := by
  cases h : productOf s p.product_id with
  | none =>
    have := productOf_isSome ⟨p, hp, rfl⟩
    simp [h] at this
  | some q =>
    have hq := List.mem_of_find?_eq_some h
    have hk := List.find?_some h
    simp only [decide_eq_true_eq] at hk
    rw [List.inj_on_of_nodup_map hpk hp hq hk]

/-! ## Inversion of a successful call -/

theorem applyPromotion_rejected (now : Int) (promotion_code : Option JsValue)
    (total_amount : ℚ) (t : Tx) (h : ¬ promotionAccepted t.work now promotion_code)
    (hfresh : "code" ∉ t.declared) :
    ∃ r, applyPromotion none now promotion_code total_amount t = some (.abort r) ∧
      r.status = 400 := by
  have hq := @query_none ["code"] t id (fun n hn => by
    have : n = "code" := by simpa using hn
    subst this
    exact hfresh) (by decide)
  cases promotion_code with
  | none => exact absurd (Or.inl rfl) h
  | some code =>
    by_cases hc : code.truthy = true
    · cases hsel : selectPromotion t.work now code with
      | nil =>
        exact ⟨.invalidPromotion, by simp [applyPromotion, hc, hq, hsel], rfl⟩
      | cons p rest =>
        by_cases hex : usageExhausted p = true
        · exact ⟨.promotionExhausted, by simp [applyPromotion, hc, hq, hsel, hex], rfl⟩
        · exact absurd (Or.inr ⟨code, p, rest, rfl, hsel, by simpa using hex⟩) h
    · exact absurd (Or.inl (by simpa [truthy] using hc)) h

theorem query_userId (s : Store) :
    Tx.query none { base := s, work := s, issued := 0 + 1 } ["userId"] id =
      some { base := s, work := s, issued := 0 + 1 + 1, declared := ["userId"] } := by
  simp [Tx.query, Tx.inputs, Tx.input, Tx.exec]

theorem query_code (s : Store) :
    Tx.query none { base := s, work := s, issued := 0 + 1 + 1, declared := ["userId"] }
        ["code"] id =
      some { base := s, work := s, issued := 0 + 1 + 1 + 1, declared := ["code", "userId"] } := by
  simp [Tx.query, Tx.inputs, Tx.input, Tx.exec]

theorem checkoutTry_created_inv {now : Int} {fresh userId : Nat}
    {shipping_address phone notes promotion_code payment_method : Option JsValue} {s : Store}
    {r : CheckoutResponse} {s1 : Store}
    (h : checkoutTry none now fresh userId shipping_address phone notes promotion_code
      payment_method s = some (r, s1))
    (hr : r.status = 201) :
    truthy shipping_address = true ∧ truthy phone = true ∧ (selectCart s userId).length = 1 ∧
      (∀ i ∈ selectCart s userId, ¬ i.stock < i.quantity) ∧
      promotionAccepted s now promotion_code := by
  have hle : (selectCart s userId).length ≤ 1 := (checkoutTry_inv h).2 hr
  have hfields : truthy shipping_address = true ∧ truthy phone = true := by
    by_contra hc
    have hc1 : (!truthy shipping_address || !truthy phone) = true := by
      cases h1 : truthy shipping_address <;> cases h2 : truthy phone <;> simp_all
    simp only [checkoutTry, exec_none, Option.some_bind, hc1, if_true, Option.some.injEq,
      Prod.mk.injEq] at h
    rw [← h.1] at hr
    simp [CheckoutResponse.status] at hr
  have hf : (!truthy shipping_address || !truthy phone) = false := by
    simp [hfields.1, hfields.2]
  have hrows : selectCart s userId ≠ [] := by
    intro hc
    simp only [checkoutTry, exec_none, Option.some_bind, hf, id, query_userId, hc,
      List.length_nil, if_true, Bool.false_eq_true, if_false, Option.some.injEq,
      Prod.mk.injEq] at h
    rw [← h.1] at hr
    simp [CheckoutResponse.status] at hr
  have hlen : (selectCart s userId).length ≠ 0 := by
    simpa [List.length_eq_zero] using hrows
  have havail : ∀ i ∈ selectCart s userId, ¬ i.stock < i.quantity := by
    by_contra hc
    have hpos : (stockLoop (selectCart s userId)).2.length > 0 := by
      push_neg at hc
      obtain ⟨i, hi, hlt⟩ := hc
      rw [stockLoop_snd, List.length_map]
      exact List.length_pos_of_mem (List.mem_filter.mpr ⟨hi, by simpa using hlt⟩)
    simp only [checkoutTry, exec_none, Option.some_bind, hf, id, query_userId, hlen, hpos,
      if_true, Bool.false_eq_true, if_false, Option.some.injEq, Prod.mk.injEq] at h
    rw [← h.1] at hr
    simp [CheckoutResponse.status] at hr
  refine ⟨hfields.1, hfields.2, by omega, havail, ?_⟩
  by_contra hc
  have hun : ¬ (stockLoop (selectCart s userId)).2.length > 0 := by
    rw [stockLoop_snd, List.length_map, gt_iff_lt, List.length_pos, ne_eq, not_not,
      List.filter_eq_nil_iff]
    intro i hi
    simpa using havail i hi
  obtain ⟨r1, happ, hr1⟩ := applyPromotion_rejected now promotion_code
    (stockLoop (selectCart s userId)).1
    { base := s, work := s, issued := 0 + 1 + 1, declared := ["userId"] } hc (by simp)
  simp only [checkoutTry, exec_none, Option.some_bind, hf, id, query_userId, hlen, hun, happ,
    if_true, Bool.false_eq_true, if_false, Option.some.injEq, Prod.mk.injEq] at h
  rw [← h.1, hr1] at hr
  simp at hr

theorem checkout_created_eq {now : Int} {fresh userId : Nat} {body : Body} {s : Store}
    (hok : (checkout none now fresh userId body s).1.status = 201) :
    promotionAccepted s now (body.field "promotion_code") ∧
      checkout none now fresh userId body s =
        (.created fresh
          (subtotal (selectCart s userId)
            - discountGiven s now (body.field "promotion_code") (subtotal (selectCart s userId)))
          (discountGiven s now (body.field "promotion_code") (subtotal (selectCart s userId)))
          (selectCart s userId).length,
         successStore s now fresh userId (body.field "shipping_address") (body.field "phone")
          (body.field "notes") (body.field "promotion_code") (paymentMethodOf body)) := by
  have key : ∃ r s1, checkoutTry none now fresh userId (body.field "shipping_address")
      (body.field "phone") (body.field "notes") (body.field "promotion_code")
      (paymentMethodOf body) s = some (r, s1) ∧ r.status = 201 := by
    unfold checkout at hok
    cases h : checkoutTry none now fresh userId (body.field "shipping_address")
        (body.field "phone") (body.field "notes") (body.field "promotion_code")
        (paymentMethodOf body) s with
    | none => rw [h] at hok; simp [CheckoutResponse.status] at hok
    | some rs => rw [h] at hok; exact ⟨rs.1, rs.2, rfl, hok⟩
  obtain ⟨r, s1, h, hr⟩ := key
  obtain ⟨h1, h2, h3, h4, h5⟩ := checkoutTry_created_inv h hr
  refine ⟨h5, ?_⟩
  rw [checkout, checkoutTry_success now fresh userId _ _ _ _ _ s h1 h2 h3 h4 h5]

theorem checkout_created_rows {now : Int} {fresh userId : Nat} {body : Body} {s : Store}
    (hok : (checkout none now fresh userId body s).1.status = 201) :
    (selectCart s userId).length = 1 ∧ ∀ i ∈ selectCart s userId, ¬ i.stock < i.quantity := by
  unfold checkout at hok
  cases h : checkoutTry none now fresh userId (body.field "shipping_address")
      (body.field "phone") (body.field "notes") (body.field "promotion_code")
      (paymentMethodOf body) s with
  | none => rw [h] at hok; simp [CheckoutResponse.status] at hok
  | some rs =>
    rw [h] at hok
    obtain ⟨_, _, h3, h4, _⟩ := @checkoutTry_created_inv now fresh userId _ _ _ _ _ s rs.1 rs.2 h hok
    exact ⟨h3, h4⟩

/-! ## A call that succeeds did not meet the fault -/

theorem exec_mono {fault : Option Nat} {t t1 : Tx} {effect : Store → Store}
    (h : t.exec fault effect = some t1) : t.exec none effect = some t1 := by
  unfold Tx.exec at h
  split at h
  · cases h
  · rw [exec_none]; exact h

theorem query_mono {fault : Option Nat} {t t1 : Tx} {names : List String}
    {effect : Store → Store} (h : t.query fault names effect = some t1) :
    t.query none names effect = some t1 := by
  unfold Tx.query at h ⊢
  cases hi : t.inputs names with
  | none => simp [hi] at h
  | some ta =>
    simp only [hi, Option.some_bind] at h ⊢
    exact exec_mono h

theorem persistLines_mono {fault : Option Nat} {now : Int} {order_id : Nat}
    {items : List CartRow} {t t1 : Tx}
    (h : persistLines fault now order_id items t = some t1) :
    persistLines none now order_id items t = some t1 := by
  induction items generalizing t with
  | nil => exact h
  | cons i rest ih =>
    simp only [persistLines, Option.bind_eq_some] at h ⊢
    obtain ⟨a, ha, b, hb, hrest⟩ := h
    exact ⟨a, query_mono ha, b, query_mono hb, ih hrest⟩

theorem applyPromotion_mono {fault : Option Nat} {now : Int} {promotion_code : Option JsValue}
    {total_amount : ℚ} {t : Tx} {pr : Pricing}
    (h : applyPromotion fault now promotion_code total_amount t = some pr) :
    applyPromotion none now promotion_code total_amount t = some pr := by
  unfold applyPromotion at h ⊢
  cases promotion_code with
  | none => exact h
  | some code =>
    simp only at h ⊢
    split
    · rename_i hc
      simp only [hc, if_true, Option.bind_eq_some] at h
      obtain ⟨t1, h1, h⟩ := h
      rw [query_mono h1, Option.some_bind]
      split
      · rename_i p rest hsel
        simp only [hsel] at h
        split
        · rename_i hex
          simpa only [hex, if_true] using h
        · rename_i hex
          simp only [hex, Bool.false_eq_true, if_false] at h
          split
          · rename_i hmin
            simp only [hmin, if_true, Option.bind_eq_some] at h
            obtain ⟨t2, h2, h⟩ := h
            rw [query_mono h2, Option.some_bind]
            exact h
          · rename_i hmin
            simpa only [hmin, Bool.false_eq_true, if_false] using h
      · rename_i hsel
        simpa only [hsel] using h
    · rename_i hc
      simpa only [hc, Bool.false_eq_true, if_false] using h

theorem checkoutTry_mono {fault : Option Nat} {now : Int} {fresh userId : Nat}
    {shipping_address phone notes promotion_code payment_method : Option JsValue} {s : Store}
    {x : CheckoutResponse × Store}
    (h : checkoutTry fault now fresh userId shipping_address phone notes promotion_code
      payment_method s = some x) :
    checkoutTry none now fresh userId shipping_address phone notes promotion_code
      payment_method s = some x := by
  unfold checkoutTry at h ⊢
  rw [Option.bind_eq_some] at h
  obtain ⟨t0, h0, h⟩ := h
  rw [exec_mono h0, Option.some_bind]
  split
  · rename_i hf
    simpa only [hf, if_true] using h
  · rename_i hf
    simp only [hf, Bool.false_eq_true, if_false, Option.bind_eq_some] at h
    obtain ⟨t1, h1, h⟩ := h
    rw [query_mono h1, Option.some_bind]
    simp only at h ⊢
    split
    · rename_i he
      simpa only [he, if_true] using h
    · rename_i he
      simp only [he, Bool.false_eq_true, if_false] at h
      split
      · rename_i hu
        simpa only [hu, if_true] using h
      · rename_i hu
        simp only [hu, Bool.false_eq_true, if_false, Option.bind_eq_some] at h
        obtain ⟨pr, hp, h⟩ := h
        rw [applyPromotion_mono hp, Option.some_bind]
        cases pr with
        | abort r => exact h
        | priced total disc t2 =>
          simp only [Option.bind_eq_some] at h ⊢
          obtain ⟨t3, h3, t4, h4, t5, h5, t6, h6, h⟩ := h
          exact ⟨t3, query_mono h3, t4, persistLines_mono h4, t5, query_mono h5, t6,
            exec_mono h6, h⟩

theorem checkout_created_mono {fault : Option Nat} {now : Int} {fresh userId : Nat}
    {body : Body} {s : Store}
    (hok : (checkout fault now fresh userId body s).1.status = 201) :
    checkout fault now fresh userId body s = checkout none now fresh userId body s := by
  unfold checkout at hok ⊢
  cases h : checkoutTry fault now fresh userId (body.field "shipping_address")
      (body.field "phone") (body.field "notes") (body.field "promotion_code")
      (paymentMethodOf body) s with
  | none => rw [h] at hok; simp [CheckoutResponse.status] at hok
  | some x => rw [checkoutTry_mono h]

theorem length_filterMap_isSome (s : Store) (L : List CartLine)
    (hfk : ∀ c ∈ L, (productOf s c.product_id).isSome) :
    (L.filterMap fun c => (productOf s c.product_id).map (joinRow c)).length = L.length := by
  induction L with
  | nil => rfl
  | cons c L ih =>
    obtain ⟨p, hp⟩ := Option.isSome_iff_exists.mp (hfk c (List.mem_cons_self _ _))
    rw [List.filterMap_cons, hp]
    simp [ih fun d hd => hfk d (List.mem_cons_of_mem _ hd)]

theorem rows_available {s : Store} {userId : Nat}
    (hpk : (s.products.map fun p => p.product_id).Nodup)
    (hstock : ∀ c ∈ s.cart, c.user_id = userId →
      ∃ p ∈ s.products, p.product_id = c.product_id ∧ c.quantity ≤ p.stock) :
    ∀ i ∈ selectCart s userId, ¬ i.stock < i.quantity := by
  intro i hi
  obtain ⟨c, hc, hu, p1, hp1, hpid, rfl⟩ := mem_selectCart.mp hi
  obtain ⟨p, hp, hk, hle⟩ := hstock c hc hu
  have : p = p1 := List.inj_on_of_nodup_map hpk hp hp1 (hk.trans hpid)
  subst this
  simpa [joinRow] using hle

/-! ## The claims -/

theorem checkout_single_line_succeeds (now : Int) (fresh userId : Nat) (body : Body)
    (s : Store)
    (haddr : truthy (body.field "shipping_address") = true)
    (hphone : truthy (body.field "phone") = true)
    (hpk : (s.products.map fun p => p.product_id).Nodup)
    (hline : (cartLines s userId).length = 1)
    (hstock : ∀ c ∈ s.cart, c.user_id = userId →
      ∃ p ∈ s.products, p.product_id = c.product_id ∧ c.quantity ≤ p.stock)
    (hpromo : promotionAccepted s now (body.field "promotion_code")) :
    ∃ s1 o,
      checkout none now fresh userId body s =
        (.created fresh
          (cartTotal s userId
            - discountGiven s now (body.field "promotion_code") (cartTotal s userId))
          (discountGiven s now (body.field "promotion_code") (cartTotal s userId))
          (cartLines s userId).length, s1) ∧
      s1.products = s.products.map (fun p =>
        { p with stock := p.stock - cartQuantity s userId p.product_id }) ∧
      s1.orders = s.orders ++ [o] ∧ o.order_id = fresh ∧ o.user_id = userId ∧
      o.total_amount = cartTotal s userId
        - discountGiven s now (body.field "promotion_code") (cartTotal s userId) ∧
      cartLines s1 userId = [] ∧
      s1.cart = s.cart.filter (fun c => ¬ (c.user_id = userId)) := by
  have hfk : ∀ c ∈ cartLines s userId, (productOf s c.product_id).isSome := by
    intro c hc
    obtain ⟨hc1, hu⟩ := List.mem_filter.mp hc
    obtain ⟨p, hp, hk, _⟩ := hstock c hc1 (by simpa using hu)
    exact productOf_isSome ⟨p, hp, hk⟩
  have hrowsEq := selectCart_eq_filterMap s userId hpk
  have hlen : (selectCart s userId).length = (cartLines s userId).length := by
    rw [hrowsEq, length_filterMap_isSome s _ hfk]
  have hsub : subtotal (selectCart s userId) = cartTotal s userId := by
    rw [hrowsEq, subtotal_filterMap, cartTotal]
  have hpur : ∀ pid, purchased (selectCart s userId) pid = cartQuantity s userId pid := by
    intro pid
    rw [hrowsEq, purchased_filterMap s _ pid hfk, cartQuantity]
  refine ⟨successStore s now fresh userId (body.field "shipping_address") (body.field "phone")
      (body.field "notes") (body.field "promotion_code") (paymentMethodOf body),
    orderOf now fresh userId
      (cartTotal s userId - discountGiven s now (body.field "promotion_code") (cartTotal s userId))
      (body.field "shipping_address") (body.field "phone") (body.field "notes")
      (paymentMethodOf body), ?_, ?_, ?_, rfl, rfl, rfl, ?_, rfl⟩
  · rw [checkout, checkoutTry_success now fresh userId _ _ _ _ _ s haddr hphone
      (hlen.trans hline) (rows_available hpk hstock) hpromo, hsub, hlen]
  · simp only [successStore, hpur]
  · simp only [successStore, hsub]
  · simp [cartLines, successStore, List.filter_filter]

theorem checkout_two_rows_fails (fault : Option Nat) (now : Int) (fresh userId : Nat)
    (body : Body) (s : Store) (hrows : 2 ≤ (selectCart s userId).length) :
    (checkout fault now fresh userId body s).1.status ≠ 201 ∧
      (checkout fault now fresh userId body s).2 = s := by
  unfold checkout
  cases h : checkoutTry fault now fresh userId (body.field "shipping_address")
      (body.field "phone") (body.field "notes") (body.field "promotion_code")
      (paymentMethodOf body) s with
  | none => exact ⟨by simp [CheckoutResponse.status], rfl⟩
  | some rs =>
    obtain ⟨r, s1⟩ := rs
    have hinv := checkoutTry_inv h
    have hne : r.status ≠ 201 := fun e => by
      have := hinv.2 e
      omega
    exact ⟨hne, hinv.1 hne⟩

/-- Claim C1, at the failing input.  The cart of user 7 has two lines, two
units of product 1 and one unit of product 2, each within the stock of 5, and
the request carries address and phone and no promotion code.  The second
round of the loop of lines 808-829 declares `orderId` again on the request of
line 681, the driver throws, and `checkout` answers 500 `CHECKOUT_ERROR` with
the store rolled back: no order, no stock change, the cart as before. -/
theorem checkout_two_lines_server_error :
    (∀ c ∈ twoProductStore.cart, c.user_id = 7 ∧
        ∃ p ∈ twoProductStore.products, p.product_id = c.product_id ∧ c.quantity ≤ p.stock) ∧
      truthy (Body.field plainBody "shipping_address") = true ∧
      truthy (Body.field plainBody "phone") = true ∧
      checkout none 0 1 7 plainBody twoProductStore = (.checkoutError, twoProductStore) ∧
      CheckoutResponse.checkoutError.status = 500 := by
  refine ⟨?_, by with_unfolding_all rfl, by with_unfolding_all rfl,
    by with_unfolding_all rfl, rfl⟩
  intro c hc
  simp only [twoProductStore, List.mem_cons, List.mem_singleton, List.not_mem_nil,
    or_false] at hc
  rcases hc with rfl | rfl
  · exact ⟨rfl, productA 5, by simp [twoProductStore], rfl, by decide⟩
  · exact ⟨rfl, productB 5, by simp [twoProductStore], rfl, by decide⟩

/-- Claim C2.  When some cart line of the user asks for more than the stock of
its product (and the request carries the required fields), `checkout` answers
with code `UNAVAILABLE_ITEMS`, lists one entry for every joined cart row with
`stock < quantity`, and leaves the whole store unchanged. -/
theorem checkout_unavailable_items (now : Int) (fresh userId : Nat) (body : Body) (s : Store)
    (haddr : truthy (body.field "shipping_address") = true)
    (hphone : truthy (body.field "phone") = true)
    (hshort : ∃ c ∈ s.cart, c.user_id = userId ∧
      ∃ p ∈ s.products, c.product_id = p.product_id ∧ p.stock < c.quantity) :
    checkout none now fresh userId body s =
        (.unavailableItems
          (((selectCart s userId).filter fun i => i.stock < i.quantity).map unavailableMessage),
         s) ∧
      (checkout none now fresh userId body s).1.code = some "UNAVAILABLE_ITEMS" ∧
      (checkout none now fresh userId body s).1.status = 400 ∧
      (((selectCart s userId).filter fun i => i.stock < i.quantity).map unavailableMessage).length
        = ((selectCart s userId).filter fun i => i.stock < i.quantity).length ∧
      0 < ((selectCart s userId).filter fun i => i.stock < i.quantity).length := by
  obtain ⟨c, hc, hu, p, hp, hpid, hlt⟩ := hshort
  have hmem : joinRow c p ∈ (selectCart s userId).filter fun i => i.stock < i.quantity :=
    List.mem_filter.mpr ⟨mem_selectCart.mpr ⟨c, hc, hu, p, hp, hpid, rfl⟩,
      by simpa [joinRow] using hlt⟩
  have hpos : 0 < ((selectCart s userId).filter fun i => i.stock < i.quantity).length :=
    List.length_pos_of_mem hmem
  have hlen : (selectCart s userId).length ≠ 0 := by
    intro h0
    rw [List.eq_nil_of_length_eq_zero h0] at hmem
    simp at hmem
  have hun : (stockLoop (selectCart s userId)).2.length > 0 := by
    rw [stockLoop_snd, List.length_map]
    exact hpos
  have hres : checkout none now fresh userId body s =
      (.unavailableItems
        (((selectCart s userId).filter fun i => i.stock < i.quantity).map unavailableMessage),
       s) := by
    simp only [checkout, checkoutTry, exec_none, Option.some_bind, haddr, hphone, id,
      Bool.not_true, Bool.or_self, Bool.false_eq_true, if_false, query_userId, hlen, hun,
      if_true, Tx.rollback]
    rw [stockLoop_snd]
  refine ⟨hres, ?_, ?_, List.length_map _ _, hpos⟩
  · rw [hres]; rfl
  · rw [hres]; rfl

/-- Claim C3.  Atomicity: whatever the request, the store and the statement (if
any) at which the database throws, a call of `checkout` that does not answer
201 leaves the store exactly as it was before the call. -/
theorem checkout_atomic (fault : Option Nat) (now : Int) (fresh userId : Nat) (body : Body)
    (s : Store) (hfail : (checkout fault now fresh userId body s).1.status ≠ 201) :
    (checkout fault now fresh userId body s).2 = s := by
  unfold checkout at hfail ⊢
  cases h : checkoutTry fault now fresh userId (body.field "shipping_address")
      (body.field "phone") (body.field "notes") (body.field "promotion_code")
      (paymentMethodOf body) s with
  | none => rfl
  | some rs =>
    obtain ⟨r, s1⟩ := rs
    rw [h] at hfail
    exact checkoutTry_rollback h hfail

/-- Claim C7.  Two request bodies that agree on `shipping_address`, `phone`,
`notes`, `promotion_code` and `payment_method` get the same answer and leave
the same store, whatever other fields (items, prices, totals) they carry. -/
theorem checkout_ignores_client_amounts (fault : Option Nat) (now : Int) (fresh userId : Nat)
    (b1 b2 : Body) (s : Store)
    (haddr : b1.field "shipping_address" = b2.field "shipping_address")
    (hphone : b1.field "phone" = b2.field "phone")
    (hnotes : b1.field "notes" = b2.field "notes")
    (hcode : b1.field "promotion_code" = b2.field "promotion_code")
    (hpay : b1.field "payment_method" = b2.field "payment_method") :
    checkout fault now fresh userId b1 s = checkout fault now fresh userId b2 s := by
  simp only [checkout, paymentMethodOf, haddr, hphone, hnotes, hcode, hpay]

/-- Witness of C7: the request of the browser, which also carries items and
totals, is handled like the request without them. -/
theorem checkout_ignores_client_amounts_witness :
    checkout none 0 1 7 browserBody (exampleStore 5 none 0) =
      checkout none 0 1 7 plainBody (exampleStore 5 none 0) :=
  checkout_ignores_client_amounts none 0 1 7 browserBody plainBody (exampleStore 5 none 0)
    (by with_unfolding_all rfl) (by with_unfolding_all rfl) (by with_unfolding_all rfl)
    (by with_unfolding_all rfl) (by with_unfolding_all rfl)

/-- Witness of C2: with stock 1 the line of two units is reported, and the
store stays as it was. -/
theorem checkout_unavailable_items_witness :
    checkout none 0 1 7 plainBody (exampleStore 1 none 0) =
        (.unavailableItems
          (((selectCart (exampleStore 1 none 0) 7).filter
            fun i => i.stock < i.quantity).map unavailableMessage),
         exampleStore 1 none 0) ∧
      (checkout none 0 1 7 plainBody (exampleStore 1 none 0)).1.code
        = some "UNAVAILABLE_ITEMS" ∧
      (checkout none 0 1 7 plainBody (exampleStore 1 none 0)).1.status = 400 ∧
      (((selectCart (exampleStore 1 none 0) 7).filter
          fun i => i.stock < i.quantity).map unavailableMessage).length
        = ((selectCart (exampleStore 1 none 0) 7).filter fun i => i.stock < i.quantity).length ∧
      0 < ((selectCart (exampleStore 1 none 0) 7).filter fun i => i.stock < i.quantity).length :=
  checkout_unavailable_items 0 1 7 plainBody (exampleStore 1 none 0)
    (by with_unfolding_all rfl) (by with_unfolding_all rfl)
    ⟨lineA, by simp [exampleStore], rfl, productA 1, by simp [exampleStore], rfl, by decide⟩

/-- Witness of C3: the database throws at statement 6, the stock update of the
first cart row, after the promotion was redeemed and the order and its first
line were inserted; the call answers 500 and the store is the one before. -/
theorem checkout_atomic_witness :
    (checkout (some 6) 0 1 7 (exampleBody "SALE10") (exampleStore 5 none 0)).1
        = .checkoutError ∧
      (checkout (some 6) 0 1 7 (exampleBody "SALE10") (exampleStore 5 none 0)).2
        = exampleStore 5 none 0 :=
  ⟨by with_unfolding_all rfl,
    checkout_atomic (some 6) 0 1 7 (exampleBody "SALE10") (exampleStore 5 none 0)
      (by
        rw [show (checkout (some 6) 0 1 7 (exampleBody "SALE10") (exampleStore 5 none 0)).1
          = .checkoutError from by with_unfolding_all rfl]
        decide)⟩

/-- Claim C5, the failing input.  A fixed promotion of 50000 on a cart worth
30000: the call answers 201 with `total_amount` -20000 and stores that total
in the order. -/
theorem checkout_fixed_discount_negative_total :
    checkout none 0 1 7 (exampleBody "FIXED50") fixedPromoStore =
      (.created 1 (-20000) 50000 1,
       { products := [{ product_id := 1, name := "A", price := 30000, stock := 4,
                        discount_percent := none }],
         cart := [],
         promotions := [{ code := "FIXED50", discount_type := "fixed",
                          discount_value := 50000, min_order_amount := 0,
                          usage_limit := none, used_count := 1, start_date := none,
                          end_date := none, is_active := true }],
         orders := [orderOf 0 1 7 (-20000) (some (.str "12 Nguyen Trai, Ha Noi"))
           (some (.str "0912345678")) (none) (some (.str "COD"))],
         order_details :=
           [{ order_id := 1, product_id := 1, quantity := 1, price := 30000,
              color := none, size := none, created_at := 0 }] }) := by
  with_unfolding_all rfl

/-- Counterexample to C6 as stated: promotion BIG500 is selected and not
exhausted, the cart total 180000 is below its minimum 500000, yet the call
answers 201 and an order of 180000 is created without discount. -/
theorem checkout_below_minimum_creates_order :
    selectPromotion minimumPromoStore 0 (.str "BIG500") = minimumPromoStore.promotions ∧
      subtotal (selectCart minimumPromoStore 7) = 180000 ∧
      minimumPromoStore.promotions.map (fun p => p.min_order_amount) = [500000] ∧
      checkout none 0 1 7 (exampleBody "BIG500") minimumPromoStore =
        (.created 1 180000 0 1,
         { products := [productA 3],
           cart := [],
           promotions := minimumPromoStore.promotions,
           orders := [orderOf 0 1 7 180000 (some (.str "12 Nguyen Trai, Ha Noi"))
             (some (.str "0912345678")) none (some (.str "COD"))],
           order_details :=
             [{ order_id := 1, product_id := 1, quantity := 2, price := 90000,
                color := none, size := none, created_at := 0 }] }) :=
  ⟨by with_unfolding_all rfl, by with_unfolding_all rfl, by with_unfolding_all rfl,
    by with_unfolding_all rfl⟩

/-- Claim C6, as amended.  On a request with the required fields, a cart with at
least one joined row and every row within stock, a truthy `promotion_code` for
which no active promotion within its date window is selected makes `checkout`
answer `INVALID_PROMOTION`, and one whose selected promotion has reached its
usage limit makes it answer `PROMOTION_EXHAUSTED`; in both cases the store is
unchanged, so no order is created. -/
theorem checkout_rejected_promotion_aborts (now : Int) (fresh userId : Nat) (body : Body)
    (s : Store) (code : JsValue)
    (haddr : truthy (body.field "shipping_address") = true)
    (hphone : truthy (body.field "phone") = true)
    (hrows : selectCart s userId ≠ [])
    (havail : ∀ i ∈ selectCart s userId, ¬ i.stock < i.quantity)
    (hcode : body.field "promotion_code" = some code) (htruthy : code.truthy = true)
    (hrej : ∀ p rest, selectPromotion s now code = p :: rest → usageExhausted p = true) :
    checkout none now fresh userId body s =
        ((match selectPromotion s now code with
          | [] => CheckoutResponse.invalidPromotion
          | _ :: _ => CheckoutResponse.promotionExhausted), s) ∧
      (checkout none now fresh userId body s).1.status = 400 ∧
      (checkout none now fresh userId body s).2.orders = s.orders := by
  have hlen : (selectCart s userId).length ≠ 0 := by
    simpa [List.length_eq_zero] using hrows
  have hun : ¬ (stockLoop (selectCart s userId)).2.length > 0 := by
    rw [stockLoop_snd, List.length_map, gt_iff_lt, List.length_pos, ne_eq, not_not,
      List.filter_eq_nil_iff]
    intro i hi
    simpa using havail i hi
  have hres : checkout none now fresh userId body s =
      ((match selectPromotion s now code with
        | [] => CheckoutResponse.invalidPromotion
        | _ :: _ => CheckoutResponse.promotionExhausted), s) := by
    cases hsel : selectPromotion s now code with
    | nil =>
      simp only [checkout, checkoutTry, exec_none, Option.some_bind, haddr, hphone, id,
        Bool.not_true, Bool.or_self, Bool.false_eq_true, if_false, query_userId, hlen, hun,
        hcode, applyPromotion, htruthy, if_true, query_code, hsel, Tx.rollback]
    | cons p rest =>
      simp only [checkout, checkoutTry, exec_none, Option.some_bind, haddr, hphone, id,
        Bool.not_true, Bool.or_self, Bool.false_eq_true, if_false, query_userId, hlen, hun,
        hcode, applyPromotion, htruthy, if_true, query_code, hsel, hrej p rest hsel,
        Tx.rollback]
  refine ⟨hres, ?_, ?_⟩
  · rw [hres]
    cases selectPromotion s now code <;> rfl
  · rw [hres]

/-- Witness of C6 (amended): the single redemption of SALE10 is used up, and
the call answers `PROMOTION_EXHAUSTED` without touching the store. -/
theorem checkout_rejected_promotion_aborts_witness :
    checkout none 0 1 7 (exampleBody "SALE10") exhaustedStore =
        ((match selectPromotion exhaustedStore 0 (.str "SALE10") with
          | [] => CheckoutResponse.invalidPromotion
          | _ :: _ => CheckoutResponse.promotionExhausted), exhaustedStore) ∧
      (checkout none 0 1 7 (exampleBody "SALE10") exhaustedStore).1.status = 400 ∧
      (checkout none 0 1 7 (exampleBody "SALE10") exhaustedStore).2.orders
        = exhaustedStore.orders :=
  checkout_rejected_promotion_aborts 0 1 7 (exampleBody "SALE10") exhaustedStore
    (.str "SALE10") (by with_unfolding_all rfl) (by with_unfolding_all rfl)
    (by
      rw [show selectCart exhaustedStore 7 = [joinRow lineA (productA 5)] from
        by with_unfolding_all rfl]
      simp)
    (by
      rw [show selectCart exhaustedStore 7 = [joinRow lineA (productA 5)] from
        by with_unfolding_all rfl]
      intro i hi
      rw [List.mem_singleton.mp hi]
      decide)
    (by with_unfolding_all rfl) (by with_unfolding_all rfl)
    (by
      rw [show selectPromotion exhaustedStore 0 (.str "SALE10") = [sale10 (some 1) 1] from
        by with_unfolding_all rfl]
      intro p rest h
      rw [← (List.cons.inj h).1]
      with_unfolding_all rfl)

theorem forall₂_orderDetails (s : Store) (now : Int) (fresh : Nat) (L : List CartLine)
    (hfk : ∀ c ∈ L, (productOf s c.product_id).isSome) :
    List.Forall₂
      (fun c d => d.order_id = fresh ∧ d.product_id = c.product_id ∧ d.quantity = c.quantity ∧
        d.color = c.color ∧ d.size = c.size ∧
        ∃ p ∈ s.products, p.product_id = c.product_id ∧
          d.price = p.price * (1 - (p.discount_percent.getD 0) / 100))
      L
      ((L.filterMap fun c => (productOf s c.product_id).map (joinRow c)).map
        (orderDetailOf now fresh)) := by
  induction L with
  | nil => exact List.Forall₂.nil
  | cons c L ih =>
    obtain ⟨p, hp⟩ := Option.isSome_iff_exists.mp (hfk c (List.mem_cons_self _ _))
    have hmem : p ∈ s.products := List.mem_of_find?_eq_some hp
    have hkey : c.product_id = p.product_id := by
      simpa using List.find?_some hp
    rw [List.filterMap_cons, hp]
    simp only [Option.map_some', List.map_cons]
    exact List.Forall₂.cons
      ⟨rfl, rfl, rfl, rfl, rfl, p, hmem, hkey.symm, rfl⟩
      (ih fun d hd => hfk d (List.mem_cons_of_mem _ hd))

/-- Claim C8.  After a successful `checkout` (answer 201, wherever a fault was
armed) on a store in which
`product_id` is a key of `products` and every cart line of the user has its
product, the new order lines are, in order, one per cart line of the user:
each carries the order id, the line's `product_id`, `quantity`, `color` and
`size`, and the unit price `price x (1 - discount_percent/100)` of the line's
product.  The lines are a function of the store, the time and the order id
alone, so they are the same with and without a promotion code. -/
theorem checkout_order_lines (fault : Option Nat) (now : Int) (fresh userId : Nat)
    (body : Body) (s : Store)
    (hpk : (s.products.map fun p => p.product_id).Nodup)
    (hfk : ∀ c ∈ s.cart, c.user_id = userId → ∃ p ∈ s.products, p.product_id = c.product_id)
    (hok : (checkout fault now fresh userId body s).1.status = 201) :
    (checkout fault now fresh userId body s).2.order_details =
        s.order_details ++ (selectCart s userId).map (orderDetailOf now fresh) ∧
      List.Forall₂
        (fun c d => d.order_id = fresh ∧ d.product_id = c.product_id ∧
          d.quantity = c.quantity ∧ d.color = c.color ∧ d.size = c.size ∧
          ∃ p ∈ s.products, p.product_id = c.product_id ∧
            d.price = p.price * (1 - (p.discount_percent.getD 0) / 100))
        (cartLines s userId)
        ((selectCart s userId).map (orderDetailOf now fresh)) := by
  have hnone := checkout_created_mono hok
  rw [hnone] at hok ⊢
  constructor
  · rw [(checkout_created_eq hok).2]
    rfl
  · rw [selectCart_eq_filterMap s userId hpk]
    apply forall₂_orderDetails
    intro c hc
    obtain ⟨hc1, hu⟩ := List.mem_filter.mp hc
    exact productOf_isSome (hfk c hc1 (by simpa using hu))

/-- Witness of C8 on the store of the worked example. -/
theorem checkout_order_lines_witness :
    (checkout none 0 1 7 (exampleBody "SALE10") (exampleStore 5 none 0)).2.order_details =
        (exampleStore 5 none 0).order_details
          ++ (selectCart (exampleStore 5 none 0) 7).map (orderDetailOf 0 1) ∧
      List.Forall₂
        (fun c d => d.order_id = 1 ∧ d.product_id = c.product_id ∧
          d.quantity = c.quantity ∧ d.color = c.color ∧ d.size = c.size ∧
          ∃ p ∈ (exampleStore 5 none 0).products, p.product_id = c.product_id ∧
            d.price = p.price * (1 - (p.discount_percent.getD 0) / 100))
        (cartLines (exampleStore 5 none 0) 7)
        ((selectCart (exampleStore 5 none 0) 7).map (orderDetailOf 0 1)) :=
  checkout_order_lines none 0 1 7 (exampleBody "SALE10") (exampleStore 5 none 0)
    (by simp [exampleStore])
    (by
      intro c hc _
      have hc1 : c = lineA := by simpa [exampleStore] using hc
      subst hc1
      exact ⟨productA 5, by simp [exampleStore], rfl⟩)
    (by with_unfolding_all rfl)

theorem appliedPromotion_code {s : Store} {now : Int} {promotion_code : Option JsValue}
    {total_amount : ℚ} {p0 : Promotion}
    (h : appliedPromotion s now promotion_code total_amount = some p0) :
    promotion_code = some (.str p0.code) := by
  unfold appliedPromotion at h
  cases promotion_code with
  | none => simp at h
  | some code =>
    simp only at h
    split at h
    · cases hsel : selectPromotion s now code with
      | nil => simp [hsel] at h
      | cons p rest =>
        simp only [hsel] at h
        split at h
        · cases h
          have hmem : p0 ∈ selectPromotion s now code := by simp [hsel]
          have hm := (List.mem_filter.mp hmem).2
          simp only [Bool.and_eq_true] at hm
          have hcm : codeMatches p0.code code = true := hm.1.1.1
          cases code <;> simp [codeMatches] at hcm
          rw [hcm]
        · simp at h
    · simp at h

/-- Claim C9.  After a successful `checkout` (answer 201): if the promotion block
applied promotion `p0` (so that `promotion_discount` is the discount of `p0`),
the request named the code of `p0`, and the table `promotions` is the old one
with `used_count` raised by exactly 1 in the rows with that code and every
other row unchanged; if no promotion was applied, `promotion_discount` is 0
and the table `promotions` is unchanged. -/
theorem checkout_redeems_once (fault : Option Nat) (now : Int) (fresh userId : Nat)
    (body : Body) (s : Store)
    (hok : (checkout fault now fresh userId body s).1.status = 201) :
    (∀ p0, appliedPromotion s now (body.field "promotion_code")
          (subtotal (selectCart s userId)) = some p0 →
        body.field "promotion_code" = some (.str p0.code) ∧
        (∃ total n, (checkout fault now fresh userId body s).1 =
          .created fresh total (promotionDiscount p0 (subtotal (selectCart s userId))) n) ∧
        (checkout fault now fresh userId body s).2.promotions =
          s.promotions.map (fun p =>
            if p.code = p0.code then { p with used_count := p.used_count + 1 } else p)) ∧
      (appliedPromotion s now (body.field "promotion_code")
          (subtotal (selectCart s userId)) = none →
        (∃ total n, (checkout fault now fresh userId body s).1 = .created fresh total 0 n) ∧
        (checkout fault now fresh userId body s).2.promotions = s.promotions) := by
  have hnone := checkout_created_mono hok
  rw [hnone] at hok ⊢
  obtain ⟨_, heq⟩ := checkout_created_eq hok
  rw [heq]
  constructor
  · intro p0 hp0
    have hcode := appliedPromotion_code hp0
    have hd : discountGiven s now (body.field "promotion_code") (subtotal (selectCart s userId))
        = promotionDiscount p0 (subtotal (selectCart s userId)) := by
      simp only [discountGiven, hp0]
    rw [hd]
    refine ⟨hcode, ⟨_, _, rfl⟩, ?_⟩
    simp only [successStore, promotionsAfter]
    rw [hp0, hcode]
    simp only [redeemPromotion, codeMatches, decide_eq_true_eq]
  · intro hnone
    have hd : discountGiven s now (body.field "promotion_code") (subtotal (selectCart s userId))
        = 0 := by
      simp only [discountGiven, hnone]
    rw [hd]
    refine ⟨⟨_, _, rfl⟩, ?_⟩
    simp only [successStore, promotionsAfter, hnone]

/-- Witness of C9 on the store of the worked example: SALE10 is the applied
promotion, and its `used_count` is the only thing that changes in `promotions`. -/
theorem checkout_redeems_once_witness :
    Body.field (exampleBody "SALE10") "promotion_code" = some (.str (sale10 none 0).code) ∧
      (∃ total n,
        (checkout none 0 1 7 (exampleBody "SALE10") (exampleStore 5 none 0)).1 =
          .created 1 total
            (promotionDiscount (sale10 none 0)
              (subtotal (selectCart (exampleStore 5 none 0) 7))) n) ∧
      (checkout none 0 1 7 (exampleBody "SALE10") (exampleStore 5 none 0)).2.promotions =
        (exampleStore 5 none 0).promotions.map (fun p =>
          if p.code = (sale10 none 0).code then { p with used_count := p.used_count + 1 }
          else p) :=
  (checkout_redeems_once none 0 1 7 (exampleBody "SALE10") (exampleStore 5 none 0)
    (by with_unfolding_all rfl)).1 (sale10 none 0) (by with_unfolding_all rfl)

/-- Claim C10.  The worked example: product A (price 100000, discount 10 percent,
stock at least 2), a cart of two units of A, promotion SALE10 (10 percent, no
minimum, limit not exhausted).  The subtotal is 180000, the answer is 201 with
`total_amount` 162000 and `promotion_discount` 18000, the stock of A drops by
2 and `used_count` of SALE10 rises by 1. -/
theorem checkout_worked_example (stock used : Int) (limit : Option Int) (now : Int)
    (fresh : Nat) (hstock : 2 ≤ stock)
    (hlimit : usageExhausted (sale10 limit used) = false) :
    (stockLoop (selectCart (exampleStore stock limit used) 7)).1 = 180000 ∧
      checkout none now fresh 7 (exampleBody "SALE10") (exampleStore stock limit used) =
        (.created fresh 162000 18000 1,
         { products := [productA (stock - 2)],
           cart := [],
           promotions := [sale10 limit (used + 1)],
           orders := [orderOf now fresh 7 162000 (some (.str "12 Nguyen Trai, Ha Noi"))
             (some (.str "0912345678")) none (some (.str "COD"))],
           order_details :=
             [{ order_id := fresh, product_id := 1, quantity := 2, price := 90000,
                color := none, size := none, created_at := now }] }) := by
  have hrows : selectCart (exampleStore stock limit used) 7 = [joinRow lineA (productA stock)] := by
    with_unfolding_all rfl
  have havail : ∀ i ∈ selectCart (exampleStore stock limit used) 7, ¬ i.stock < i.quantity := by
    intro i hi
    rw [hrows, List.mem_singleton] at hi
    subst hi
    simpa [joinRow, lineA, productA] using hstock
  have hsel : selectPromotion (exampleStore stock limit used) now (.str "SALE10")
      = [sale10 limit used] := by
    with_unfolding_all rfl
  have hsub : subtotal (selectCart (exampleStore stock limit used) 7) = 180000 := by
    rw [hrows]
    norm_num [subtotal, joinRow, lineA, productA]
  have hcode : Body.field (exampleBody "SALE10") "promotion_code" = some (.str "SALE10") := by
    with_unfolding_all rfl
  have happlied : appliedPromotion (exampleStore stock limit used) now
      (some (.str "SALE10")) 180000 = some (sale10 limit used) := by
    have hmin : (sale10 limit used).min_order_amount = 0 := rfl
    simp [appliedPromotion, JsValue.truthy, hsel, hlimit, hmin]
  have hdisc : promotionDiscount (sale10 limit used) 180000 = 18000 := by
    norm_num [promotionDiscount, sale10]
  constructor
  · rw [stockLoop_fst _ havail, hsub]
  · rw [checkout, checkoutTry_success now fresh 7 _ _ _ _ _ _ (by with_unfolding_all rfl)
      (by with_unfolding_all rfl) (by rw [hrows]; simp) havail
      (Or.inr ⟨.str "SALE10", sale10 limit used, [], hcode, hsel, hlimit⟩)]
    have haddr : Body.field (exampleBody "SALE10") "shipping_address"
        = some (.str "12 Nguyen Trai, Ha Noi") := by with_unfolding_all rfl
    have hphone : Body.field (exampleBody "SALE10") "phone" = some (.str "0912345678") := by
      with_unfolding_all rfl
    have hnotes : Body.field (exampleBody "SALE10") "notes" = none := by
      with_unfolding_all rfl
    have hpay : paymentMethodOf (exampleBody "SALE10") = some (.str "COD") := by
      with_unfolding_all rfl
    simp only [hsub, hcode, discountGiven, happlied, hdisc, successStore, promotionsAfter,
      haddr, hphone, hnotes, hpay]
    rw [hrows]
    norm_num [exampleStore, purchased, joinRow, lineA, productA, redeemPromotion, codeMatches,
      sale10, orderDetailOf, finalPrice]

/-- Witness of C10: stock 5, no usage limit, no earlier redemption. -/
theorem checkout_worked_example_witness :
    (stockLoop (selectCart (exampleStore 5 none 0) 7)).1 = 180000 ∧
      checkout none 3 1 7 (exampleBody "SALE10") (exampleStore 5 none 0) =
        (.created 1 162000 18000 1,
         { products := [productA (5 - 2)],
           cart := [],
           promotions := [sale10 none (0 + 1)],
           orders := [orderOf 3 1 7 162000 (some (.str "12 Nguyen Trai, Ha Noi"))
             (some (.str "0912345678")) none (some (.str "COD"))],
           order_details :=
             [{ order_id := 1, product_id := 1, quantity := 2, price := 90000,
                color := none, size := none, created_at := 3 }] }) :=
  checkout_worked_example 5 0 none 3 1 (by decide) rfl

/-! ## The promotion validator -/

theorem mem_selectPromotion {s : Store} {now : Int} {c : String} {p : Promotion} :
    p ∈ selectPromotion s now (.str c) ↔ p ∈ s.promotions ∧ p.code = c ∧ promotionLive p now := by
  unfold selectPromotion promotionLive
  rw [List.mem_filter]
  cases hs : p.start_date <;> cases he : p.end_date <;>
    simp [codeMatches, and_assoc]

theorem usageExhausted_iff (p : Promotion) :
    usageExhausted p = true ↔ ∃ l, p.usage_limit = some l ∧ l ≠ 0 ∧ l ≤ p.used_count := by
  unfold usageExhausted
  cases p.usage_limit <;> simp

theorem validatePromotion_eq {rt : JsRuntime} {now : Int} {body : Body} {s : Store}
    {code : String} {amount : JsValue}
    (hcode : body.field "code" = some (.str code)) (hne : code ≠ "")
    (hamount : body.field "order_amount" = some amount) (htruthy : amount.truthy = true) :
    validatePromotion rt none now body s =
      match selectPromotion s now (.str (rt.trim code)) with
      | [] => (.notFoundOrExpired, s)
      | promotion :: _ =>
        if usageExhausted promotion then (.exhausted, s)
        else if jsLess (jsNumber rt amount) promotion.min_order_amount then
          (.belowMinimum promotion.min_order_amount, s)
        else
          (.valid (validatorDiscount promotion (jsNumber rt amount))
            promotion.discount_type promotion.discount_value, s) := by
  have h1 : truthy (some (JsValue.str code)) = true := by simp [truthy, JsValue.truthy, hne]
  have h2 : truthy (some amount) = true := htruthy
  unfold validatePromotion
  rw [hcode, hamount]
  simp only [h1, h2, Bool.not_true, Bool.or_self, Bool.false_eq_true, if_false,
    Option.some_ne_none, reduceCtorEq]

/-- Claim C11, as amended.  On a request whose `code` is a non-empty string and
whose `order_amount` is a truthy number `a`, `validatePromotion` decides in this
order: when no promotion with the trimmed code is active and within its date
window the answer is the single reason "not found or expired"; otherwise, for
the selected promotion, a reached non-zero usage limit gives "exhausted"
whatever the amount; else an amount below `min_order_amount` gives "below
minimum"; else the answer is valid.  The three rejections are different
answers, and `valid` is true exactly when a promotion is selected, it is not
exhausted and the amount reaches its minimum. -/
theorem validatePromotion_check_order (rt : JsRuntime) (now : Int) (body : Body) (s : Store)
    (code : String) (amount : JsValue) (a : ℚ)
    (hcode : body.field "code" = some (.str code)) (hne : code ≠ "")
    (hamount : body.field "order_amount" = some amount) (htruthy : amount.truthy = true)
    (hnum : jsNumber rt amount = some a) :
    ((∀ p ∈ s.promotions, ¬ (p.code = rt.trim code ∧ promotionLive p now)) →
        (validatePromotion rt none now body s).1 = .notFoundOrExpired) ∧
      (∀ p rest, selectPromotion s now (.str (rt.trim code)) = p :: rest →
        ((∃ l, p.usage_limit = some l ∧ l ≠ 0 ∧ l ≤ p.used_count) →
          (validatePromotion rt none now body s).1 = .exhausted) ∧
        ((¬ ∃ l, p.usage_limit = some l ∧ l ≠ 0 ∧ l ≤ p.used_count) →
          a < p.min_order_amount →
          (validatePromotion rt none now body s).1 = .belowMinimum p.min_order_amount) ∧
        ((¬ ∃ l, p.usage_limit = some l ∧ l ≠ 0 ∧ l ≤ p.used_count) →
          p.min_order_amount ≤ a →
          (validatePromotion rt none now body s).1 =
            .valid (validatorDiscount p (some a)) p.discount_type p.discount_value)) ∧
      ((validatePromotion rt none now body s).1.validFlag = some true ↔
        ∃ p rest, selectPromotion s now (.str (rt.trim code)) = p :: rest ∧
          (¬ ∃ l, p.usage_limit = some l ∧ l ≠ 0 ∧ l ≤ p.used_count) ∧
          p.min_order_amount ≤ a) ∧
      ValidateResponse.notFoundOrExpired ≠ ValidateResponse.exhausted ∧
      (∀ m, ValidateResponse.notFoundOrExpired ≠ ValidateResponse.belowMinimum m) ∧
      (∀ m, ValidateResponse.exhausted ≠ ValidateResponse.belowMinimum m) := by
  have heq := @validatePromotion_eq rt now body s code amount hcode hne hamount htruthy
  refine ⟨?_, ?_, ?_, by decide, fun m => by simp, fun m => by simp⟩
  · intro hnone
    have hnil : selectPromotion s now (.str (rt.trim code)) = [] := by
      rw [List.eq_nil_iff_forall_not_mem]
      intro p hp
      have := mem_selectPromotion.mp hp
      exact hnone p this.1 ⟨this.2.1, this.2.2⟩
    rw [heq, hnil]
  · intro p rest hsel
    rw [heq, hsel]
    refine ⟨?_, ?_, ?_⟩
    · intro hex
      simp [(usageExhausted_iff p).mpr hex]
    · intro hex hlt
      have hex1 : usageExhausted p = false := by
        rw [← Bool.not_eq_true, usageExhausted_iff]; exact hex
      simp [hex1, hnum, jsLess, hlt]
    · intro hex hle
      have hex1 : usageExhausted p = false := by
        rw [← Bool.not_eq_true, usageExhausted_iff]; exact hex
      simp [hex1, hnum, jsLess, not_lt.mpr hle]
  · rw [heq]
    cases hsel : selectPromotion s now (.str (rt.trim code)) with
    | nil => simp [ValidateResponse.validFlag]
    | cons p rest =>
      by_cases hex : usageExhausted p = true
      · have := (usageExhausted_iff p).mp hex
        simp [hex, ValidateResponse.validFlag, this]
      · have hex1 : usageExhausted p = false := by simpa using hex
        have hno : ¬ ∃ l, p.usage_limit = some l ∧ l ≠ 0 ∧ l ≤ p.used_count := by
          rw [← usageExhausted_iff]; exact hex
        by_cases hlt : a < p.min_order_amount
        · simp only [hex1, hnum, jsLess, hlt, decide_True, if_true, Bool.false_eq_true,
            if_false, ValidateResponse.validFlag]
          constructor
          · intro h; simp at h
          · rintro ⟨q, rest1, hq, _, hle⟩
            cases hq
            exact absurd hlt (not_lt.mpr hle)
        · simp only [hex1, hnum, jsLess, hlt, decide_False, Bool.false_eq_true,
            if_false, ValidateResponse.validFlag, true_iff]
          exact ⟨p, rest, rfl, hno, not_lt.mp hlt⟩

/-- Witness of C11 (amended): SALE10 with limit 3 and one redemption accepts
an amount of 100000. -/
theorem validatePromotion_check_order_witness :
    (validatePromotion exampleRuntime none 20 (validateBody "SALE10" 100000) promotionStore).1
      = .valid (validatorDiscount (sale10 (some 3) 1) (some 100000))
          (sale10 (some 3) 1).discount_type (sale10 (some 3) 1).discount_value :=
  ((validatePromotion_check_order exampleRuntime 20 (validateBody "SALE10" 100000)
      promotionStore "SALE10" (.num 100000) 100000 (by with_unfolding_all rfl) (by decide)
      (by with_unfolding_all rfl) (by with_unfolding_all rfl) rfl).2.1
    (sale10 (some 3) 1) [] (by with_unfolding_all rfl)).2.2
    (by
      rintro ⟨l, hl, _, hle⟩
      have : l = 3 := by
        have h3 : (sale10 (some 3) 1).usage_limit = some 3 := rfl
        rw [h3] at hl
        exact (Option.some.inj hl).symm
      subst this
      exact absurd hle (by decide))
    (by
      have h0 : (sale10 (some 3) 1).min_order_amount = 0 := rfl
      rw [h0]
      norm_num)

/-- Counterexample to C11 as stated: EXPIRED5 exists and is active but its
window has ended, NOPE does not exist; both requests get the same answer, so
the reasons "not found" and "expired" are not distinguishable. -/
theorem validatePromotion_expired_like_unknown :
    expired5 ∈ promotionStore.promotions ∧ expired5.is_active = true ∧
      expired5.end_date = some 10 ∧
      (∀ p ∈ promotionStore.promotions, p.code ≠ "NOPE") ∧
      validatePromotion exampleRuntime none 20 (validateBody "EXPIRED5" 100000) promotionStore
        = (.notFoundOrExpired, promotionStore) ∧
      validatePromotion exampleRuntime none 20 (validateBody "NOPE" 100000) promotionStore
        = (.notFoundOrExpired, promotionStore) :=
  ⟨by simp [promotionStore], rfl, rfl,
    by
      intro p hp
      simp only [promotionStore, fixedPromoStore, minimumPromoStore, List.cons_append,
        List.nil_append, List.mem_cons, List.mem_singleton, List.not_mem_nil, or_false] at hp
      rcases hp with rfl | rfl | rfl | rfl <;> decide,
    by with_unfolding_all rfl, by with_unfolding_all rfl⟩

/-- Claim C12.  When `validatePromotion` answers valid with `discount_type`
percent on an order amount that is the number `a`, the `discount_amount` is
`floor(a x discount_value / 100)`; for `discount_value <= 100` and `a >= 0` it
is at most `a`. -/
theorem validatePromotion_percent_discount (rt : JsRuntime) (fault : Option Nat) (now : Int)
    (body : Body) (s s1 : Store) (amount : JsValue) (a : ℚ) (d : Option ℚ) (v : ℚ)
    (hamount : body.field "order_amount" = some amount) (hnum : jsNumber rt amount = some a)
    (h : validatePromotion rt fault now body s = (.valid d "percent" v, s1)) :
    d = some ((⌊a * v / 100⌋ : Int) : ℚ) ∧
      (v ≤ 100 → 0 ≤ a → ((⌊a * v / 100⌋ : Int) : ℚ) ≤ a) := by
  constructor
  · unfold validatePromotion at h
    rw [hamount] at h
    split at h
    · cases h
    · split at h
      · rename_i c amount1 hc ham
        cases ham
        split at h
        · cases h
        · split at h
          · cases h
          · rename_i p rest hsel
            split at h
            · cases h
            · split at h
              · cases h
              · simp only [Prod.mk.injEq, ValidateResponse.valid.injEq] at h
                obtain ⟨⟨hd, hty, hv⟩, _⟩ := h
                rw [← hd, validatorDiscount, if_pos hty, hnum, hv]
                rfl
      · cases h
  · intro hv ha
    have h1 : a * v / 100 ≤ a := by
      have : a * v ≤ a * 100 := mul_le_mul_of_nonneg_left hv ha
      linarith
    exact le_trans (Int.floor_le _) h1

/-- Witness of C12: SALE10 on 100000 gives 10000. -/
theorem validatePromotion_percent_discount_witness :
    validatePromotion exampleRuntime none 20 (validateBody "SALE10" 100000) promotionStore
        = (.valid (some 10000) "percent" 10, promotionStore) ∧
      some (10000 : ℚ) = some ((⌊(100000 : ℚ) * 10 / 100⌋ : Int) : ℚ) ∧
      ((10 : ℚ) ≤ 100 → (0 : ℚ) ≤ 100000 →
        ((⌊(100000 : ℚ) * 10 / 100⌋ : Int) : ℚ) ≤ 100000) :=
  ⟨by with_unfolding_all rfl,
    validatePromotion_percent_discount exampleRuntime none 20 (validateBody "SALE10" 100000)
      promotionStore promotionStore (.num 100000) 100000 (some 10000) 10
      (by with_unfolding_all rfl) rfl (by with_unfolding_all rfl)⟩

/-- Counterexample to C13 as stated: the fixed promotion FIXED50 of 50000 on an
order of 30000 is answered with `discount_amount` 50000, not with the order
amount 30000. -/
theorem validatePromotion_fixed_not_clamped :
    validatePromotion exampleRuntime none 20 (validateBody "FIXED50" 30000) promotionStore
        = (.valid (some 50000) "fixed" 50000, promotionStore) ∧
      (50000 : ℚ) ≠ min 50000 30000 :=
  ⟨by with_unfolding_all rfl, by norm_num⟩

/-- Claim C13, as amended.  When `validatePromotion` answers valid with
`discount_type` fixed, the `discount_amount` is the `discount_value` of the
promotion, whatever the order amount. -/
theorem validatePromotion_fixed_discount (rt : JsRuntime) (fault : Option Nat) (now : Int)
    (body : Body) (s s1 : Store) (d : Option ℚ) (v : ℚ)
    (h : validatePromotion rt fault now body s = (.valid d "fixed" v, s1)) :
    d = some v := by
  unfold validatePromotion at h
  split at h
  · cases h
  · split at h
    · split at h
      · cases h
      · split at h
        · cases h
        · rename_i p rest hsel
          split at h
          · cases h
          · split at h
            · cases h
            · simp only [Prod.mk.injEq, ValidateResponse.valid.injEq] at h
              obtain ⟨⟨hd, hty, hv⟩, _⟩ := h
              have hne : ¬ p.discount_type = "percent" := by rw [hty]; decide
              rw [← hd, validatorDiscount, if_neg hne, hv]
    · cases h

/-- Witness of C13 (amended): FIXED50 on 30000. -/
theorem validatePromotion_fixed_discount_witness :
    validatePromotion exampleRuntime none 20 (validateBody "FIXED50" 30000) promotionStore
        = (.valid (some 50000) "fixed" 50000, promotionStore) ∧
      some (50000 : ℚ) = some 50000 :=
  ⟨by with_unfolding_all rfl,
    validatePromotion_fixed_discount exampleRuntime none 20 (validateBody "FIXED50" 30000)
      promotionStore promotionStore (some 50000) 50000 (by with_unfolding_all rfl)⟩

theorem validatePromotion_store (rt : JsRuntime) (fault : Option Nat) (now : Int) (body : Body)
    (s : Store) : (validatePromotion rt fault now body s).2 = s := by
  unfold validatePromotion
  repeat' split
  all_goals rfl

/-- Claim C14.  `validatePromotion` leaves the store as it is (so no
`used_count` and no other stored field changes), a second call with the same
request at the same time gives the same answer, and the answer depends on the
store only through the table `promotions`. -/
theorem validatePromotion_pure (rt : JsRuntime) (fault : Option Nat) (now : Int) (body : Body)
    (s s1 : Store) (hsame : s1.promotions = s.promotions) :
    (validatePromotion rt fault now body s).2 = s ∧
      validatePromotion rt fault now body (validatePromotion rt fault now body s).2
        = validatePromotion rt fault now body s ∧
      (validatePromotion rt fault now body s1).1 = (validatePromotion rt fault now body s).1 := by
  refine ⟨validatePromotion_store rt fault now body s, ?_, ?_⟩
  · rw [validatePromotion_store]
  · unfold validatePromotion selectPromotion
    rw [hsame]
    repeat' split
    all_goals rfl

/-- Witness of C14: the store of the worked example and the store without
its cart and products have the same promotions. -/
theorem validatePromotion_pure_witness :
    (validatePromotion exampleRuntime none 20 (validateBody "SALE10" 100000)
        (exampleStore 5 none 0)).2 = exampleStore 5 none 0 ∧
      validatePromotion exampleRuntime none 20 (validateBody "SALE10" 100000)
          (validatePromotion exampleRuntime none 20 (validateBody "SALE10" 100000)
            (exampleStore 5 none 0)).2
        = validatePromotion exampleRuntime none 20 (validateBody "SALE10" 100000)
            (exampleStore 5 none 0) ∧
      (validatePromotion exampleRuntime none 20 (validateBody "SALE10" 100000)
          { exampleStore 5 none 0 with products := [], cart := [] }).1
        = (validatePromotion exampleRuntime none 20 (validateBody "SALE10" 100000)
            (exampleStore 5 none 0)).1 :=
  validatePromotion_pure exampleRuntime none 20 (validateBody "SALE10" 100000)
    (exampleStore 5 none 0) { exampleStore 5 none 0 with products := [], cart := [] } rfl

/-- Claim C15, the failing input.  For the expired promotion EXPIRED5 an order
amount of 1 is answered with `valid` false and the reason "not found or
expired", but the order amount 0 is answered with status 400 and no `valid`
field: line 35 reads the number 0 as a missing amount. -/
theorem validatePromotion_zero_amount :
    validatePromotion exampleRuntime none 20 (validateBody "EXPIRED5" 1) promotionStore
        = (.notFoundOrExpired, promotionStore) ∧
      validatePromotion exampleRuntime none 20 (validateBody "EXPIRED5" 0) promotionStore
        = (.missingInput, promotionStore) ∧
      ValidateResponse.missingInput.validFlag = none ∧
      ValidateResponse.missingInput.status = 400 :=
  ⟨by with_unfolding_all rfl, by with_unfolding_all rfl, rfl, rfl⟩

/-! ## Cancellation -/

theorem restored_cons (i : OrderDetail) (rest : List OrderDetail) (pid : Nat) :
    restored (i :: rest) pid = (if i.product_id = pid then i.quantity else 0) + restored rest pid := by
  by_cases h : i.product_id = pid <;> simp [restored, List.filter_cons, h]

theorem restoreAll_eq (items : List OrderDetail) (w : Store) :
    restoreAll items w =
      { w with products := w.products.map fun p =>
          { p with stock := p.stock + restored items p.product_id } } := by
  induction items generalizing w with
  | nil => simp [restoreAll, restored]
  | cons i rest ih =>
    have hstep : restoreAll (i :: rest) w = restoreAll rest (restoreStock i w) := rfl
    rw [hstep, ih]
    simp only [restoreStock, List.map_map]
    congr 1
    apply List.map_congr_left
    intro p _
    simp only [Function.comp, restored_cons]
    by_cases h : p.product_id = i.product_id
    · simp [h]; ring
    · have h2 : ¬ i.product_id = p.product_id := fun e => h e.symm
      simp [h, h2]

theorem restoreLines_two (fault : Option Nat) (i j : OrderDetail) (rest : List OrderDetail)
    (t : Tx) : restoreLines fault (i :: j :: rest) t = none := by
  rw [restoreLines]
  cases h1 : t.query fault ["productId", "quantity"] (restoreStock i) with
  | none => rfl
  | some t1 =>
    simp only [Option.some_bind]
    rw [restoreLines, query_declared_none fault _ _ (query_head_declared h1)]
    rfl

theorem restoreLines_length {fault : Option Nat} {items : List OrderDetail} {t t1 : Tx}
    (h : restoreLines fault items t = some t1) : items.length ≤ 1 := by
  match items, h with
  | [], _ => simp
  | [_], _ => simp
  | i :: j :: rest, h => rw [restoreLines_two] at h; cases h

theorem restoreLines_frame {fault : Option Nat} {items : List OrderDetail} {t t1 : Tx}
    (h : restoreLines fault items t = some t1) :
    t1.base = t.base ∧ t1.work = restoreAll items t.work := by
  match items, h with
  | [], h => cases h; exact ⟨rfl, rfl⟩
  | [i], h =>
    simp only [restoreLines, Option.bind_eq_some] at h
    obtain ⟨a, ha, h⟩ := h
    cases h
    exact ⟨query_base ha, query_work ha⟩
  | i :: j :: rest, h => rw [restoreLines_two] at h; cases h

theorem restoreLines_none (items : List OrderDetail) (t : Tx) {K : List String}
    (hK : ∀ n ∈ t.declared, n ∈ K) (hdisj : ∀ n ∈ ["productId", "quantity"], n ∉ K)
    (hone : items.length ≤ 1) :
    ∃ t1, restoreLines none items t = some t1 ∧ t1.base = t.base ∧
      t1.work = restoreAll items t.work ∧
      ∀ n ∈ t1.declared, n ∈ ["productId", "quantity"] ++ K := by
  match items, hone with
  | [], _ =>
    exact ⟨t, rfl, rfl, rfl, fun n hn => List.mem_append_right _ (hK n hn)⟩
  | [i], _ =>
    obtain ⟨t1, h1, b1, w1, d1⟩ := @query_within ["productId", "quantity"] K t (restoreStock i)
      hK hdisj (by decide)
    exact ⟨t1, by rw [restoreLines, h1, Option.some_bind, restoreLines], b1, w1, d1⟩
  | i :: j :: rest, h => simp at h

theorem restoreLines_mono {fault : Option Nat} {items : List OrderDetail} {t t1 : Tx}
    (h : restoreLines fault items t = some t1) : restoreLines none items t = some t1 := by
  induction items generalizing t with
  | nil => exact h
  | cons i rest ih =>
    simp only [restoreLines, Option.bind_eq_some] at h ⊢
    obtain ⟨a, ha, hrest⟩ := h
    exact ⟨a, query_mono ha, ih hrest⟩

theorem cancelOrderTry_inv {fault : Option Nat} {userId : Nat} {params : Params}
    {s : Store} {r : CancelResponse} {s1 : Store}
    (h : cancelOrderTry fault userId params s = some (r, s1)) :
    (r ≠ .cancelled → s1 = s) ∧
      (r = .cancelled → (selectOrderItems s (params.field "id")).length ≤ 1) := by
  unfold cancelOrderTry at h
  cases h0 : Tx.exec fault { base := s, work := s, issued := 0 } id with
  | none => simp [h0] at h
  | some t0 =>
    have b0 : t0.base = s := exec_base h0
    have w0 : t0.work = s := (exec_frame h0).2.1
    simp only [h0, Option.some_bind] at h
    cases h1 : t0.query fault ["orderId", "userId"] id with
    | none => simp [h1] at h
    | some t1 =>
      have b1 : t1.base = s := (query_base h1).trans b0
      have w1 : t1.work = s := (query_work h1).trans w0
      simp only [h1, Option.some_bind] at h
      split at h
      · cases h
        exact ⟨fun _ => by simpa [Tx.rollback] using b1, fun hr => by cases hr⟩
      · split at h
        · cases h
          exact ⟨fun _ => by simpa [Tx.rollback] using b1, fun hr => by cases hr⟩
        · simp only [Option.bind_eq_some, Option.some.injEq, Prod.mk.injEq] at h
          obtain ⟨t2, h2, t3, h3, _, _, _, _, hres, _⟩ := h
          refine ⟨fun hr => absurd hres.symm hr, fun _ => ?_⟩
          have w2 : t2.work = s := (query_work h2).trans w1
          rw [← w2]
          exact restoreLines_length h3

theorem cancelOrderTry_rollback {fault : Option Nat} {userId : Nat} {params : Params}
    {s : Store} {r : CancelResponse} {s1 : Store}
    (h : cancelOrderTry fault userId params s = some (r, s1)) (hr : r ≠ .cancelled) :
    s1 = s :=
  (cancelOrderTry_inv h).1 hr

theorem cancelOrder_rollback {fault : Option Nat} {userId : Nat} {params : Params} {s : Store}
    (hr : (cancelOrder fault userId params s).1 ≠ .cancelled) :
    (cancelOrder fault userId params s).2 = s := by
  unfold cancelOrder at hr ⊢
  cases h : cancelOrderTry fault userId params s with
  | none => rfl
  | some rs =>
    obtain ⟨r, s1⟩ := rs
    rw [h] at hr
    exact cancelOrderTry_rollback h hr

theorem cancelOrder_lines {fault : Option Nat} {userId : Nat} {params : Params} {s : Store}
    (hr : (cancelOrder fault userId params s).1 = .cancelled) :
    (selectOrderItems s (params.field "id")).length ≤ 1 := by
  unfold cancelOrder at hr
  cases h : cancelOrderTry fault userId params s with
  | none => rw [h] at hr; cases hr
  | some rs =>
    obtain ⟨r, s1⟩ := rs
    rw [h] at hr
    exact (cancelOrderTry_inv h).2 hr

theorem cancelOrderTry_mono {fault : Option Nat} {userId : Nat} {params : Params}
    {s : Store} {x : CancelResponse × Store}
    (h : cancelOrderTry fault userId params s = some x) :
    cancelOrderTry none userId params s = some x := by
  unfold cancelOrderTry at h ⊢
  rw [Option.bind_eq_some] at h
  obtain ⟨t0, h0, h⟩ := h
  rw [exec_mono h0, Option.some_bind]
  rw [Option.bind_eq_some] at h
  obtain ⟨t1, h1, h⟩ := h
  rw [query_mono h1, Option.some_bind]
  split
  · rename_i hsel
    simpa only [hsel] using h
  · rename_i o rest hsel
    simp only [hsel] at h
    split
    · rename_i hst
      rw [if_pos hst] at h
      exact h
    · rename_i hst
      rw [if_neg hst] at h
      simp only [Option.bind_eq_some] at h ⊢
      obtain ⟨t2, h2, t3, h3, t4, h4, t5, h5, h⟩ := h
      exact ⟨t2, query_mono h2, t3, restoreLines_mono h3, t4, query_mono h4, t5,
        exec_mono h5, h⟩

theorem cancelOrder_mono {fault : Option Nat} {userId : Nat} {params : Params} {s : Store}
    (hr : (cancelOrder fault userId params s).1 = .cancelled) :
    cancelOrder fault userId params s = cancelOrder none userId params s := by
  unfold cancelOrder at hr ⊢
  cases h : cancelOrderTry fault userId params s with
  | none => rw [h] at hr; cases hr
  | some x => rw [cancelOrderTry_mono h]

theorem cancelOrder_success {userId : Nat} {params : Params} {s : Store} {o : Order}
    {rest : List Order} (hsel : selectOrder s (params.field "id") userId = o :: rest)
    (hst : o.status = "pending")
    (hone : (selectOrderItems s (params.field "id")).length ≤ 1) :
    cancelOrder none userId params s = (.cancelled, cancelStore s (params.field "id")) := by
  obtain ⟨t1, h1, b1, w1, d1⟩ := @query_within ["orderId", "userId"] []
    { base := s, work := s, issued := 0 + 1 } id (by simp) (by decide) (by decide)
  have w1s : t1.work = s := w1
  obtain ⟨t2, h2, b2, w2, d2⟩ := @query_within ["orderId2"] _ t1 id d1 (by decide) (by decide)
  have w2s : t2.work = s := w2.trans w1s
  obtain ⟨t3, h3, b3, w3, d3⟩ := restoreLines_none (selectOrderItems s (params.field "id")) t2
    d2 (by decide) hone
  obtain ⟨t4, h4, b4, w4, d4⟩ := @query_within ["orderId3"] _ t3
    (markCancelled (params.field "id")) d3 (by decide) (by decide)
  simp only [cancelOrder, cancelOrderTry, exec_none, Option.some_bind, id, h1, w1s, hsel, hst,
    ne_eq, not_true_eq_false, if_false, h2, w2s, h3, h4, Tx.commit, w4, w3]
  simp only [restoreAll_eq, markCancelled, cancelStore]

theorem cancelOrder_refused {fault : Option Nat} {userId : Nat} {params : Params} {s : Store}
    (hno : ∀ o ∈ s.orders, some o.order_id = params.field "id" → o.user_id = userId →
      o.status ≠ "pending") :
    (cancelOrder fault userId params s).1 ≠ .cancelled := by
  unfold cancelOrder
  cases h : cancelOrderTry fault userId params s with
  | none => simp
  | some rs =>
    obtain ⟨r, s1⟩ := rs
    simp only
    unfold cancelOrderTry at h
    cases h0 : Tx.exec fault { base := s, work := s, issued := 0 } id with
    | none => simp [h0] at h
    | some t0 =>
      have w0 : t0.work = s := (exec_frame h0).2.1
      simp only [h0, Option.some_bind] at h
      cases h1 : t0.query fault ["orderId", "userId"] id with
      | none => simp [h1] at h
      | some t1 =>
        have w1 : t1.work = s := (query_work h1).trans w0
        simp only [h1, Option.some_bind, w1] at h
        split at h
        · cases h; simp
        · rename_i o rest hsel
          have hmem : o ∈ selectOrder s (params.field "id") userId := by simp [hsel]
          have hm := List.mem_filter.mp hmem
          simp only [Bool.and_eq_true, decide_eq_true_eq] at hm
          have hne := hno o hm.1 hm.2.1 hm.2.2
          simp only [hne, ne_eq, not_false_eq_true, if_true, Option.some.injEq,
            Prod.mk.injEq] at h
          rw [← h.1]
          simp

theorem selectOrder_head_of_key {s : Store} {userId n : Nat} {o x : Order} {rest : List Order}
    (hpk : (s.orders.map fun o => o.order_id).Nodup) (ho : o ∈ s.orders)
    (hid : o.order_id = n)
    (hsel : selectOrder s (some n) userId = x :: rest) : x = o := by
  have hmem : x ∈ selectOrder s (some n) userId := by simp [hsel]
  have hm := List.mem_filter.mp hmem
  simp only [Bool.and_eq_true, decide_eq_true_eq, Option.some.injEq] at hm
  exact List.inj_on_of_nodup_map hpk hm.1 ho (hm.2.1.trans hid.symm)

theorem cancelOrder_single_line (userId n : Nat) (params : Params) (s : Store) (o : Order)
    (hid : params.field "id" = some n)
    (hpk : (s.orders.map fun o => o.order_id).Nodup)
    (ho : o ∈ s.orders) (hn : o.order_id = n) (hu : o.user_id = userId)
    (hst : o.status = "pending")
    (hone : (selectOrderItems s (some n)).length ≤ 1) :
    (cancelOrder none userId params s).1 = .cancelled ∧
      (cancelOrder none userId params s).2.products = s.products.map (fun p =>
        { p with stock := p.stock + restored (selectOrderItems s (some n)) p.product_id }) ∧
      (cancelOrder none userId params s).2.orders = s.orders.map (fun x =>
        if x = o then { x with status := "cancelled" } else x) ∧
      (cancelOrder none userId params s).2.order_details = s.order_details ∧
      (cancelOrder none userId params s).2.cart = s.cart ∧
      (cancelOrder none userId params s).2.promotions = s.promotions := by
  have hmem : o ∈ selectOrder s (some n) userId := by
    simp [selectOrder, List.mem_filter, ho, hn, hu]
  obtain ⟨x, rest, hsel⟩ := List.exists_cons_of_ne_nil (List.ne_nil_of_mem hmem)
  have hx : x = o := selectOrder_head_of_key hpk ho hn hsel
  subst hx
  rw [← hid] at hsel hone
  rw [cancelOrder_success hsel hst hone, hid]
  refine ⟨rfl, rfl, ?_, rfl, rfl, rfl⟩
  simp only [cancelStore]
  apply List.map_congr_left
  intro y hy
  by_cases hyx : y = x
  · subst hyx; simp [hn]
  · have : ¬ y.order_id = n := by
      intro e
      exact hyx (List.inj_on_of_nodup_map hpk hy ho (e.trans hn.symm))
    simp [hyx, this]

/-- Claim C17, at the failing input.  Order 1 of user 7 is pending and has two
lines, two units of product 1 and one unit of product 2.  The second round of
the loop of lines 292-297 declares `productId` again on the request of line
263, the driver throws, and `cancelOrder` answers 500 with the store rolled
back: no stock is returned and the order is still pending. -/
theorem cancelOrder_two_lines_server_error :
    (twoLineOrderStore.orders.map fun o => (o.order_id, o.user_id, o.status))
        = [(1, 7, "pending")] ∧
      (twoLineOrderStore.order_details.map fun d => (d.order_id, d.product_id, d.quantity))
        = [(1, 1, 2), (1, 2, 1)] ∧
      cancelOrder none 7 (idParams 1) twoLineOrderStore = (.serverError, twoLineOrderStore) ∧
      CancelResponse.serverError.status = 500 :=
  ⟨by with_unfolding_all rfl, by with_unfolding_all rfl, by with_unfolding_all rfl, rfl⟩

theorem cancelOrder_only_if (fault : Option Nat) (userId : Nat) (params : Params) (s : Store)
    (hok : (cancelOrder fault userId params s).1 = .cancelled) :
    (∃ o ∈ s.orders, some o.order_id = params.field "id" ∧ o.user_id = userId ∧
        o.status = "pending") ∧
      (selectOrderItems s (params.field "id")).length ≤ 1 := by
  refine ⟨?_, cancelOrder_lines hok⟩
  by_contra hno
  push_neg at hno
  exact cancelOrder_refused (fun o ho h1 h2 => hno o ho h1 h2) hok

theorem cancelOrder_not_twice (fault : Option Nat) (userId : Nat) (params : Params)
    (s : Store) (hpk : (s.orders.map fun o => o.order_id).Nodup)
    (hok : (cancelOrder none userId params s).1 = .cancelled) :
    (cancelOrder fault userId params (cancelOrder none userId params s).2).1 ≠ .cancelled ∧
      (cancelOrder fault userId params (cancelOrder none userId params s).2).2
        = (cancelOrder none userId params s).2 := by
  obtain ⟨⟨o, ho, hidn, hu, hst⟩, hone⟩ := cancelOrder_only_if none userId params s hok
  cases hp : params.field "id" with
  | none => rw [hp] at hidn; cases hidn
  | some n =>
    rw [hp] at hidn hone
    have hn : o.order_id = n := Option.some.inj hidn
    have hres := cancelOrder_single_line userId n params s o hp hpk ho hn hu hst hone
    have hno : ∀ x ∈ (cancelOrder none userId params s).2.orders,
        some x.order_id = params.field "id" → x.user_id = userId → x.status ≠ "pending" := by
      intro x hx hxid _
      rw [hres.2.2.1, List.mem_map] at hx
      obtain ⟨y, hy, hyx⟩ := hx
      by_cases hyo : y = o
      · rw [if_pos hyo] at hyx
        rw [← hyx]
        show "cancelled" ≠ "pending"
        decide
      · rw [if_neg hyo] at hyx
        subst hyx
        rw [hp] at hxid
        exact absurd (List.inj_on_of_nodup_map hpk hy ho ((Option.some.inj hxid).trans hn.symm)) hyo
    have hfail := @cancelOrder_refused fault userId params _ hno
    exact ⟨hfail, cancelOrder_rollback hfail⟩

/-- Claim C18, at the failing input.  Order 1 of user 7 exists, is owned by the
caller and is pending, yet `cancelOrder` does not succeed on it: the order has
two lines, the loop of lines 292-297 throws in its second round, and the
answer is 500.  So on this store the answer is not 200 although the three
conditions of the claim hold. -/
theorem cancelOrder_guard_two_lines :
    ¬ ((cancelOrder none 7 (idParams 1) twoLineOrderStore).1 = .cancelled ↔
        ∃ o ∈ twoLineOrderStore.orders, some o.order_id = (idParams 1).field "id" ∧
          o.user_id = 7 ∧ o.status = "pending") := by
  intro h
  have hex : ∃ o ∈ twoLineOrderStore.orders, some o.order_id = (idParams 1).field "id" ∧
      o.user_id = 7 ∧ o.status = "pending" :=
    ⟨_, List.mem_singleton_self _, by with_unfolding_all rfl, rfl, rfl⟩
  have hok := h.mpr hex
  rw [show (cancelOrder none 7 (idParams 1) twoLineOrderStore).1 = .serverError from
    by with_unfolding_all rfl] at hok
  cases hok

/-! ## The usage limit -/

theorem exec_work {fault : Option Nat} {t t1 : Tx} {effect : Store → Store}
    (h : t.exec fault effect = some t1) : t1.work = effect t.work := by
  unfold Tx.exec at h
  split at h
  · cases h
  · cases h; rfl

theorem checkPromotionLimit_spec {fault : Option Nat} {now : Int}
    {promotion_code : Option JsValue} {t t1 : Tx}
    (h : checkPromotionLimit fault now promotion_code t = some (some t1)) :
    t1.work = t.work ∧ t1.base = t.base ∧
      ∀ code p rest, promotion_code = some code → code.truthy = true →
        selectPromotion t.work now code = p :: rest → usageExhausted p = false := by
  unfold checkPromotionLimit at h
  cases promotion_code with
  | none =>
    simp only [Option.some.injEq] at h
    subst h
    exact ⟨rfl, rfl, fun _ _ _ hc => by cases hc⟩
  | some code =>
    simp only at h
    split at h
    · rename_i hc
      cases h1 : t.query fault ["code"] id with
      | none => simp [h1] at h
      | some t2 =>
        have hw : t2.work = t.work := query_work h1
        have hb : t2.base = t.base := query_base h1
        simp only [h1, Option.some_bind, hw] at h
        split at h
        · rename_i p rest hsel
          split at h
          · cases h
          · rename_i hex
            simp only [Option.some.injEq] at h
            subst h
            refine ⟨hw, hb, ?_⟩
            intro code1 p1 rest1 hcode _ hsel1
            cases hcode
            rw [hsel] at hsel1
            cases hsel1
            simpa using hex
        · rename_i hsel
          simp only [Option.some.injEq] at h
          subst h
          refine ⟨hw, hb, ?_⟩
          intro code1 p1 rest1 hcode _ hsel1
          cases hcode
          rw [hsel] at hsel1
          cases hsel1
    · rename_i hc
      simp only [Option.some.injEq] at h
      subst h
      refine ⟨rfl, rfl, ?_⟩
      intro code1 p1 rest1 hcode htr _
      cases hcode
      exact absurd htr hc

theorem checkItems_spec {fault : Option Nat} {items : List OrderItem} {total tot : ℚ}
    {t t1 : Tx} (h : checkItems fault items total t = some (.total tot t1)) :
    t1.work = t.work ∧ t1.base = t.base := by
  induction items generalizing total t with
  | nil =>
    simp only [checkItems, Option.some.injEq, Checked.total.injEq] at h
    rw [← h.2]
    exact ⟨rfl, rfl⟩
  | cons item rest ih =>
    unfold checkItems at h
    cases h1 : t.query fault ["productId"] id with
    | none => simp [h1] at h
    | some t2 =>
      have hw : t2.work = t.work := query_work h1
      have hb : t2.base = t.base := query_base h1
      simp only [h1, Option.some_bind] at h
      split at h
      · cases h
      · split at h
        · cases h
        · obtain ⟨h3, h4⟩ := ih h
          exact ⟨h3.trans hw, h4.trans hb⟩

theorem applyOrderPromotion_spec {fault : Option Nat} {now : Int}
    {promotion_code : Option JsValue} {total tot d : ℚ} {t t1 : Tx}
    (h : applyOrderPromotion fault now promotion_code total t = some (tot, d, t1)) :
    t1.base = t.base ∧
      (t1.work = t.work ∨
        ∃ code p rest, promotion_code = some code ∧ code.truthy = true ∧
          selectPromotion t.work now code = p :: rest ∧
          t1.work = redeemPromotion code t.work) := by
  unfold applyOrderPromotion at h
  cases promotion_code with
  | none =>
    simp only [Option.some.injEq, Prod.mk.injEq] at h
    rw [← h.2.2]
    exact ⟨rfl, Or.inl rfl⟩
  | some code =>
    simp only at h
    split at h
    · rename_i hc
      cases h1 : t.query fault ["code2"] id with
      | none => simp [h1] at h
      | some t2 =>
        have hw : t2.work = t.work := query_work h1
        have hb : t2.base = t.base := query_base h1
        simp only [h1, Option.some_bind, hw] at h
        split at h
        · rename_i p rest hsel
          split at h
          · cases h2 : t2.query fault ["code3"] (redeemPromotion code) with
            | none => simp [h2] at h
            | some t3 =>
              simp only [h2, Option.some_bind, Option.some.injEq, Prod.mk.injEq] at h
              rw [← h.2.2]
              refine ⟨(query_base h2).trans hb, Or.inr ⟨code, p, rest, rfl, hc, hsel, ?_⟩⟩
              rw [query_work h2, hw]
          · simp only [Option.some.injEq, Prod.mk.injEq] at h
            rw [← h.2.2]
            exact ⟨hb, Or.inl hw⟩
        · simp only [Option.some.injEq, Prod.mk.injEq] at h
          rw [← h.2.2]
          exact ⟨hb, Or.inl hw⟩
    · simp only [Option.some.injEq, Prod.mk.injEq] at h
      rw [← h.2.2]
      exact ⟨rfl, Or.inl rfl⟩

theorem createOrderLines_promotions {fault : Option Nat} {now : Int} {order_id userId : Nat}
    {items : List OrderItem} {t t1 : Tx}
    (h : createOrderLines fault now order_id userId items t = some t1) :
    t1.work.promotions = t.work.promotions := by
  induction items generalizing t with
  | nil =>
    simp only [createOrderLines, Option.some.injEq] at h
    rw [h]
  | cons item rest ih =>
    unfold createOrderLines at h
    cases h1 : t.query fault ["productId2"] id with
    | none => simp [h1] at h
    | some t2 =>
      simp only [h1, Option.some_bind] at h
      split at h
      · cases h
      · rename_i product _ _
        cases h2 : t2.query fault ["orderId", "productId3", "quantity", "price", "color", "size"]
            (insertItemDetail now order_id item product.price) with
        | none => simp [h2] at h
        | some t3 =>
          simp only [h2, Option.some_bind] at h
          cases h3 : t3.query fault ["productId4", "quantity2"] (decrementItemStock item) with
          | none => simp [h3] at h
          | some t4 =>
            simp only [h3, Option.some_bind] at h
            cases h4 : t4.query fault ["userId2", "productId5"]
                (deleteCartProduct userId item.product_id) with
            | none => simp [h4] at h
            | some t5 =>
              simp only [h4, Option.some_bind] at h
              rw [ih h, query_work h4, query_work h3, query_work h2, query_work h1]
              rfl

theorem createOrderTry_promotions {fault : Option Nat} {now : Int} {fresh userId : Nat}
    {body : CreateOrderBody} {s : Store} {r : CreateOrderResponse} {s1 : Store}
    (h : createOrderTry fault now fresh userId body s = some (r, s1)) :
    s1.promotions = s.promotions ∨
      ∃ code p rest, selectPromotion s now code = p :: rest ∧ usageExhausted p = false ∧
        s1.promotions = (redeemPromotion code s).promotions := by
  unfold createOrderTry at h
  cases h0 : Tx.exec fault { base := s, work := s, issued := 0 } id with
  | none => simp [h0] at h
  | some t0 =>
    have b0 : t0.base = s := exec_base h0
    have w0 : t0.work = s := exec_work h0
    simp only [h0, Option.some_bind] at h
    split at h
    · cases h; exact Or.inl (by simp [Tx.rollback, b0])
    · rename_i items hitems
      split at h
      · cases h; exact Or.inl (by simp [Tx.rollback, b0])
      · cases hl : checkPromotionLimit fault now body.promotion_code t0 with
        | none => simp [hl] at h
        | some ot =>
          cases ot with
          | none =>
            simp only [hl, Option.some_bind] at h
            cases h; exact Or.inl (by simp [Tx.rollback, b0])
          | some t1 =>
            obtain ⟨w1, _, hlim⟩ := checkPromotionLimit_spec hl
            simp only [hl, Option.some_bind] at h
            cases hc : checkItems fault items 0 t1 with
            | none => simp [hc] at h
            | some ck =>
              cases ck with
              | abort r1 =>
                simp only [hc, Option.some_bind] at h
                cases h; exact Or.inl (by simp [Tx.rollback, b0])
              | total tot t2 =>
                obtain ⟨w2, _⟩ := checkItems_spec hc
                simp only [hc, Option.some_bind] at h
                cases ha : applyOrderPromotion fault now body.promotion_code tot t2 with
                | none => simp [ha] at h
                | some res =>
                  obtain ⟨tot1, d, t3⟩ := res
                  obtain ⟨_, hw3⟩ := applyOrderPromotion_spec ha
                  simp only [ha, Option.some_bind] at h
                  cases h4 : t3.query fault
                      ["userId", "total_amount", "shipping_address", "phone", "notes"]
                      (insertCreatedOrder now fresh userId tot1
                        body.shipping_address body.phone body.notes) with
                  | none => simp [h4] at h
                  | some t4 =>
                    simp only [h4, Option.some_bind] at h
                    cases h5 : createOrderLines fault now fresh userId items t4 with
                    | none => simp [h5] at h
                    | some t5 =>
                      simp only [h5, Option.some_bind] at h
                      cases h6 : t5.exec fault id with
                      | none => simp [h6] at h
                      | some t6 =>
                        simp only [h6, Option.some_bind, Option.some.injEq,
                          Prod.mk.injEq] at h
                        have hp : s1.promotions = t3.work.promotions := by
                          rw [← h.2, Tx.commit, exec_work h6, id,
                            createOrderLines_promotions h5, query_work h4]
                          rfl
                        have w20 : t2.work = s := w2.trans (w1.trans w0)
                        rcases hw3 with hsame | ⟨code, p, rest, hcode, htr, hsel, hred⟩
                        · exact Or.inl (by rw [hp, hsame, w20])
                        · rw [w20] at hsel hred
                          refine Or.inr ⟨code, p, rest, hsel, ?_, by rw [hp, hred]⟩
                          exact hlim code p rest hcode htr (by rw [w0]; exact hsel)

theorem createOrder_promotions (fault : Option Nat) (now : Int) (fresh userId : Nat)
    (body : CreateOrderBody) (s : Store) :
    (createOrder fault now fresh userId body s).2.promotions = s.promotions ∨
      ∃ code p rest, selectPromotion s now code = p :: rest ∧ usageExhausted p = false ∧
        (createOrder fault now fresh userId body s).2.promotions
          = (redeemPromotion code s).promotions := by
  unfold createOrder
  cases h : createOrderTry fault now fresh userId body s with
  | none => exact Or.inl rfl
  | some rs =>
    obtain ⟨r, s1⟩ := rs
    exact createOrderTry_promotions h

theorem appliedPromotion_spec {s : Store} {now : Int} {promotion_code : Option JsValue}
    {total_amount : ℚ} {p0 : Promotion}
    (h : appliedPromotion s now promotion_code total_amount = some p0) :
    ∃ code rest, promotion_code = some code ∧ selectPromotion s now code = p0 :: rest ∧
      usageExhausted p0 = false := by
  unfold appliedPromotion at h
  cases promotion_code with
  | none => simp at h
  | some code =>
    simp only at h
    split at h
    · cases hsel : selectPromotion s now code with
      | nil => simp [hsel] at h
      | cons p rest =>
        simp only [hsel] at h
        split at h
        · rename_i hcond
          cases h
          simp only [Bool.and_eq_true, Bool.not_eq_true'] at hcond
          exact ⟨code, rest, rfl, hsel, hcond.1⟩
        · simp at h
    · simp at h

theorem checkout_promotions (fault : Option Nat) (now : Int) (fresh userId : Nat)
    (body : Body) (s : Store) :
    (checkout fault now fresh userId body s).2.promotions = s.promotions ∨
      ∃ code p rest, selectPromotion s now code = p :: rest ∧ usageExhausted p = false ∧
        (checkout fault now fresh userId body s).2.promotions
          = (redeemPromotion code s).promotions := by
  by_cases hok : (checkout fault now fresh userId body s).1.status = 201
  · have hnone := checkout_created_mono hok
    rw [hnone] at hok ⊢
    obtain ⟨_, heq⟩ := checkout_created_eq hok
    rw [heq]
    simp only [successStore, promotionsAfter]
    cases happ : appliedPromotion s now (body.field "promotion_code")
        (subtotal (selectCart s userId)) with
    | none => exact Or.inl rfl
    | some p0 =>
      obtain ⟨code, rest, hcode, hsel, hex⟩ := appliedPromotion_spec happ
      rw [hcode]
      exact Or.inr ⟨code, p0, rest, hsel, hex, rfl⟩
  · left
    rw [checkout_atomic fault now fresh userId body s hok]

theorem redeem_keeps_invariant {s : Store} {now : Int} {code : JsValue} {p : Promotion}
    {rest : List Promotion}
    (hcodes : (s.promotions.map fun p => p.code).Nodup) (hinv : usageInvariant s)
    (hsel : selectPromotion s now code = p :: rest) (hex : usageExhausted p = false) :
    (∀ q ∈ (redeemPromotion code s).promotions, ∀ l, q.usage_limit = some l → l ≠ 0 →
        q.used_count ≤ l) ∧
      (∀ q ∈ s.promotions, usageExhausted q = true →
        q ∈ (redeemPromotion code s).promotions) := by
  have hmem : p ∈ selectPromotion s now code := by simp [hsel]
  have hp := List.mem_filter.mp hmem
  simp only [Bool.and_eq_true] at hp
  have hpm : codeMatches p.code code = true := hp.2.1.1.1
  have huniq : ∀ q ∈ s.promotions, codeMatches q.code code = true → q = p := by
    intro q hq hqm
    apply List.inj_on_of_nodup_map hcodes hq hp.1
    cases code <;> simp [codeMatches] at hpm hqm
    rw [hpm, hqm]
  constructor
  · intro q hq l hl hl0
    simp only [redeemPromotion, List.mem_map] at hq
    obtain ⟨q0, hq0, rfl⟩ := hq
    by_cases hm : codeMatches q0.code code = true
    · have := huniq q0 hq0 hm
      subst this
      simp only [hm, if_true] at hl ⊢
      have hnot : ¬ (l ≤ q0.used_count) := by
        intro hle
        have := (usageExhausted_iff q0).mpr ⟨l, hl, hl0, hle⟩
        rw [hex] at this
        cases this
      omega
    · simp only [hm, Bool.false_eq_true, if_false] at hl ⊢
      exact hinv q0 hq0 l hl hl0
  · intro q hq hqex
    simp only [redeemPromotion, List.mem_map]
    refine ⟨q, hq, ?_⟩
    have hm : ¬ codeMatches q.code code = true := by
      intro hm
      have := huniq q hq hm
      subst this
      rw [hex] at hqex
      cases hqex
    simp [hm]

/-- Claim C16.  When the promotion codes are pairwise different and every
promotion with a usage limit (not `NULL`, not 0) satisfies `used_count <=
usage_limit`, the same holds after `cartController.checkout` and after
`orderController.createOrder`, whatever the request and the database fault;
and a promotion whose `used_count` has reached its limit is in the table after
the call exactly as before, so it is not redeemed again. -/
theorem order_placing_keeps_usage_limit (fault : Option Nat) (now : Int) (fresh userId : Nat)
    (body : Body) (orderBody : CreateOrderBody) (s : Store)
    (hcodes : (s.promotions.map fun p => p.code).Nodup) (hinv : usageInvariant s) :
    usageInvariant (checkout fault now fresh userId body s).2 ∧
      usageInvariant (createOrder fault now fresh userId orderBody s).2 ∧
      (∀ q ∈ s.promotions, usageExhausted q = true →
        q ∈ (checkout fault now fresh userId body s).2.promotions ∧
        q ∈ (createOrder fault now fresh userId orderBody s).2.promotions) := by
  have key : ∀ ps : List Promotion,
      (ps = s.promotions ∨ ∃ code p rest, selectPromotion s now code = p :: rest ∧
        usageExhausted p = false ∧ ps = (redeemPromotion code s).promotions) →
      (∀ q ∈ ps, ∀ l, q.usage_limit = some l → l ≠ 0 → q.used_count ≤ l) ∧
        (∀ q ∈ s.promotions, usageExhausted q = true → q ∈ ps) := by
    intro ps hps
    rcases hps with h | ⟨code, p, rest, hsel, hex, h⟩
    · rw [h]; exact ⟨hinv, fun q hq _ => hq⟩
    · rw [h]; exact redeem_keeps_invariant hcodes hinv hsel hex
  have h1 := key _ (checkout_promotions fault now fresh userId body s)
  have h2 := key _ (createOrder_promotions fault now fresh userId orderBody s)
  exact ⟨h1.1, h2.1, fun q hq hex => ⟨h1.2 q hq hex, h2.2 q hq hex⟩⟩

/-! ## Cart lines and their keys -/

theorem cartKeysUnique_map {cart : List CartLine} {v : Nat} (f : CartLine → CartLine)
    (hu : ∀ c, (f c).user_id = c.user_id) (hk : ∀ c, cartKey (f c) = cartKey c)
    (h : cartKeysUnique cart v) : cartKeysUnique (cart.map f) v := by
  unfold cartKeysUnique at h ⊢
  have hfm : (cart.map f).filter (fun c => decide (c.user_id = v))
      = (cart.filter fun c => decide (c.user_id = v)).map f := by
    rw [List.filter_map]
    congr 1
    apply List.filter_congr
    intro c _
    simp [hu c]
  rw [hfm, List.map_map]
  have : cartKey ∘ f = cartKey := funext hk
  rw [this]
  exact h

theorem cartKeysUnique_append {cart : List CartLine} {u v : Nat} {line : CartLine}
    (hlu : line.user_id = u)
    (hfresh : ∀ x ∈ cart, x.user_id = u → cartKey x ≠ cartKey line)
    (h : cartKeysUnique cart v) : cartKeysUnique (cart ++ [line]) v := by
  unfold cartKeysUnique at h ⊢
  rw [List.filter_append, List.map_append]
  by_cases huv : u = v
  · subst huv
    have hf : [line].filter (fun c => decide (c.user_id = u)) = [line] := by
      simp [List.filter_cons, hlu]
    rw [hf, List.map_singleton]
    rw [List.nodup_append]
    refine ⟨h, List.nodup_singleton _, ?_⟩
    intro k hk1 hk2
    rw [List.mem_singleton] at hk2
    rw [List.mem_map] at hk1
    obtain ⟨x, hx, hxk⟩ := hk1
    obtain ⟨hx1, hx2⟩ := List.mem_filter.mp hx
    exact hfresh x hx1 (by simpa using hx2) (hxk.trans hk2)
  · have hf : [line].filter (fun c => decide (c.user_id = v)) = [] := by
      have : ¬ line.user_id = v := by rw [hlu]; exact huv
      simp [List.filter_cons, this]
    rw [hf, List.map_nil, List.append_nil]
    exact h

theorem selectProductInt_head {s : Store} {productId : Option Int} {p : Product}
    {rest : List Product} (h : selectProductInt s productId = p :: rest) :
    productId = some (p.product_id : Int) := by
  have hmem : p ∈ selectProductInt s productId := by simp [h]
  have := (List.mem_filter.mp hmem).2
  simp only [decide_eq_true_eq] at this
  exact this.symm

theorem selectExisting_nil_fresh {s : Store} {userId fresh : Nat} {n : Nat} {q : Int}
    {color size : Option String}
    (h : selectExisting s userId (some (n : Int)) color size = []) :
    ∀ x ∈ s.cart, x.user_id = userId →
      cartKey x ≠ cartKey (newCartLine fresh userId (some (n : Int)) q color size) := by
  intro x hx hxu hkey
  have hnot := (List.filter_eq_nil_iff.mp h) x hx
  simp only [cartKey, newCartLine, Option.getD_some, Int.toNat_ofNat, Prod.mk.injEq] at hkey
  apply hnot
  simp [hxu, hkey.1, hkey.2.1, hkey.2.2]

theorem cartStep_keys {u v : Nat} {c c1 : List CartLine} (hstep : cartStep u c c1)
    (h : cartKeysUnique c v) : cartKeysUnique c1 v := by
  rcases hstep with rfl | ⟨cartId, q, rfl⟩ | ⟨line, hlu, hfresh, rfl⟩
  · exact h
  · apply cartKeysUnique_map _ _ _ h
    · intro c; split <;> rfl
    · intro c; split <;> rfl
  · exact cartKeysUnique_append hlu hfresh h

theorem addToCart_step (rt : JsRuntime) (fault : Option Nat) (fresh : Nat) (user : Option Nat)
    (body : Body) (s : Store) :
    cartStep (user.getD 0) s.cart (addToCart rt fault fresh user body s).2.cart := by
  unfold addToCart
  split
  · exact Or.inl rfl
  · rename_i userId
    split
    · exact Or.inl rfl
    · split
      · exact Or.inl rfl
      · rename_i product_id _
        split
        · exact Or.inl rfl
        · split
          · exact Or.inl rfl
          · split
            · exact Or.inl rfl
            · rename_i product prest hprod
              have hpid := selectProductInt_head hprod
              split
              · exact Or.inl rfl
              · split
                · exact Or.inl rfl
                · split
                  · split
                    · exact Or.inl rfl
                    · split
                      · exact Or.inl rfl
                      · rename_i existingItem erest hsel0 _ _
                        exact Or.inr (Or.inl ⟨existingItem.cart_id,
                          existingItem.quantity + normalizedQuantity rt body, rfl⟩)
                  · rename_i hsel
                    split
                    · exact Or.inl rfl
                    · refine Or.inr (Or.inr ⟨_, rfl, ?_, rfl⟩)
                      rw [hpid] at hsel ⊢
                      exact selectExisting_nil_fresh hsel

theorem declareUntilThrow_frame (names : List String) (t : Tx) :
    (t.declareUntilThrow names).base = t.base ∧ (t.declareUntilThrow names).work = t.work := by
  induction names generalizing t with
  | nil => exact ⟨rfl, rfl⟩
  | cons n rest ih =>
    unfold Tx.declareUntilThrow
    cases hi : t.input n with
    | none => exact ⟨rfl, rfl⟩
    | some t1 =>
      obtain ⟨b, w, _, _⟩ := input_frame hi
      exact ⟨(ih t1).1.trans b, (ih t1).2.trans w⟩

theorem syncItem_step (rt : JsRuntime) (fault : Option Nat) (userId : Nat) (st : SyncState)
    (item : Body) :
    (syncItem rt fault userId st item).tx.base = st.tx.base ∧
      cartStep userId st.tx.work.cart (syncItem rt fault userId st item).tx.work.cart := by
  unfold syncItem
  split
  · exact ⟨rfl, Or.inl rfl⟩
  · split
    · exact ⟨(declareUntilThrow_frame _ _).1, Or.inl (by
        show (st.tx.declareUntilThrow _).work.cart = _
        rw [(declareUntilThrow_frame _ _).2])⟩
    · rename_i ta ha
      have wa : ta.work = st.tx.work := (inputs_frame ha).2.1
      have ba : ta.base = st.tx.base := (inputs_frame ha).1
      split
      · exact ⟨ba, Or.inl (by simp [Tx.skip, wa])⟩
      · rename_i t1 h1
        have w1 : t1.work = st.tx.work := (exec_work h1).trans wa
        have b1 : t1.base = st.tx.base := (exec_base h1).trans ba
        split
        · exact ⟨b1, Or.inl (by rw [w1])⟩
        · rename_i product prest hprod
          have hpid := selectProductInt_head hprod
          split
          · split
            · rename_i color size _ _
              split
              · exact ⟨(declareUntilThrow_frame _ _).1.trans b1, Or.inl (by
                  show (t1.declareUntilThrow _).work.cart = _
                  rw [(declareUntilThrow_frame _ _).2, w1])⟩
              · rename_i tb hb
                have wb : tb.work = st.tx.work := (inputs_frame hb).2.1.trans w1
                have bb : tb.base = st.tx.base := (inputs_frame hb).1.trans b1
                split
                · exact ⟨bb, Or.inl (by simp [Tx.skip, wb])⟩
                · rename_i t2 h2
                  have w2 : t2.work = st.tx.work := (exec_work h2).trans wb
                  have b2 : t2.base = st.tx.base := (exec_base h2).trans bb
                  split
                  · rename_i existingItem erest hsel0
                    split
                    · exact ⟨(declareUntilThrow_frame _ _).1.trans b2, Or.inl (by
                        show (t2.declareUntilThrow _).work.cart = _
                        rw [(declareUntilThrow_frame _ _).2, w2])⟩
                    · rename_i tc hc
                      have wc : tc.work = st.tx.work := (inputs_frame hc).2.1.trans w2
                      have bc : tc.base = st.tx.base := (inputs_frame hc).1.trans b2
                      split
                      · exact ⟨bc, Or.inl (by simp [Tx.skip, wc])⟩
                      · rename_i t3 h3
                        refine ⟨(exec_base h3).trans bc, Or.inr (Or.inl
                          ⟨existingItem.cart_id,
                          min (existingItem.quantity
                            + min (max 1 (orOne (parseIntField rt (item.field "quantity"))))
                                product.stock) product.stock, ?_⟩)⟩
                        rw [exec_work h3, wc]
                        rfl
                  · rename_i hsel
                    split
                    · exact ⟨(declareUntilThrow_frame _ _).1.trans b2, Or.inl (by
                        show (t2.declareUntilThrow _).work.cart = _
                        rw [(declareUntilThrow_frame _ _).2, w2])⟩
                    · rename_i tc hc
                      have wc : tc.work = st.tx.work := (inputs_frame hc).2.1.trans w2
                      have bc : tc.base = st.tx.base := (inputs_frame hc).1.trans b2
                      split
                      · exact ⟨bc, Or.inl (by simp [Tx.skip, wc])⟩
                      · rename_i t3 h3
                        refine ⟨(exec_base h3).trans bc, Or.inr (Or.inr
                          ⟨newCartLine st.nextId userId (parseIntField rt
                              (if truthy (item.field "product_id") then item.field "product_id"
                               else item.field "productId"))
                            (min (max 1 (orOne (parseIntField rt (item.field "quantity"))))
                              product.stock) color size, rfl, ?_, ?_⟩)⟩
                        · rw [hpid, w2] at hsel
                          rw [hpid]
                          exact selectExisting_nil_fresh hsel
                        · rw [exec_work h3, wc]
                          rfl
            · exact ⟨b1, Or.inl (by rw [w1])⟩
          · exact ⟨b1, Or.inl (by rw [w1])⟩

theorem syncItems_keys (rt : JsRuntime) (fault : Option Nat) (userId v : Nat)
    (items : List Body) (st : SyncState) :
    (items.foldl (syncItem rt fault userId) st).tx.base = st.tx.base ∧
      (cartKeysUnique st.tx.work.cart v →
        cartKeysUnique (items.foldl (syncItem rt fault userId) st).tx.work.cart v) := by
  induction items generalizing st with
  | nil => exact ⟨rfl, id⟩
  | cons item rest ih =>
    rw [List.foldl_cons]
    obtain ⟨hb, hstep⟩ := syncItem_step rt fault userId st item
    obtain ⟨hb1, hk1⟩ := ih (syncItem rt fault userId st item)
    exact ⟨hb1.trans hb, fun h => hk1 (cartStep_keys hstep h)⟩

theorem syncCart_keys (rt : JsRuntime) (fault : Option Nat) (fresh userId v : Nat)
    (items : Option (List Body)) (s : Store) (h : cartKeysUnique s.cart v) :
    cartKeysUnique (syncCart rt fault fresh userId items s).2.cart v := by
  unfold syncCart
  cases hres : syncCartTry rt fault fresh userId items s with
  | none => exact h
  | some rs =>
    simp only
    unfold syncCartTry at hres
    cases h0 : Tx.exec fault { base := s, work := s, issued := 0 } id with
    | none => simp [h0] at hres
    | some t0 =>
      have b0 : t0.base = s := exec_base h0
      have w0 : t0.work = s := exec_work h0
      simp only [h0, Option.some_bind] at hres
      split at hres
      · cases hres
        simpa [Tx.rollback, b0] using h
      · rename_i its
        cases h1 : ((its.foldl (syncItem rt fault userId)
            { tx := t0, nextId := fresh, synced := 0, errors := 0 }).tx).exec fault id with
        | none => simp [h1] at hres
        | some t1 =>
          simp only [h1, Option.some_bind, Option.some.injEq] at hres
          rw [← hres]
          simp only [Tx.commit]
          rw [exec_work h1]
          exact (syncItems_keys rt fault userId v its
            { tx := t0, nextId := fresh, synced := 0, errors := 0 }).2 (by rw [w0]; exact h)

/-- Claim C19.  If the lines of a user in the cart have pairwise different
keys `(product_id, color, size)`, they still have after `addToCart` and after
`syncCart`, whatever the request and the database fault.  When `addToCart`
finds a line of the caller with the product and the normalised variant and
answers 201, the cart is the old one with the quantity of that line replaced
by the old quantity plus the added one, and has no line more.  And it does
answer 201 then: when the caller is authenticated, the product exists, such a
line is found, the added quantity and the sum are within the stock and no
statement fails, the answer is 201 and the store is the old one with that
line's quantity replaced by the sum. -/
theorem cart_keys_stay_unique (rt : JsRuntime) (fault : Option Nat) (fresh : Nat)
    (user : Option Nat) (userId v : Nat) (body : Body) (items : Option (List Body))
    (s : Store) (h : cartKeysUnique s.cart v) :
    cartKeysUnique (addToCart rt fault fresh user body s).2.cart v ∧
      cartKeysUnique (syncCart rt fault fresh userId items s).2.cart v ∧
      (∀ u product_id existingItem rest, user = some u →
        body.field "product_id" = some product_id →
        selectExisting s u (jsParseInt rt product_id)
          (normalizeVariant rt (body.field "color"))
          (normalizeVariant rt (body.field "size")) = existingItem :: rest →
        (addToCart rt fault fresh user body s).1 = .added →
        (addToCart rt fault fresh user body s).2.cart = s.cart.map (fun c =>
            if c.cart_id = existingItem.cart_id then
              { c with quantity := existingItem.quantity + normalizedQuantity rt body }
            else c) ∧
          (addToCart rt fault fresh user body s).2.cart.length = s.cart.length) ∧
      (∀ u product_id existingItem rest product prest, user = some u → u ≠ 0 →
        body.field "product_id" = some product_id →
        product_id.truthy = true → (jsNumber rt product_id).isNone = false →
        selectProductInt s (jsParseInt rt product_id) = product :: prest →
        selectExisting s u (jsParseInt rt product_id)
          (normalizeVariant rt (body.field "color"))
          (normalizeVariant rt (body.field "size")) = existingItem :: rest →
        normalizedQuantity rt body ≤ product.stock →
        existingItem.quantity + normalizedQuantity rt body ≤ product.stock →
        addToCart rt none fresh user body s =
          (.added, { s with cart := s.cart.map (fun c =>
            if c.cart_id = existingItem.cart_id then
              { c with quantity := existingItem.quantity + normalizedQuantity rt body }
            else c) })) := by
  refine ⟨cartStep_keys (addToCart_step rt fault fresh user body s) h,
    syncCart_keys rt fault fresh userId v items s h, ?_, ?_⟩
  rotate_left
  · intro u product_id existingItem rest product prest hu hu0 hpid htruthy hnum hprod hsel
      hq hsum
    have hguard : (!product_id.truthy || (jsNumber rt product_id).isNone) = false := by
      simp [htruthy, hnum]
    simp [addToCart, hu, hu0, hpid, hguard, hprod, not_lt.mpr hq, hsel, not_lt.mpr hsum,
      updateQuantity]
  intro u product_id existingItem rest hu hpid hsel hadded
  have hcart : (addToCart rt fault fresh user body s).2.cart = s.cart.map (fun c =>
      if c.cart_id = existingItem.cart_id then
        { c with quantity := existingItem.quantity + normalizedQuantity rt body }
      else c) := by
    unfold addToCart at hadded ⊢
    rw [hu, hpid] at hadded ⊢
    simp only [hsel] at hadded ⊢
    by_cases h0 : u = 0
    · simp [h0] at hadded
    · by_cases h1 : (!product_id.truthy || (jsNumber rt product_id).isNone) = true
      · simp [h0, h1] at hadded
      · by_cases h2 : fault = some 0
        · simp [h0, h1, h2] at hadded
        · cases hprod : selectProductInt s (jsParseInt rt product_id) with
          | nil => simp [h0, h1, h2, hprod] at hadded
          | cons product prest =>
            by_cases h3 : normalizedQuantity rt body > product.stock
            · simp [h0, h1, h2, hprod, h3] at hadded
            · by_cases h4 : fault = some 1
              · simp [h0, h1, h2, hprod, h3, h4] at hadded
              · by_cases h5 : existingItem.quantity + normalizedQuantity rt body > product.stock
                · simp [h0, h1, h2, hprod, h3, h4, h5] at hadded
                · by_cases h6 : fault = some 2
                  · simp [h0, h1, h2, hprod, h3, h4, h5, h6] at hadded
                  · simp [h0, h1, h2, hprod, h3, h4, h5, h6, updateQuantity]
  exact ⟨hcart, by rw [hcart, List.length_map]⟩

theorem addToCart_rollback (rt : JsRuntime) (fault : Option Nat) (fresh : Nat)
    (user : Option Nat) (body : Body) (s : Store)
    (h : (addToCart rt fault fresh user body s).1 ≠ .added) :
    (addToCart rt fault fresh user body s).2 = s := by
  generalize hr : addToCart rt fault fresh user body s = r at h ⊢
  unfold addToCart at hr
  repeat' split at hr
  all_goals subst hr
  all_goals first
    | rfl
    | exact absurd rfl h

theorem truncate_intCast (n : Int) : truncate (n : ℚ) = n := by
  unfold truncate
  split <;> simp

theorem jsParseInt_int (rt : JsRuntime) (n : Int) (hlo : -1000000000000000000000 < n)
    (hhi : n < 1000000000000000000000) : jsParseInt rt (.num n) = some n := by
  have hc : (n : ℚ) = 0 ∨ ((1 / 1000000 ≤ (n : ℚ) ∨ (n : ℚ) ≤ -(1 / 1000000)) ∧
      -1000000000000000000000 < (n : ℚ) ∧ (n : ℚ) < 1000000000000000000000) := by
    by_cases h0 : n = 0
    · left
      exact_mod_cast h0
    · right
      refine ⟨?_, by exact_mod_cast hlo, by exact_mod_cast hhi⟩
      rcases lt_or_gt_of_ne h0 with hneg | hpos
      · right
        have h1 : (n : ℚ) ≤ -1 := by exact_mod_cast (by omega : n ≤ -1)
        linarith
      · left
        have h1 : (1 : ℚ) ≤ (n : ℚ) := by exact_mod_cast (by omega : 1 ≤ n)
        linarith
  simp only [jsParseInt, if_pos hc, truncate_intCast]

theorem normalizedQuantity_of_valid (rt : JsRuntime) (body : Body) (n : Int) (h1 : 1 ≤ n)
    (h99 : n ≤ 99) (hq : body.field "quantity" = some (.num n)) :
    normalizedQuantity rt body = n := by
  have h0 : ¬ n = 0 := by omega
  simp [normalizedQuantity, hq, parseIntField, jsParseInt_int rt n (by omega) (by omega), orOne,
    h0, h1, h99]

/-- Claim C20.  For an authenticated caller and a `product_id` that passes line
89: a failed call leaves the store unchanged; when no product has the id the
answer is 404; when the normalised quantity exceeds the stock of the product
the answer is 400; when a line of the caller with this product and variant
exists and its quantity plus the normalised quantity exceeds the stock the
answer is 400; and when the answer is 201 the store is the old one with either
that line's quantity replaced by the sum, which is at most the stock, or one
new line whose quantity is the normalised quantity, which is at most the
stock.  The normalised quantity of a request with an integer quantity from 1
to 99 is that quantity. -/
theorem addToCart_respects_stock (rt : JsRuntime) (fault : Option Nat) (fresh u : Nat)
    (body : Body) (s : Store) (product_id : JsValue)
    (hu : u ≠ 0) (hpid : body.field "product_id" = some product_id)
    (htruthy : product_id.truthy = true) (hnum : (jsNumber rt product_id).isNone = false) :
    ((addToCart rt fault fresh (some u) body s).1 ≠ .added →
        (addToCart rt fault fresh (some u) body s).2 = s) ∧
      (selectProductInt s (jsParseInt rt product_id) = [] →
        addToCart rt none fresh (some u) body s = (.productNotFound, s)) ∧
      (∀ product prest, selectProductInt s (jsParseInt rt product_id) = product :: prest →
        (normalizedQuantity rt body > product.stock →
          addToCart rt none fresh (some u) body s = (.insufficientStock product.stock, s)) ∧
        (∀ e erest,
          selectExisting s u (jsParseInt rt product_id)
            (normalizeVariant rt (body.field "color"))
            (normalizeVariant rt (body.field "size")) = e :: erest →
          normalizedQuantity rt body ≤ product.stock →
          e.quantity + normalizedQuantity rt body > product.stock →
          addToCart rt none fresh (some u) body s
            = (.insufficientStockMerged product.stock, s)) ∧
        ((addToCart rt fault fresh (some u) body s).1 = .added →
          (∃ e erest,
            selectExisting s u (jsParseInt rt product_id)
              (normalizeVariant rt (body.field "color"))
              (normalizeVariant rt (body.field "size")) = e :: erest ∧
            e.quantity + normalizedQuantity rt body ≤ product.stock ∧
            (addToCart rt fault fresh (some u) body s).2 =
              updateQuantity e.cart_id (e.quantity + normalizedQuantity rt body) s) ∨
          (selectExisting s u (jsParseInt rt product_id)
              (normalizeVariant rt (body.field "color"))
              (normalizeVariant rt (body.field "size")) = [] ∧
            normalizedQuantity rt body ≤ product.stock ∧
            (addToCart rt fault fresh (some u) body s).2 =
              insertCartLine (newCartLine fresh u (jsParseInt rt product_id)
                (normalizedQuantity rt body)
                (normalizeVariant rt (body.field "color"))
                (normalizeVariant rt (body.field "size"))) s))) ∧
      AddResponse.productNotFound.status = 404 ∧
      (∀ k, (AddResponse.insufficientStock k).status = 400 ∧
        (AddResponse.insufficientStockMerged k).status = 400) ∧
      (∀ n : Int, 1 ≤ n → n ≤ 99 → body.field "quantity" = some (.num n) →
        normalizedQuantity rt body = n) := by
  have hguard : (!product_id.truthy || (jsNumber rt product_id).isNone) = false := by
    simp [htruthy, hnum]
  refine ⟨addToCart_rollback rt fault fresh (some u) body s, ?_, ?_, rfl, fun k => ⟨rfl, rfl⟩,
    normalizedQuantity_of_valid rt body⟩
  · intro hnil
    simp [addToCart, hu, hpid, hguard, hnil]
  · intro product prest hprod
    refine ⟨?_, ?_, ?_⟩
    · intro hq
      simp [addToCart, hu, hpid, hguard, hprod, hq]
    · intro e erest hsel hq hsum
      simp [addToCart, hu, hpid, hguard, hprod, not_lt.mpr hq, hsel, hsum]
    · intro hadded
      unfold addToCart at hadded ⊢
      simp only [hu, hpid, hguard, hprod, if_false, Bool.false_eq_true] at hadded ⊢
      by_cases h2 : fault = some 0
      · simp [h2] at hadded
      · by_cases h3 : normalizedQuantity rt body > product.stock
        · simp [h2, h3] at hadded
        · by_cases h4 : fault = some 1
          · simp [h2, h3, h4] at hadded
          · cases hsel : selectExisting s u (jsParseInt rt product_id)
                (normalizeVariant rt (body.field "color"))
                (normalizeVariant rt (body.field "size")) with
            | nil =>
              by_cases h6 : fault = some 2
              · simp [h2, h3, h4, hsel, h6] at hadded
              · right
                simp [h2, h3, h4, h6, not_lt.mp h3]
            | cons e erest =>
              by_cases h5 : e.quantity + normalizedQuantity rt body > product.stock
              · simp [h2, h3, h4, hsel, h5] at hadded
              · by_cases h6 : fault = some 2
                · simp [h2, h3, h4, hsel, h5, h6] at hadded
                · left
                  exact ⟨e, erest, rfl, not_lt.mp h5, by simp [h2, h3, h4, h5, h6]⟩

/-- Witness of C20: nine units of product 1 are asked for while the stock is
5; the answer is 400 and the store stays as it was. -/
theorem addToCart_respects_stock_witness :
    addToCart exampleRuntime none 10 (some 7) (addBody 9 "red") (exampleStore 5 none 0)
      = (.insufficientStock (productA 5).stock, exampleStore 5 none 0) :=
  ((addToCart_respects_stock exampleRuntime none 10 7 (addBody 9 "red")
      (exampleStore 5 none 0) (.num 1) (by decide) (by with_unfolding_all rfl)
      (by with_unfolding_all rfl) rfl).2.2.1
    (productA 5) [] (by with_unfolding_all rfl)).1
    (by
      rw [show normalizedQuantity exampleRuntime (addBody 9 "red") = 9 from
        by with_unfolding_all rfl]
      decide)

/-- Witness of C19: two more units of product 1 without variant are added to
the cart of the worked example, which holds a line of two such units: the keys
stay unique, and `addToCart` answers 201 and leaves the one line with four
units. -/
theorem cart_keys_stay_unique_witness :
    cartKeysUnique (addToCart exampleRuntime none 10 (some 7) (quantityBody (.num 2))
        (exampleStore 5 none 0)).2.cart 7 ∧
      cartKeysUnique (syncCart exampleRuntime none 10 7 (some [quantityBody (.num 2)])
        (exampleStore 5 none 0)).2.cart 7 ∧
      addToCart exampleRuntime none 10 (some 7) (quantityBody (.num 2)) (exampleStore 5 none 0) =
        (.added, { exampleStore 5 none 0 with cart := [{ lineA with quantity := 4 }] }) :=
  ⟨(cart_keys_stay_unique exampleRuntime none 10 (some 7) 7 7 (quantityBody (.num 2))
      (some [quantityBody (.num 2)]) (exampleStore 5 none 0)
      (by simp [cartKeysUnique, exampleStore, lineA])).1,
   (cart_keys_stay_unique exampleRuntime none 10 (some 7) 7 7 (quantityBody (.num 2))
      (some [quantityBody (.num 2)]) (exampleStore 5 none 0)
      (by simp [cartKeysUnique, exampleStore, lineA])).2.1,
   ((cart_keys_stay_unique exampleRuntime none 10 (some 7) 7 7 (quantityBody (.num 2))
      (some [quantityBody (.num 2)]) (exampleStore 5 none 0)
      (by simp [cartKeysUnique, exampleStore, lineA])).2.2.2
      7 (.num 1) lineA [] (productA 5) [] rfl (by decide) (by with_unfolding_all rfl)
      (by with_unfolding_all rfl) (by with_unfolding_all rfl) (by with_unfolding_all rfl)
      (by with_unfolding_all rfl)
      (by
        rw [show normalizedQuantity exampleRuntime (quantityBody (.num 2)) = 2 from
          by with_unfolding_all rfl]
        decide)
      (by
        rw [show normalizedQuantity exampleRuntime (quantityBody (.num 2)) = 2 from
          by with_unfolding_all rfl]
        decide)).trans (by with_unfolding_all rfl)⟩

/-- Witness of C16: SALE10 with limit 1 and no redemption yet. -/
theorem order_placing_keeps_usage_limit_witness :
    usageInvariant (checkout none 3 1 7 (exampleBody "SALE10") (exampleStore 5 (some 1) 0)).2 ∧
      usageInvariant (createOrder none 3 1 7 (exampleOrderBody "SALE10")
        (exampleStore 5 (some 1) 0)).2 ∧
      (∀ q ∈ (exampleStore 5 (some 1) 0).promotions, usageExhausted q = true →
        q ∈ (checkout none 3 1 7 (exampleBody "SALE10")
              (exampleStore 5 (some 1) 0)).2.promotions ∧
        q ∈ (createOrder none 3 1 7 (exampleOrderBody "SALE10")
              (exampleStore 5 (some 1) 0)).2.promotions) :=
  order_placing_keeps_usage_limit none 3 1 7 (exampleBody "SALE10")
    (exampleOrderBody "SALE10") (exampleStore 5 (some 1) 0)
    (by simp [exampleStore])
    (by
      intro p hp l hl _
      have hp1 : p = sale10 (some 1) 0 := by simpa [exampleStore] using hp
      subst hp1
      have hl1 : l = 1 := by
        have h1 : (sale10 (some 1) 0).usage_limit = some 1 := rfl
        rw [h1] at hl
        exact (Option.some.inj hl).symm
      subst hl1
      decide)

/-! ## The quantity of a cart line -/

theorem normalizedQuantity_bounds (rt : JsRuntime) (body : Body) :
    1 ≤ normalizedQuantity rt body ∧ normalizedQuantity rt body ≤ 99 := by
  unfold normalizedQuantity
  exact ⟨le_min (le_max_right _ _) (by norm_num), min_le_right _ _⟩

theorem isIntBetween_num (vd : Validator) (q : ℚ) :
    isIntBetween vd 1 (some 99) (some (.num q)) = true ↔
      ∃ n : Int, q = n ∧ 1 ≤ n ∧ n ≤ 99 := by
  simp only [isIntBetween, Bool.and_eq_true, decide_eq_true_eq]
  constructor
  · rintro ⟨⟨⟨⟨hden, _⟩, _⟩, hlo⟩, hhi⟩
    have hq : q = (q.num : ℚ) := by
      have h := Rat.num_div_den q
      rw [hden] at h
      simpa using h.symm
    refine ⟨q.num, hq, ?_, ?_⟩
    · rw [hq] at hlo
      exact_mod_cast hlo
    · rw [hq] at hhi
      exact_mod_cast hhi
  · rintro ⟨n, rfl, h1, h99⟩
    refine ⟨⟨⟨⟨by simp, ?_⟩, ?_⟩, by exact_mod_cast h1⟩, by exact_mod_cast h99⟩
    · have : (-1000000000000000000000 : Int) < n := by omega
      exact_mod_cast this
    · have : n < (1000000000000000000000 : Int) := by omega
      exact_mod_cast this

/-- Claim C21.  On the route `POST /api/cart`, for an authenticated user: when
the request carries a quantity that the check `isInt({ min: 1, max: 99 })`
refuses, the answer is 400 with the message of the quantity check among the
errors, the controller does not run and the store is unchanged.  A JSON number
passes the check exactly when it is an integer from 1 to 99, `null` and
booleans never pass; and a request that passes with the integer `n` reaches
the controller, which adds `n` itself, not another value. -/
theorem postCart_rejects_invalid_quantity (vd : Validator) (rt : JsRuntime)
    (fault : Option Nat) (fresh userId : Nat) (body : Body) (s : Store) (v : JsValue)
    (hq : body.field "quantity" = some v)
    (hbad : isIntBetween vd 1 (some 99) (some v) = false) :
    (∃ errors, postCart vd rt fault fresh userId body s = (.validationFailed errors, s) ∧
        "Số lượng phải từ 1-99" ∈ errors ∧
        (PostCartResponse.validationFailed errors).status = 400) ∧
      (∀ q : ℚ, isIntBetween vd 1 (some 99) (some (.num q)) = true ↔
        ∃ n : Int, q = n ∧ 1 ≤ n ∧ n ≤ 99) ∧
      isIntBetween vd 1 (some 99) (some .null) = false ∧
      (∀ b, isIntBetween vd 1 (some 99) (some (.bool b)) = false) ∧
      (∀ (b : Body) (n : Int), b.field "quantity" = some (.num n) →
        isIntBetween vd 1 (some 99) (some (.num n)) = true →
        normalizedQuantity rt b = n) := by
  have hmem : "Số lượng phải từ 1-99" ∈ addToCartErrors vd body := by
    simp [addToCartErrors, hq, hbad]
  have hne : addToCartErrors vd body ≠ [] := List.ne_nil_of_mem hmem
  refine ⟨⟨addToCartErrors vd body, by simp [postCart, hne], hmem, rfl⟩,
    isIntBetween_num vd, rfl, fun _ => rfl, ?_⟩
  intro b n hb hok
  obtain ⟨m, hm, h1, h99⟩ := (isIntBetween_num vd n).mp hok
  have hmn : m = n := by exact_mod_cast hm.symm
  subst hmn
  exact normalizedQuantity_of_valid rt b m h1 h99 hb

/-- Witness of C21: a request for 150 units of product 1, of which 200 are in
stock, is answered 400 with the message of the quantity check, and the cart
stays as it was. -/
theorem postCart_rejects_invalid_quantity_witness :
    ∃ errors, postCart exampleValidator exampleRuntime none 2 8 (quantityBody (.num 150))
        bulkStore = (.validationFailed errors, bulkStore) ∧
      "Số lượng phải từ 1-99" ∈ errors ∧
      (PostCartResponse.validationFailed errors).status = 400 :=
  (postCart_rejects_invalid_quantity exampleValidator exampleRuntime none 2 8
    (quantityBody (.num 150)) bulkStore (.num 150) (by with_unfolding_all rfl)
    (by with_unfolding_all rfl)).1

/-- Claim C22, at the failing input.  User 7 holds one line of 60 units of
product 1 and the stock is 200, so every line has a quantity from 1 to 99.  A
request of `addToCart` for 60 more units is answered 201 and leaves the line
with 120 units; `syncCart` with an item of 60 units does the same. -/
theorem addToCart_merge_exceeds_cap :
    (∀ c ∈ bulkStore.cart, 1 ≤ c.quantity ∧ c.quantity ≤ 99) ∧
      addToCart exampleRuntime none 2 (some 7) (quantityBody (.num 60)) bulkStore =
        (.added, { bulkStore with cart :=
          [{ cart_id := 1, user_id := 7, product_id := 1, quantity := 120, color := none,
             size := none }] }) ∧
      syncCart exampleRuntime none 2 7 (some [quantityBody (.num 60)]) bulkStore =
        (.committed 1 0, { bulkStore with cart :=
          [{ cart_id := 1, user_id := 7, product_id := 1, quantity := 120, color := none,
             size := none }] }) :=
  ⟨by simp [bulkStore], by with_unfolding_all rfl, by with_unfolding_all rfl⟩

theorem updateCartItem_nonpositive (rt : JsRuntime) (fault : Option Nat) (userId cartId : Nat)
    (params : Params) (body : Body) (s : Store) (q : ℚ)
    (hid : params.field "id" = some cartId) (hq : body.field "quantity" = some (.num q))
    (h0 : q ≤ 0) :
    updateCartItem rt fault userId params body s = (.updateError, s) := by
  simp [updateCartItem, hid, hq, jsNumber, jsLessEq, h0]

/-- Claim C23, at the failing input.  For the line 1 of user 7 in the store of
the worked example, `updateCartItem` with the quantity 0 answers 500
`UPDATE_CART_ERROR` and leaves the line in the cart, while `removeFromCart` on
the same line answers 200 and deletes it. -/
theorem updateCartItem_zero_keeps_line :
    updateCartItem exampleRuntime none 7 (idParams 1) (updateBody 0) (exampleStore 5 none 0) =
        (.updateError, exampleStore 5 none 0) ∧
      removeFromCart none 7 (idParams 1) (exampleStore 5 none 0) =
        (.removed "A", { exampleStore 5 none 0 with cart := [] }) ∧
      UpdateResponse.updateError.status = 500 ∧ (RemoveResponse.removed "A").status = 200 :=
  ⟨by with_unfolding_all rfl, by with_unfolding_all rfl, rfl, rfl⟩

/-! ## Updating and clearing the cart -/

theorem filter_eq_singleton {α β : Type} (f : α → β) (P : α → Bool) (l : List α) (a : α)
    (hnd : (l.map f).Nodup) (ha : a ∈ l) (hPa : P a = true)
    (hP : ∀ x ∈ l, P x = true → f x = f a) : l.filter P = [a] := by
  induction l with
  | nil => simp at ha
  | cons x l ih =>
    rw [List.map_cons, List.nodup_cons] at hnd
    by_cases hx : P x = true
    · have hfx : f x = f a := hP x (List.mem_cons_self _ _) hx
      have hax : a = x := by
        rcases List.mem_cons.mp ha with h | h
        · exact h
        · exact absurd (hfx ▸ List.mem_map_of_mem f h) hnd.1
      subst hax
      have hnil : l.filter P = [] := by
        rw [List.filter_eq_nil_iff]
        intro y hy hPy
        exact hnd.1 ((hP y (List.mem_cons_of_mem _ hy) hPy) ▸ List.mem_map_of_mem f hy)
      rw [List.filter_cons_of_pos hx, hnil]
    · have hal : a ∈ l := by
        rcases List.mem_cons.mp ha with h | h
        · exact absurd (h ▸ hPa) hx
        · exact h
      rw [List.filter_cons_of_neg hx]
      exact ih hnd.2 hal fun y hy => hP y (List.mem_cons_of_mem _ hy)

theorem selectCartItem_nil {s : Store} {cartId userId : Nat}
    (h : ∀ c ∈ s.cart, ¬ (c.cart_id = cartId ∧ c.user_id = userId)) :
    selectCartItem s cartId userId = [] := by
  have hnil : (s.cart.filter fun c => decide (c.cart_id = cartId) && decide (c.user_id = userId))
      = [] := by
    rw [List.filter_eq_nil_iff]
    intro c hc
    simpa using h c hc
  simp [selectCartItem, hnil]

theorem selectCartItem_key {s : Store} {cartId userId : Nat} {c : CartLine} {p : Product}
    (hck : (s.cart.map fun c => c.cart_id).Nodup)
    (hpk : (s.products.map fun p => p.product_id).Nodup)
    (hc : c ∈ s.cart) (hp : p ∈ s.products) (hcid : c.cart_id = cartId)
    (hu : c.user_id = userId) (hpid : c.product_id = p.product_id) :
    selectCartItem s cartId userId = [joinRow c p] := by
  have h1 : (s.cart.filter fun c => decide (c.cart_id = cartId) && decide (c.user_id = userId))
      = [c] := by
    apply filter_eq_singleton (fun c : CartLine => c.cart_id) _ _ _ hck hc
    · simp [hcid, hu]
    · intro x _ hx
      simp only [Bool.and_eq_true, decide_eq_true_eq] at hx
      exact hx.1.trans hcid.symm
  have h2 : (s.products.filter fun q => decide (c.product_id = q.product_id)) = [p] := by
    apply filter_eq_singleton (fun q : Product => q.product_id) _ _ _ hpk hp
    · simp [hpid]
    · intro x _ hx
      simp only [decide_eq_true_eq] at hx
      exact hx.symm.trans hpid
  simp [selectCartItem, h1, h2]

theorem updateQuantity_key {s : Store} {cartId : Nat} {c : CartLine} (n : Int)
    (hck : (s.cart.map fun c => c.cart_id).Nodup) (hc : c ∈ s.cart)
    (hcid : c.cart_id = cartId) :
    updateQuantity cartId n s =
      { s with cart := s.cart.map fun d => if d = c then { c with quantity := n } else d } := by
  unfold updateQuantity
  congr 1
  apply List.map_congr_left
  intro d hd
  by_cases hdc : d = c
  · subst hdc
    simp [hcid]
  · have hne : ¬ d.cart_id = cartId := fun h =>
      hdc (List.inj_on_of_nodup_map hck hd hc (h.trans hcid.symm))
    simp [hdc, hne]

theorem updateCartItem_guards {rt : JsRuntime} {params : Params} {body : Body} {cartId : Nat}
    {n : Int} (hid : params.field "id" = some cartId)
    (hq : body.field "quantity" = some (.num n)) (hn : 1 ≤ n) (userId : Nat) (s : Store) :
    updateCartItem rt none userId params body s =
      match selectCartItem s cartId userId with
      | [] => (.cartItemNotFound, s)
      | cartItem :: _ =>
        if cartItem.stock < n then (.insufficientStock cartItem.stock, s)
        else
          match jsParseInt rt (.num n) with
          | none => (.updateError, s)
          | some quantity => (.updated cartItem.name quantity, updateQuantity cartId quantity s) := by
  have h0 : ¬ ((n : ℚ) ≤ 0) := by
    have : (0 : ℚ) < (n : ℚ) := by exact_mod_cast (by omega : 0 < n)
    exact not_le.mpr this
  simp only [updateCartItem, hid, hq, Option.some_bind, jsNumber, jsLessEq, jsGreater,
    parseIntField, Int.cast_zero, h0, decide_False,
    Bool.false_eq_true, if_false, Int.cast_lt, decide_eq_true_eq]
  simp

/-- Claim C24.  For a request whose path carries the cart id and whose body
carries an integer quantity `n` of at least 1, and when no statement fails:
if no cart line has this id and this owner, the answer is 404
`CART_ITEM_NOT_FOUND` and the store is unchanged; if `c` is the line with this
id (a key of `cart`) of the caller and `p` its product (`product_id` is a key
of `products`), then for `n` above the stock of `p` the answer is 400
`INSUFFICIENT_STOCK` and the store is unchanged, and otherwise (for `n` below
1e21, the numbers that JavaScript prints without an exponent and that include
every value of an `INT` column) the answer is 200 and the store is the old one
in which the quantity of `c` is `n` and every other cart line is as before. -/
theorem updateCartItem_positive (rt : JsRuntime) (userId cartId : Nat) (n : Int)
    (params : Params) (body : Body) (s : Store)
    (hid : params.field "id" = some cartId)
    (hq : body.field "quantity" = some (.num n)) (hn : 1 ≤ n) :
    ((∀ c ∈ s.cart, ¬ (c.cart_id = cartId ∧ c.user_id = userId)) →
        updateCartItem rt none userId params body s = (.cartItemNotFound, s)) ∧
      (∀ c ∈ s.cart, ∀ p ∈ s.products,
        (s.cart.map fun c => c.cart_id).Nodup → (s.products.map fun p => p.product_id).Nodup →
        c.cart_id = cartId → c.user_id = userId → c.product_id = p.product_id →
        (p.stock < n →
          updateCartItem rt none userId params body s = (.insufficientStock p.stock, s)) ∧
        (n ≤ p.stock → n < 1000000000000000000000 →
          updateCartItem rt none userId params body s =
            (.updated p.name n,
             { s with cart := s.cart.map fun d =>
                 if d = c then { c with quantity := n } else d }))) ∧
      UpdateResponse.cartItemNotFound.status = 404 ∧
      (∀ k, (UpdateResponse.insufficientStock k).status = 400) ∧
      (∀ name k, (UpdateResponse.updated name k).status = 200) := by
  refine ⟨?_, ?_, rfl, fun _ => rfl, fun _ _ => rfl⟩
  · intro hno
    rw [updateCartItem_guards hid hq hn, selectCartItem_nil hno]
  · intro c hc p hp hck hpk hcid hu hpid
    rw [updateCartItem_guards hid hq hn, selectCartItem_key hck hpk hc hp hcid hu hpid]
    constructor
    · intro hlt
      simp [joinRow, hlt]
    · intro hle hhi
      simp [joinRow, not_lt.mpr hle, jsParseInt_int rt n (by omega) hhi,
        updateQuantity_key n hck hc hcid]

/-- Witness of C24: the line 1 of user 7, two units of product 1 with 5 in
stock, is set to three units. -/
theorem updateCartItem_positive_witness :
    updateCartItem exampleRuntime none 7 (idParams 1) (updateBody 3) (exampleStore 5 none 0) =
      (.updated "A" 3,
       { exampleStore 5 none 0 with cart := [{ lineA with quantity := 3 }] }) :=
  (((updateCartItem_positive exampleRuntime 7 1 3 (idParams 1) (updateBody 3)
      (exampleStore 5 none 0) (by with_unfolding_all rfl) (by with_unfolding_all rfl)
      (by decide)).2.1
    lineA (by simp [exampleStore]) (productA 5) (by simp [exampleStore])
    (by simp [exampleStore]) (by simp [exampleStore]) rfl rfl rfl).2 (by decide)
      (by decide)).trans
    (by with_unfolding_all rfl)

/-- Claim C25.  When no statement fails, `clearCart` answers 200 with
`items_removed` equal to the number of cart lines of the caller, and the store
is the old one without the cart lines of the caller: no line of the caller is
left and the lines of every other user are as before.  On a cart without lines
of the caller the answer is 200 with `items_removed = 0` and the store is
unchanged, so a second call answers that and yields the store of the first. -/
theorem clearCart_idempotent (userId : Nat) (s : Store) :
    (clearCart none userId s).2 =
        { s with cart := s.cart.filter fun c => ¬ (c.user_id = userId) } ∧
      (∀ c ∈ (clearCart none userId s).2.cart, c.user_id ≠ userId) ∧
      (∀ c ∈ s.cart, c.user_id ≠ userId → c ∈ (clearCart none userId s).2.cart) ∧
      (clearCart none userId s).1.status = 200 ∧
      (clearCart none userId s).1.itemsRemoved = some (countCart s userId) ∧
      (countCart s userId = 0 → clearCart none userId s = (.alreadyEmpty 0, s)) ∧
      clearCart none userId (clearCart none userId s).2 =
        (.alreadyEmpty 0, (clearCart none userId s).2) := by
  have hstore : (clearCart none userId s).2 =
      { s with cart := s.cart.filter fun c => ¬ (c.user_id = userId) } := by
    by_cases h0 : countCart s userId = 0
    · have hall : ∀ c ∈ s.cart, ¬ c.user_id = userId := by
        intro c hc hu
        have hnil : (s.cart.filter fun c => c.user_id = userId) = [] :=
          List.length_eq_zero.mp h0
        rw [List.filter_eq_nil_iff] at hnil
        exact hnil c hc (by simpa using hu)
      have hself : (s.cart.filter fun c => ¬ (c.user_id = userId)) = s.cart := by
        rw [List.filter_eq_self]
        intro c hc
        simpa using hall c hc
      rw [hself]
      simp [clearCart, h0]
    · simp [clearCart, h0, deleteCart]
  have hcount : countCart (clearCart none userId s).2 userId = 0 := by
    rw [hstore]
    simp [countCart, List.filter_filter]
  refine ⟨hstore, ?_, ?_, ?_, ?_, ?_, ?_⟩
  · intro c hc
    rw [hstore] at hc
    simpa using (List.mem_filter.mp hc).2
  · intro c hc hu
    rw [hstore]
    exact List.mem_filter.mpr ⟨hc, by simpa using hu⟩
  · by_cases h0 : countCart s userId = 0 <;> simp [clearCart, h0, ClearResponse.status]
  · by_cases h0 : countCart s userId = 0 <;> simp [clearCart, h0, ClearResponse.itemsRemoved]
  · intro h0
    simp [clearCart, h0]
  · generalize (clearCart none userId s).2 = s1 at hcount
    simp [clearCart, hcount]

/-! ## The snapshot of the cart -/

theorem foldl_cartItem_subtotal (items : List CartRow) (acc : ℚ) :
    (items.map cartItemOf).foldl
        (fun subtotal item => subtotal + finalPrice item * item.quantity) acc
      = acc + subtotal items := by
  induction items generalizing acc with
  | nil => simp [subtotal]
  | cons i rest ih =>
    rw [List.map_cons, List.foldl_cons, ih]
    simp only [subtotal, List.map_cons, List.sum_cons, finalPrice, cartItemOf, Option.getD_some]
    ring

theorem foldl_cartItem_quantity (items : List CartRow) (acc : Int) :
    (items.map cartItemOf).foldl (fun total item => total + item.quantity) acc
      = acc + (items.map fun i => i.quantity).sum := by
  induction items generalizing acc with
  | nil => simp
  | cons i rest ih =>
    rw [List.map_cons, List.foldl_cons, ih]
    simp only [List.map_cons, List.sum_cons, cartItemOf]
    ring

theorem quantity_filterMap (s : Store) (L : List CartLine)
    (hfk : ∀ c ∈ L, (productOf s c.product_id).isSome) :
    ((L.filterMap fun c => (productOf s c.product_id).map (joinRow c)).map
        fun i => i.quantity).sum = (L.map fun c => c.quantity).sum := by
  induction L with
  | nil => rfl
  | cons c L ih =>
    obtain ⟨p, hp⟩ := Option.isSome_iff_exists.mp (hfk c (List.mem_cons_self _ _))
    have ih1 := ih fun d hd => hfk d (List.mem_cons_of_mem _ hd)
    rw [List.filterMap_cons, hp]
    simp only [Option.map_some', List.map_cons, List.sum_cons, ih1, joinRow]

/-- Claim C26.  When `product_id` is a key of `products` and every cart line
of the user refers to a product, and the query does not fail, `getCart`
answers a cart whose `subtotal` is the sum over the cart lines of the user of
`quantity x price x (1 - discount_percent/100)`, a `NULL` discount counting as
0, and whose `total_items` is the sum of the quantities of these lines;
`getCartData` returns the same cart. -/
theorem getCart_subtotal (userId : Nat) (s : Store)
    (hpk : (s.products.map fun p => p.product_id).Nodup)
    (hfk : ∀ c ∈ s.cart, c.user_id = userId →
      ∃ p ∈ s.products, p.product_id = c.product_id) :
    ∃ d, getCart none userId s = .ok d ∧ getCartData none userId s = some d ∧
      d.subtotal = cartTotal s userId ∧
      d.total_items = ((cartLines s userId).map fun c => c.quantity).sum := by
  have hsome : ∀ c ∈ cartLines s userId, (productOf s c.product_id).isSome := by
    intro c hc
    have hm := List.mem_filter.mp hc
    exact productOf_isSome (hfk c hm.1 (by simpa using hm.2))
  refine ⟨{ items := (selectCart s userId).map cartItemOf
            subtotal := ((selectCart s userId).map cartItemOf).foldl
              (fun subtotal item => subtotal + finalPrice item * item.quantity) 0
            total_items := ((selectCart s userId).map cartItemOf).foldl
              (fun total item => total + item.quantity) 0 },
    by simp only [getCart, if_neg (by simp : ¬ (none : Option Nat) = some 0)], ?_, ?_, ?_⟩
  · simp only [getCartData, if_neg (by simp : ¬ (none : Option Nat) = some 0)]
    rfl
  · show ((selectCart s userId).map cartItemOf).foldl _ 0 = _
    rw [foldl_cartItem_subtotal, selectCart_eq_filterMap s userId hpk, subtotal_filterMap,
      cartTotal, zero_add]
  · show ((selectCart s userId).map cartItemOf).foldl _ 0 = _
    rw [foldl_cartItem_quantity, selectCart_eq_filterMap s userId hpk,
      quantity_filterMap s _ hsome, zero_add]

/-- Witness of C26: the cart of the worked example, two units at 100000 with
10 percent off: subtotal 180000 and two items. -/
theorem getCart_subtotal_witness :
    ∃ d, getCart none 7 (exampleStore 5 none 0) = .ok d ∧
      getCartData none 7 (exampleStore 5 none 0) = some d ∧
      d.subtotal = cartTotal (exampleStore 5 none 0) 7 ∧
      d.total_items = ((cartLines (exampleStore 5 none 0) 7).map fun c => c.quantity).sum :=
  getCart_subtotal 7 (exampleStore 5 none 0) (by simp [exampleStore])
    (by
      intro c hc _
      have hc1 : c = lineA := by simpa [exampleStore] using hc
      subst hc1
      exact ⟨productA 5, by simp [exampleStore], rfl⟩)

/-! ## The route of the cancellation -/

theorem putOrderCancel_unchanged (fault : Option Nat) (userId segment : Nat) (s : Store) :
    (putOrderCancel fault userId segment s).1 ≠ .cancelled ∧
      (putOrderCancel fault userId segment s).2 = s := by
  have hno : ∀ o ∈ s.orders, some o.order_id = (cancelRouteParams segment).field "id" →
      o.user_id = userId → o.status ≠ "pending" := by
    intro o _ h
    have hnone : (cancelRouteParams segment).field "id" = none := by with_unfolding_all rfl
    rw [hnone] at h
    cases h
  have h1 : (putOrderCancel fault userId segment s).1 ≠ .cancelled :=
    @cancelOrder_refused fault userId (cancelRouteParams segment) s hno
  exact ⟨h1, cancelOrder_rollback h1⟩

/-- Claim C28, at the failing input.  Order 1 of user 7 is pending.  The
request `PUT /api/orders/1/cancel` of user 7 reaches `cancelOrder` with the
segment bound to `orderId`; the controller reads `req.params.id`, finds no
order, answers 404 and leaves the store as it was.  Called with the segment
bound to `id`, the controller cancels the order and returns the two units to
the stock. -/
theorem putOrderCancel_pending_not_found :
    putOrderCancel none 7 1 pendingOrderStore = (.notFound, pendingOrderStore) ∧
      CancelResponse.notFound.status = 404 ∧
      (cancelOrder none 7 (idParams 1) pendingOrderStore).1 = .cancelled ∧
      (cancelOrder none 7 (idParams 1) pendingOrderStore).2.products = [productA 5] :=
  ⟨by with_unfolding_all rfl, rfl, by with_unfolding_all rfl, by with_unfolding_all rfl⟩

/-! ## Checkout followed by cancellation -/

theorem restored_orderDetails (now : Int) (order_id : Nat) (rows : List CartRow) (pid : Nat) :
    restored (rows.map (orderDetailOf now order_id)) pid = purchased rows pid := by
  induction rows with
  | nil => rfl
  | cons i rest ih =>
    rw [List.map_cons, restored_cons, purchased_cons, ih]
    rfl

theorem selectOrder_successStore (s : Store) (now : Int) (fresh userId : Nat)
    (shipping_address phone notes promotion_code payment_method : Option JsValue)
    (horders : ∀ o ∈ s.orders, o.order_id ≠ fresh) :
    selectOrder (successStore s now fresh userId shipping_address phone notes promotion_code
        payment_method) (some fresh) userId =
      [orderOf now fresh userId
        (subtotal (selectCart s userId)
          - discountGiven s now promotion_code (subtotal (selectCart s userId)))
        shipping_address phone notes payment_method] := by
  have hnil : (s.orders.filter fun o =>
      decide (some o.order_id = some fresh) && decide (o.user_id = userId)) = [] := by
    rw [List.filter_eq_nil_iff]
    intro o ho
    simp [horders o ho]
  simp only [selectOrder, successStore, List.filter_append, hnil, List.nil_append]
  simp [orderOf]

theorem selectOrderItems_successStore (s : Store) (now : Int) (fresh userId : Nat)
    (shipping_address phone notes promotion_code payment_method : Option JsValue)
    (hdetails : ∀ d ∈ s.order_details, d.order_id ≠ fresh) :
    selectOrderItems (successStore s now fresh userId shipping_address phone notes
        promotion_code payment_method) (some fresh) =
      (selectCart s userId).map (orderDetailOf now fresh) := by
  have hnil : (s.order_details.filter fun d => decide (some d.order_id = some fresh)) = [] := by
    rw [List.filter_eq_nil_iff]
    intro d hd
    simp [hdetails d hd]
  have hall : (((selectCart s userId).map (orderDetailOf now fresh)).filter
      fun d => decide (some d.order_id = some fresh))
        = (selectCart s userId).map (orderDetailOf now fresh) := by
    rw [List.filter_eq_self]
    intro d hd
    obtain ⟨i, _, rfl⟩ := List.mem_map.mp hd
    simp [orderDetailOf]
  simp only [selectOrderItems, successStore, List.filter_append, hnil, hall, List.nil_append]

/-- Claim C29.  When a checkout is answered 201 with the order id `fresh`, an
identity value that no earlier order and no earlier order line carries, the
cancellation of order `fresh` by the same user right after it, with no failing
statement, is answered 200 and the table `products` is again the one before
the checkout: every stock has its old value.  (A checkout that is answered
201 had exactly one joined cart row, so the order has one line.) -/
theorem checkout_cancel_round_trip (fault : Option Nat) (now : Int) (fresh userId : Nat)
    (body : Body) (params : Params) (s : Store)
    (hok : (checkout fault now fresh userId body s).1.status = 201)
    (hid : params.field "id" = some fresh)
    (horders : ∀ o ∈ s.orders, o.order_id ≠ fresh)
    (hdetails : ∀ d ∈ s.order_details, d.order_id ≠ fresh) :
    (cancelOrder none userId params (checkout fault now fresh userId body s).2).1 = .cancelled ∧
      (cancelOrder none userId params (checkout fault now fresh userId body s).2).2.products
        = s.products ∧
      CancelResponse.cancelled.status = 200 := by
  have hmono := checkout_created_mono hok
  rw [hmono] at hok ⊢
  have heq := (checkout_created_eq hok).2
  rw [heq]
  have hsel := selectOrder_successStore s now fresh userId (body.field "shipping_address")
    (body.field "phone") (body.field "notes") (body.field "promotion_code")
    (paymentMethodOf body) horders
  have hitems := selectOrderItems_successStore s now fresh userId (body.field "shipping_address")
    (body.field "phone") (body.field "notes") (body.field "promotion_code")
    (paymentMethodOf body) hdetails
  have hone : (selectCart s userId).length = 1 := (checkout_created_rows hok).1
  rw [← hid] at hsel
  have hcancel := cancelOrder_success hsel rfl (by rw [hid, hitems, List.length_map, hone])
  rw [hcancel, hid]
  refine ⟨rfl, ?_, rfl⟩
  simp only [cancelStore, hitems, restored_orderDetails]
  simp only [successStore, List.map_map]
  conv_rhs => rw [← List.map_id s.products]
  apply List.map_congr_left
  intro p _
  simp

/-- Witness of C29: the checkout of the worked example takes the stock of
product 1 from 5 to 3, and the cancellation of order 1 returns it to 5. -/
theorem checkout_cancel_round_trip_witness :
    (cancelOrder none 7 (idParams 1)
        (checkout none 3 1 7 (exampleBody "SALE10") (exampleStore 5 none 0)).2).1 = .cancelled ∧
      (cancelOrder none 7 (idParams 1)
        (checkout none 3 1 7 (exampleBody "SALE10") (exampleStore 5 none 0)).2).2.products
        = (exampleStore 5 none 0).products ∧
      CancelResponse.cancelled.status = 200 :=
  checkout_cancel_round_trip none 3 1 7 (exampleBody "SALE10") (idParams 1)
    (exampleStore 5 none 0) (by with_unfolding_all rfl) (by with_unfolding_all rfl)
    (by simp [exampleStore]) (by simp [exampleStore])

/-- Claim C30, at the failing input.  User 7 holds two units of product 1,
priced 100000 with 10 percent off, and the items of the `createOrder` request
are the cart lines.  With the code SALE10 `checkout` answers the total 162000
and the discount 18000 and stores the line price 90000, while `createOrder`
answers the total 180000 and the discount 20000 and stores the line price
100000.  With a code that no promotion carries `checkout` answers 400
`INVALID_PROMOTION`, while `createOrder` creates the order. -/
theorem createOrder_checkout_disagree :
    (exampleOrderBody "SALE10").items =
        some ((cartLines (exampleStore 5 none 0) 7).map fun c =>
          { product_id := c.product_id, quantity := c.quantity, color := c.color,
            size := c.size }) ∧
      (checkout none 3 1 7 (exampleBody "SALE10") (exampleStore 5 none 0)).1
        = .created 1 162000 18000 1 ∧
      (createOrder none 3 1 7 (exampleOrderBody "SALE10") (exampleStore 5 none 0)).1
        = .created 1 180000 20000 ∧
      ((checkout none 3 1 7 (exampleBody "SALE10") (exampleStore 5 none 0)).2.order_details.map
        fun d => d.price) = [90000] ∧
      ((createOrder none 3 1 7 (exampleOrderBody "SALE10")
        (exampleStore 5 none 0)).2.order_details.map fun d => d.price) = [100000] ∧
      (checkout none 3 1 7 (exampleBody "NOPE") (exampleStore 5 none 0)).1
        = .invalidPromotion ∧
      (createOrder none 3 1 7 (exampleOrderBody "NOPE") (exampleStore 5 none 0)).1
        = .created 1 200000 0 :=
  ⟨by with_unfolding_all rfl, by with_unfolding_all rfl, by with_unfolding_all rfl,
    by with_unfolding_all rfl, by with_unfolding_all rfl, by with_unfolding_all rfl,
    by with_unfolding_all rfl⟩

/-! ## Stock stays non-negative -/

theorem checkout_unchanged {fault : Option Nat} {now : Int} {fresh userId : Nat} {body : Body}
    {s : Store} (hfail : (checkout fault now fresh userId body s).1.status ≠ 201) :
    (checkout fault now fresh userId body s).2 = s := by
  unfold checkout at hfail ⊢
  cases h : checkoutTry fault now fresh userId (body.field "shipping_address")
      (body.field "phone") (body.field "notes") (body.field "promotion_code")
      (paymentMethodOf body) s with
  | none => rfl
  | some rs =>
    obtain ⟨r, s1⟩ := rs
    rw [h] at hfail
    exact checkoutTry_rollback h hfail

theorem cancelOrder_cancelled_eq {userId : Nat} {params : Params} {s : Store}
    (hok : (cancelOrder none userId params s).1 = .cancelled) :
    cancelOrder none userId params s = (.cancelled, cancelStore s (params.field "id")) := by
  have hone := cancelOrder_lines hok
  obtain ⟨t1, h1, b1, w1, d1⟩ := @query_within ["orderId", "userId"] []
    { base := s, work := s, issued := 0 + 1 } id (by simp) (by decide) (by decide)
  have w1s : t1.work = s := w1
  cases hsel : selectOrder s (params.field "id") userId with
  | nil =>
    simp [cancelOrder, cancelOrderTry, exec_none, h1, w1s, hsel] at hok
  | cons o rest =>
    by_cases hst : o.status = "pending"
    · exact cancelOrder_success hsel hst hone
    · simp [cancelOrder, cancelOrderTry, exec_none, h1, w1s, hsel, hst] at hok

/-- Claim C4.  In a store in which no product has a negative stock, no product
has a negative stock after a call of `checkout`, whatever the request and the
database fault; and when no order line has a negative quantity, no product has
a negative stock after a call of `cancelOrder`.  A checkout that is answered
201 had exactly one joined cart row, whose quantity was at most the stock of
its product; a cart with several rows, for one product or for several, is
answered 500 and rolled back. -/
theorem stock_stays_nonnegative (fault : Option Nat) (now : Int) (fresh userId : Nat)
    (body : Body) (params : Params) (s : Store)
    (hstock : ∀ p ∈ s.products, 0 ≤ p.stock) :
    (∀ p ∈ (checkout fault now fresh userId body s).2.products, 0 ≤ p.stock) ∧
      ((∀ d ∈ s.order_details, 0 ≤ d.quantity) →
        ∀ p ∈ (cancelOrder fault userId params s).2.products, 0 ≤ p.stock) ∧
      (2 ≤ (selectCart s userId).length →
        (checkout fault now fresh userId body s).1.status ≠ 201 ∧
          (checkout fault now fresh userId body s).2 = s) := by
  refine ⟨?_, ?_, checkout_two_rows_fails fault now fresh userId body s⟩
  · by_cases hok : (checkout fault now fresh userId body s).1.status = 201
    · have hnone := checkout_created_mono hok
      rw [hnone] at hok ⊢
      obtain ⟨hlen, havail⟩ := checkout_created_rows hok
      obtain ⟨row, hrow⟩ := List.length_eq_one.mp hlen
      rw [(checkout_created_eq hok).2]
      intro p hp
      simp only [successStore, List.mem_map] at hp
      obtain ⟨p0, hp0, rfl⟩ := hp
      show 0 ≤ p0.stock - purchased (selectCart s userId) p0.product_id
      rw [hrow, purchased_cons, show purchased [] p0.product_id = 0 from rfl, add_zero]
      by_cases hpid : row.product_id = p0.product_id
      · have hrowmem : row ∈ selectCart s userId := by rw [hrow]; exact List.mem_singleton_self _
        obtain ⟨c, hc, hu, p1, hp1, hcp, hjoin⟩ := mem_selectCart.mp hrowmem
        have hc0 : c.product_id = p0.product_id := by
          rw [← hpid, hjoin]
          rfl
        have hmem0 : joinRow c p0 ∈ selectCart s userId :=
          mem_selectCart.mpr ⟨c, hc, hu, p0, hp0, hc0, rfl⟩
        rw [hrow, List.mem_singleton] at hmem0
        have hge := havail row hrowmem
        rw [← hmem0] at hge
        simp only [joinRow, not_lt] at hge
        rw [if_pos hpid, ← hmem0]
        show 0 ≤ p0.stock - c.quantity
        omega
      · rw [if_neg hpid]
        simpa using hstock p0 hp0
    · rw [checkout_unchanged hok]
      exact hstock
  · intro hqty
    by_cases hok : (cancelOrder fault userId params s).1 = .cancelled
    · have hnone := cancelOrder_mono hok
      rw [hnone] at hok ⊢
      have hone := cancelOrder_lines hok
      rw [cancelOrder_cancelled_eq hok]
      intro p hp
      simp only [cancelStore, List.mem_map] at hp
      obtain ⟨p0, hp0, rfl⟩ := hp
      have hnn : 0 ≤ restored (selectOrderItems s (params.field "id")) p0.product_id := by
        unfold restored
        apply List.sum_nonneg
        intro x hx
        obtain ⟨d, hd, rfl⟩ := List.mem_map.mp hx
        exact hqty d (List.mem_filter.mp (List.mem_filter.mp hd).1).1
      have := hstock p0 hp0
      show 0 ≤ p0.stock + _
      omega
    · rw [cancelOrder_rollback hok]
      exact hstock

/-- Witness of C4: user 7 holds two variants of product 1, two units each,
while the stock is 3: the checkout is answered 500 and the stock stays 3.  The
checkout of the worked example takes the stock from 5 to 3, and the
cancellation of the pending order of two units takes it from 3 to 5. -/
theorem stock_stays_nonnegative_witness :
    (∀ p ∈ (checkout none 0 1 7 plainBody twoVariantStore).2.products, 0 ≤ p.stock) ∧
      ((checkout none 0 1 7 plainBody twoVariantStore).1.status ≠ 201 ∧
        (checkout none 0 1 7 plainBody twoVariantStore).2 = twoVariantStore) ∧
      (∀ p ∈ (checkout none 0 1 7 plainBody (exampleStore 5 none 0)).2.products,
        0 ≤ p.stock) ∧
      (∀ p ∈ (cancelOrder none 7 (idParams 1) pendingOrderStore).2.products, 0 ≤ p.stock) :=
  ⟨(stock_stays_nonnegative none 0 1 7 plainBody (idParams 1) twoVariantStore
      (by simp [twoVariantStore])).1,
    (stock_stays_nonnegative none 0 1 7 plainBody (idParams 1) twoVariantStore
      (by simp [twoVariantStore])).2.2 (by
        rw [show selectCart twoVariantStore 7 = [_, _] from by with_unfolding_all rfl]
        simp),
    (stock_stays_nonnegative none 0 1 7 plainBody (idParams 1) (exampleStore 5 none 0)
      (by simp [exampleStore, productA])).1,
    (stock_stays_nonnegative none 0 1 7 plainBody (idParams 1) pendingOrderStore
      (by simp [pendingOrderStore, productA])).2.1 (by simp [pendingOrderStore])⟩

end Shop
